import Mathlib

/-!
# Fox Suite reverb plug-ins: parameter mapping, mix laws and the per-sample pipeline

Shallow embedding of

* `reverb-esame-mis/src/MisEfx.cpp` (class `MisEfx`, the Schroeder/Freeverb network),
* `plugins/MisEfx/MisEfx.cpp` (class `Feedverb`, the feedback-delay-network plug-in).

C `float`/`double` values are read in exact arithmetic: every definition is generic over a
linearly ordered field `K` (it runs on `ℚ`), and the `<math.h>` functions the code calls are
passed in as a record `Libm K`.  Theorems that speak about `exp`, `log` or real powers are
stated over `ℝ` with the record's fields fixed to the real functions.

The DSP classes of the block library (`CombFilter`, `LPCombFilter`, `AllPassFilter`, the
Butterworth filters, `Tremolo`, `FDN`) and the header constants are not part of the sources
embedded here: each class is an interface record whose operations are parameters, and the
constants are fields of a record.
-/

/-! ## `<math.h>` -/

/-- The functions of `<math.h>` used by the plug-ins, over the scalar type `K`. -/
structure Libm (K : Type) where
  exp : K → K
  log : K → K
  pow : K → K → K
  sin : K → K
  cos : K → K
  M_PI : K

/-- The record `m` interprets `exp`, `log`, `pow`, `sin`, `cos` and `M_PI` as the real
exponential, the natural logarithm, the real power, the real sine and cosine, and `π`. -/
def Libm.IsReal (m : Libm ℝ) : Prop :=
  m.exp = Real.exp ∧ m.log = Real.log ∧ m.pow = (fun a b => a ^ b) ∧
    m.sin = Real.sin ∧ m.cos = Real.cos ∧ m.M_PI = Real.pi

/-! ## Interfaces of the block library -/

/-- Interface of the library class `CombFilter` (used as the pre-delay module). -/
structure CombFilterClass (K : Type) where
  T : Type
  create : T
  init : T → K → ℤ → T
  setDelayInmsec : T → K → T
  setFeedback : T → K → T
  setSampleRate : T → K → T
  processAudio : T → K → T × K

/-- Interface of the library class `LPCombFilter` (a damped comb-filter unit). -/
structure LPCombFilterClass (K : Type) where
  T : Type
  create : T
  init : T → K → ℤ → T
  setDelayInmsec : T → K → T
  setFeedbackFromDecay : T → K → T
  setFeedbackToNegative : T → T
  setCutoffFrequency : T → K → T
  setMakeUpGaindB : T → K → T
  setSampleRate : T → K → T
  processAudio : T → K → T × K

/-- Interface of the library class `AllPassFilter`. -/
structure AllPassFilterClass (K : Type) where
  T : Type
  create : T
  init : T → K → ℤ → T
  setDelayInmsec : T → K → T
  setFeedback : T → K → T
  setSampleRate : T → K → T
  processAudio : T → K → T × K

/-- Interface shared by the library classes `LPFButterworth` and `HPFButterworth`. -/
structure ButterworthClass (K : Type) where
  T : Type
  create : T
  init : T → ℤ → T
  setCutoffFrequency : T → K → T
  setSampleRate : T → K → T
  processAudio : T → K → T × K

/-- The library enumeration `OscillatorType` (only the enumerator the plug-in names). -/
inductive OscillatorType where
  | Sine
  deriving DecidableEq

/-- Interface of the library class `Tremolo`. -/
structure TremoloClass (K : Type) where
  T : Type
  create : T
  init : T → ℤ → OscillatorType → K → K → T
  setModRate : T → K → T
  setModDepth : T → K → T
  setSampleRate : T → K → T
  processAudio : T → K → T × K

/-- The block library the Schroeder plug-in is linked against. -/
structure DspLibrary (K : Type) where
  CombFilter : CombFilterClass K
  LPCombFilter : LPCombFilterClass K
  AllPassFilter : AllPassFilterClass K
  LPFButterworth : ButterworthClass K
  HPFButterworth : ButterworthClass K
  Tremolo : TremoloClass K

/-- A block library whose units keep no state and hand every sample through unchanged;
it serves to run the plug-ins on concrete inputs. -/
def DspLibrary.passThrough (K : Type) : DspLibrary K where
  CombFilter :=
    { T := Unit, create := (), init := fun _ _ _ => (), setDelayInmsec := fun _ _ => (),
      setFeedback := fun _ _ => (), setSampleRate := fun _ _ => (),
      processAudio := fun _ x => ((), x) }
  LPCombFilter :=
    { T := Unit, create := (), init := fun _ _ _ => (), setDelayInmsec := fun _ _ => (),
      setFeedbackFromDecay := fun _ _ => (), setFeedbackToNegative := fun _ => (),
      setCutoffFrequency := fun _ _ => (), setMakeUpGaindB := fun _ _ => (),
      setSampleRate := fun _ _ => (), processAudio := fun _ x => ((), x) }
  AllPassFilter :=
    { T := Unit, create := (), init := fun _ _ _ => (), setDelayInmsec := fun _ _ => (),
      setFeedback := fun _ _ => (), setSampleRate := fun _ _ => (),
      processAudio := fun _ x => ((), x) }
  LPFButterworth :=
    { T := Unit, create := (), init := fun _ _ => (), setCutoffFrequency := fun _ _ => (),
      setSampleRate := fun _ _ => (), processAudio := fun _ x => ((), x) }
  HPFButterworth :=
    { T := Unit, create := (), init := fun _ _ => (), setCutoffFrequency := fun _ _ => (),
      setSampleRate := fun _ _ => (), processAudio := fun _ x => ((), x) }
  Tremolo :=
    { T := Unit, create := (), init := fun _ _ _ _ _ => (), setModRate := fun _ _ => (),
      setModDepth := fun _ _ => (), setSampleRate := fun _ _ => (),
      processAudio := fun _ x => ((), x) }

/-- A call received by a unit of the block library, with its arguments. -/
inductive Call (K : Type) where
  | init (maxDelayInmsec : K) (sampleRate : ℤ)
  | initFilter (sampleRate : ℤ)
  | initTremolo (sampleRate : ℤ) (waveform : OscillatorType) (modRate modDepth : K)
  | setDelayInmsec (delayInmsec : K)
  | setFeedback (feedback : K)
  | setFeedbackFromDecay (decayInSeconds : K)
  | setFeedbackToNegative
  | setCutoffFrequency (frequency : K)
  | setMakeUpGaindB (gaindB : K)
  | setSampleRate (sampleRate : K)
  | setModRate (modRate : K)
  | setModDepth (modDepth : K)
  | processAudio (sample : K)
  deriving DecidableEq

/-- A block library whose units do nothing but keep the list of the calls they have
received, the newest call first, and hand every sample through unchanged.  A unit of any
library is determined by this list, so what holds of the lists holds of the calls the
plug-in makes, whatever the library. -/
def DspLibrary.tracing (K : Type) : DspLibrary K where
  CombFilter :=
    { T := List (Call K), create := [], init := fun t d sr => Call.init d sr :: t,
      setDelayInmsec := fun t d => Call.setDelayInmsec d :: t,
      setFeedback := fun t g => Call.setFeedback g :: t,
      setSampleRate := fun t sr => Call.setSampleRate sr :: t,
      processAudio := fun t x => (Call.processAudio x :: t, x) }
  LPCombFilter :=
    { T := List (Call K), create := [], init := fun t d sr => Call.init d sr :: t,
      setDelayInmsec := fun t d => Call.setDelayInmsec d :: t,
      setFeedbackFromDecay := fun t d => Call.setFeedbackFromDecay d :: t,
      setFeedbackToNegative := fun t => Call.setFeedbackToNegative :: t,
      setCutoffFrequency := fun t f => Call.setCutoffFrequency f :: t,
      setMakeUpGaindB := fun t g => Call.setMakeUpGaindB g :: t,
      setSampleRate := fun t sr => Call.setSampleRate sr :: t,
      processAudio := fun t x => (Call.processAudio x :: t, x) }
  AllPassFilter :=
    { T := List (Call K), create := [], init := fun t d sr => Call.init d sr :: t,
      setDelayInmsec := fun t d => Call.setDelayInmsec d :: t,
      setFeedback := fun t g => Call.setFeedback g :: t,
      setSampleRate := fun t sr => Call.setSampleRate sr :: t,
      processAudio := fun t x => (Call.processAudio x :: t, x) }
  LPFButterworth :=
    { T := List (Call K), create := [], init := fun t sr => Call.initFilter sr :: t,
      setCutoffFrequency := fun t f => Call.setCutoffFrequency f :: t,
      setSampleRate := fun t sr => Call.setSampleRate sr :: t,
      processAudio := fun t x => (Call.processAudio x :: t, x) }
  HPFButterworth :=
    { T := List (Call K), create := [], init := fun t sr => Call.initFilter sr :: t,
      setCutoffFrequency := fun t f => Call.setCutoffFrequency f :: t,
      setSampleRate := fun t sr => Call.setSampleRate sr :: t,
      processAudio := fun t x => (Call.processAudio x :: t, x) }
  Tremolo :=
    { T := List (Call K), create := [],
      init := fun t sr w r d => Call.initTremolo sr w r d :: t,
      setModRate := fun t r => Call.setModRate r :: t,
      setModDepth := fun t d => Call.setModDepth d :: t,
      setSampleRate := fun t sr => Call.setSampleRate sr :: t,
      processAudio := fun t x => (Call.processAudio x :: t, x) }

/-- The value given by the newest `setFeedback` call in a list of calls (newest first). -/
def Call.lastFeedback {K : Type} : List (Call K) → Option K
  | [] => none
  | Call.setFeedback g :: _ => some g
  | _ :: t => Call.lastFeedback t

/-- A call keeps within the capacity `cap` (in milliseconds): an `init` allocates `cap`, a
`setDelayInmsec` asks for at most `cap`. -/
def Call.WithinCapacity {K : Type} [LinearOrderedField K] (cap : K) : Call K → Prop
  | Call.init maxDelayInmsec _ => maxDelayInmsec = cap
  | Call.setDelayInmsec delayInmsec => delayInmsec ≤ cap
  | _ => True

/-- A unit, given by the calls it has received, was initialised with the capacity `cap` at
the rate `sr` and has been asked for no delay beyond `cap`. -/
def UnitWithinCapacity {K : Type} [LinearOrderedField K] (cap : K) (sr : ℤ)
    (u : List (Call K)) : Prop :=
  Call.init cap sr ∈ u ∧ ∀ call ∈ u, call.WithinCapacity cap

/-- A block library with memory in the comb units and in the output low-pass filter, for
running the pipeline on concrete inputs.  A comb unit is a delay of one sample: it returns
the sample it stored at the previous call and stores its input.  The output low-pass filter
returns the mean of its input and the input of its previous call.  The other units hand
every sample through unchanged. -/
def DspLibrary.withMemory (K : Type) [LinearOrderedField K] : DspLibrary K :=
  { DspLibrary.passThrough K with
    LPCombFilter :=
      { T := K, create := 0, init := fun f _ _ => f, setDelayInmsec := fun f _ => f,
        setFeedbackFromDecay := fun f _ => f, setFeedbackToNegative := fun f => f,
        setCutoffFrequency := fun f _ => f, setMakeUpGaindB := fun f _ => f,
        setSampleRate := fun f _ => f, processAudio := fun f x => (x, f) }
    LPFButterworth :=
      { T := K, create := 0, init := fun f _ => f, setCutoffFrequency := fun f _ => f,
        setSampleRate := fun f _ => f, processAudio := fun f x => (x, (x + f) / 2) } }

/-- The helper `vst_strncpy(dst, src, maxLen)` of the VST SDK, which is not among the
embedded sources: it overwrites `dst` with the first `maxLen` characters of `src`.  The
value is the new content of `dst`. -/
def vst_strncpy (_dst : String) (src : String) (maxLen : ℕ) : String :=
  String.mk (src.data.take maxLen)

/-- The frequency constants of the library header (`MIN_LPF_FREQUENCY`, ... and their
`_LOG` companions); the header is not among the embedded sources, so the values are
fields. -/
structure Constants (K : Type) where
  MIN_LPF_FREQUENCY : K
  MAX_LPF_FREQUENCY : K
  MIN_HPF_FREQUENCY : K
  MAX_HPF_FREQUENCY : K
  MIN_LPF_FREQUENCY_LOG : K
  MAX_LPF_FREQUENCY_LOG : K
  MIN_HPF_FREQUENCY_LOG : K
  MAX_HPF_FREQUENCY_LOG : K

/-- The `_LOG` constants are the logarithms of the frequency bounds, and each range is a
non-degenerate range of positive frequencies. -/
def Constants.LogsOfHz {K : Type} [LinearOrderedField K] (m : Libm K) (c : Constants K) :
    Prop :=
  c.MIN_LPF_FREQUENCY_LOG = m.log c.MIN_LPF_FREQUENCY ∧
  c.MAX_LPF_FREQUENCY_LOG = m.log c.MAX_LPF_FREQUENCY ∧
  c.MIN_HPF_FREQUENCY_LOG = m.log c.MIN_HPF_FREQUENCY ∧
  c.MAX_HPF_FREQUENCY_LOG = m.log c.MAX_HPF_FREQUENCY ∧
  0 < c.MIN_LPF_FREQUENCY ∧ c.MIN_LPF_FREQUENCY < c.MAX_LPF_FREQUENCY ∧
  0 < c.MIN_HPF_FREQUENCY ∧ c.MIN_HPF_FREQUENCY < c.MAX_HPF_FREQUENCY

/-! ## `reverb-esame-mis/src/MisEfx.cpp`: helpers shared by both plug-ins -/

section Mapping

variable {K : Type} [LinearOrderedField K]

/-- Source function `MisEfx::mapValueIntoRange`. -/
def mapValueIntoRange (value minvalue maxValue : K) : K :=
  minvalue + value * (maxValue - minvalue)

/-- Source function `MisEfx::mapValueOutsideRange`. -/
def mapValueOutsideRange (value minValue maxValue : K) : K :=
  (value - minValue) / (maxValue - minValue)

end Mapping

/-! ## `reverb-esame-mis/src/MisEfx.cpp`: the Schroeder plug-in -/

namespace MisEfx

section Defs

variable {K : Type} [LinearOrderedField K]

def MAX_COMB_FILTER_LENGTH_IN_MS : K := 100.0
def MAX_PREDELAY_VALUE_IN_MS : K := 300.0
def MAX_AP_FILTER_LENGTH_IN_MS : K := 50.0
def MAX_REVERB_DECAY_IN_SECONDS : K := 5.0
def MAX_SMEARING_VALUE : K := 0.97
def MIN_MOD_RATE_IN_HZ : K := 0.1
def MAX_MOD_RATE_IN_HZ : K := 10.0
def STEREO_SPREAD_COEFFICIENT_IN_MS : K := 1.0
def NUM_PRESETS : ℕ := 5

/-! Extents of the filter arrays.  They are declared in the plug-in's header, which is not
among the embedded sources; the values are the numbers of elements that
`setCombFiltersDelay` and `setAllPassFiltersDelay` assign. -/

def NUM_COMB_FILTERS : ℕ := 8
def NUM_ALLPASS_FILTERS_IN : ℕ := 3
def NUM_ALLPASS_FILTERS_OUT : ℕ := 3

/-! The enumeration `EfxParameter`.  The plug-in's own header is not among the embedded
sources; the numbering is the one of `plugins/Feedverb/Feedverb.h`, which declares the same
enumerators. -/

def Param_wet : ℤ := 0
def Param_decay : ℤ := 1
def Param_preDelay : ℤ := 2
def Param_damping : ℤ := 3
def Param_spread : ℤ := 4
def Param_smearing : ℤ := 5
def Param_lpfFreq : ℤ := 6
def Param_hpfFreq : ℤ := 7
def Param_ModRate : ℤ := 8
def Param_ModDepth : ℤ := 9
def Param_Count : ℤ := 10

/-- The class `ReverbPresets`: one stored preset. -/
structure ReverbPresets (K : Type) where
  name : String
  rev_wet : K
  rev_smearing : K
  rev_decay : K
  rev_damping : K
  rev_lpfFreq : K
  rev_hpfFreq : K
  rev_preDelay : K
  rev_modRate : K
  rev_modDepth : K
  rev_spread : K

end Defs

/-- The data members of a `MisEfx` instance. -/
structure State (K : Type) (lib : DspLibrary K) where
  rev_presets : List (ReverbPresets K)
  curProgram : ℤ
  rev_wet : K
  rev_smearing : K
  rev_decay : K
  rev_damping : K
  rev_lpfFreq : K
  rev_hpfFreq : K
  rev_preDelay : K
  rev_modRate : K
  rev_modDepth : K
  rev_spread : K
  wet1 : K
  wet2 : K
  dry : K
  combFilterDlymsLeft : List K
  combFilterDlymsRight : List K
  allPassDlymsLeft_input : List K
  allPassDlymsRight_input : List K
  allPassDlymsLeft_output : List K
  allPassDlymsRight_output : List K
  preDelayModule : lib.CombFilter.T
  combFiltersL : List lib.LPCombFilter.T
  combFiltersR : List lib.LPCombFilter.T
  apFiltersL_input : List lib.AllPassFilter.T
  apFiltersR_input : List lib.AllPassFilter.T
  apFiltersL_output : List lib.AllPassFilter.T
  apFiltersR_output : List lib.AllPassFilter.T
  outputLPF : lib.LPFButterworth.T
  outputHPF : lib.HPFButterworth.T
  tremolo : lib.Tremolo.T
  modWaveform : OscillatorType

section Ops

variable {K : Type} [LinearOrderedField K] {lib : DspLibrary K}

/-- Source function `MisEfx::updateReverbParameters`. -/
def updateReverbParameters (s : State K lib) : State K lib :=
  let width := mapValueIntoRange s.rev_spread (-1.0) 1.0
  { s with
    wet1 := s.rev_wet * (width / 2.0 + 0.5)
    wet2 := s.rev_wet * (1 - width) / 2.0
    dry := 1.0 - s.rev_wet }

/-- The preset table built by `MisEfx::InitPresets`. -/
def presetTable (c : Constants K) : List (ReverbPresets K) :=
  [ { name := "Default", rev_wet := 0.2, rev_decay := 1.0, rev_smearing := 0.7,
      rev_damping := 0.5, rev_lpfFreq := c.MAX_LPF_FREQUENCY,
      rev_hpfFreq := c.MIN_HPF_FREQUENCY, rev_preDelay := 10, rev_modRate := 1.0,
      rev_modDepth := 0.3, rev_spread := 0.3 },
    { name := "Dreamy", rev_wet := 0.5, rev_decay := 3.3, rev_smearing := 0.8,
      rev_damping := 0.6, rev_lpfFreq := 17000.0, rev_hpfFreq := 200.0, rev_preDelay := 80,
      rev_modRate := 1.0, rev_modDepth := 0.6, rev_spread := 1.0 },
    { name := "Short", rev_wet := 0.2, rev_decay := 2, rev_smearing := 0.5,
      rev_damping := 0.4, rev_lpfFreq := c.MAX_LPF_FREQUENCY,
      rev_hpfFreq := c.MIN_HPF_FREQUENCY, rev_preDelay := 20, rev_modRate := 1.0,
      rev_modDepth := 0.1, rev_spread := 0.2 },
    { name := "Metallic", rev_wet := 0.5, rev_decay := 2.2, rev_smearing := 0.0,
      rev_damping := 0.0, rev_lpfFreq := c.MAX_LPF_FREQUENCY, rev_hpfFreq := 650.0,
      rev_preDelay := 20, rev_modRate := 0.1, rev_modDepth := 0.0, rev_spread := 1.0 },
    { name := "Wobbly", rev_wet := 0.65, rev_decay := 2.0, rev_smearing := 0.7,
      rev_damping := 0.3, rev_lpfFreq := 15000.0, rev_hpfFreq := 500.0, rev_preDelay := 20,
      rev_modRate := 3.0, rev_modDepth := 1.0, rev_spread := 0.3 } ]

/-- The preset a program index selects in `rev_presets` (an empty record stands for an
index outside the table). -/
def presetAt (presets : List (ReverbPresets K)) (i : ℤ) : ReverbPresets K :=
  presets.getD i.toNat
    { name := "", rev_wet := 0, rev_smearing := 0, rev_decay := 0, rev_damping := 0,
      rev_lpfFreq := 0, rev_hpfFreq := 0, rev_preDelay := 0, rev_modRate := 0,
      rev_modDepth := 0, rev_spread := 0 }

/-- Source function `MisEfx::setCombFiltersDelay`. -/
def setCombFiltersDelay (s : State K lib) : State K lib :=
  let left : List K := [25.31, 26.94, 28.96, 30.75, 32.24, 33.81, 35.31, 36.70]
  let right : List K := left.map (fun d => d + STEREO_SPREAD_COEFFICIENT_IN_MS)
  { s with
    combFilterDlymsLeft := left
    combFilterDlymsRight := right
    combFiltersL := List.zipWith lib.LPCombFilter.setDelayInmsec s.combFiltersL left
    combFiltersR := List.zipWith lib.LPCombFilter.setDelayInmsec s.combFiltersR right }

/-- Source function `MisEfx::setAllPassFiltersDelay`. -/
def setAllPassFiltersDelay (s : State K lib) : State K lib :=
  let leftIn : List K := [1.1, 2.3, 4.7]
  let leftOut : List K := [7.73, 10.00, 12.61]
  let rightIn : List K := leftIn.map (fun d => d + STEREO_SPREAD_COEFFICIENT_IN_MS)
  let rightOut : List K := leftOut.map (fun d => d + STEREO_SPREAD_COEFFICIENT_IN_MS)
  { s with
    allPassDlymsLeft_input := leftIn
    allPassDlymsLeft_output := leftOut
    allPassDlymsRight_input := rightIn
    allPassDlymsRight_output := rightOut
    apFiltersL_input := List.zipWith lib.AllPassFilter.setDelayInmsec s.apFiltersL_input leftIn
    apFiltersR_input := List.zipWith lib.AllPassFilter.setDelayInmsec s.apFiltersR_input rightIn
    apFiltersL_output :=
      List.zipWith lib.AllPassFilter.setDelayInmsec s.apFiltersL_output leftOut
    apFiltersR_output :=
      List.zipWith lib.AllPassFilter.setDelayInmsec s.apFiltersR_output rightOut }

/-- Source function `MisEfx::InitPlugin` (with `InitPresets` inlined), run by the constructor;
`currSampleRate` is the value of `int currSampleRate = getSampleRate()`. -/
def InitPlugin (c : Constants K) (currSampleRate : ℤ) : State K lib :=
  -- InitPresets
  let rev_presets := presetTable c
  let p := presetAt rev_presets 0
  -- init comb filters
  let dampingFrequency :=
    mapValueIntoRange (1.0 - p.rev_damping) c.MIN_LPF_FREQUENCY c.MAX_LPF_FREQUENCY
  let comb : ℕ → lib.LPCombFilter.T := fun i =>
    let f := lib.LPCombFilter.init lib.LPCombFilter.create MAX_COMB_FILTER_LENGTH_IN_MS
      currSampleRate
    let f := lib.LPCombFilter.setFeedbackFromDecay f p.rev_decay
    let f := lib.LPCombFilter.setCutoffFrequency f dampingFrequency
    let f := lib.LPCombFilter.setMakeUpGaindB f (-12.0)
    if 0 < i then lib.LPCombFilter.setFeedbackToNegative f else f
  -- init all pass lines
  let allPass : ℕ → lib.AllPassFilter.T := fun _ =>
    lib.AllPassFilter.setFeedback
      (lib.AllPassFilter.init lib.AllPassFilter.create MAX_AP_FILTER_LENGTH_IN_MS
        currSampleRate)
      p.rev_smearing
  let s : State K lib :=
    { rev_presets := rev_presets
      curProgram := 0
      rev_wet := p.rev_wet
      rev_decay := p.rev_decay
      rev_smearing := p.rev_smearing
      rev_damping := p.rev_damping
      rev_lpfFreq := p.rev_lpfFreq
      rev_hpfFreq := p.rev_hpfFreq
      rev_preDelay := p.rev_preDelay
      rev_modRate := p.rev_modRate
      rev_modDepth := p.rev_modDepth
      rev_spread := p.rev_spread
      wet1 := 0
      wet2 := 0
      dry := 0
      combFilterDlymsLeft := []
      combFilterDlymsRight := []
      allPassDlymsLeft_input := []
      allPassDlymsRight_input := []
      allPassDlymsLeft_output := []
      allPassDlymsRight_output := []
      -- init pre-delay
      preDelayModule :=
        lib.CombFilter.setFeedback
          (lib.CombFilter.setDelayInmsec
            (lib.CombFilter.init lib.CombFilter.create MAX_PREDELAY_VALUE_IN_MS
              currSampleRate)
            p.rev_preDelay)
          0.0
      combFiltersL := (List.range NUM_COMB_FILTERS).map comb
      combFiltersR := (List.range NUM_COMB_FILTERS).map comb
      apFiltersL_input := (List.range NUM_ALLPASS_FILTERS_IN).map allPass
      apFiltersR_input := (List.range NUM_ALLPASS_FILTERS_IN).map allPass
      apFiltersL_output := (List.range NUM_ALLPASS_FILTERS_OUT).map allPass
      apFiltersR_output := (List.range NUM_ALLPASS_FILTERS_OUT).map allPass
      -- init Output LPF and HPF filters
      outputLPF :=
        lib.LPFButterworth.setCutoffFrequency
          (lib.LPFButterworth.init lib.LPFButterworth.create currSampleRate) p.rev_lpfFreq
      outputHPF :=
        lib.HPFButterworth.setCutoffFrequency
          (lib.HPFButterworth.init lib.HPFButterworth.create currSampleRate) p.rev_hpfFreq
      -- init tremolo
      tremolo :=
        lib.Tremolo.init lib.Tremolo.create currSampleRate OscillatorType.Sine
          p.rev_modRate p.rev_modDepth
      modWaveform := OscillatorType.Sine }
  setAllPassFiltersDelay (setCombFiltersDelay (updateReverbParameters s))

/-- Source function `MisEfx::setParameter`: the `switch` over the parameter index; a `for`
loop over a filter array updates every element of the array. -/
def setParameter (m : Libm K) (c : Constants K) (s : State K lib) (index : ℤ) (value : K) :
    State K lib :=
  if index = Param_wet then
    updateReverbParameters { s with rev_wet := value }
  else if index = Param_decay then
    let rev_decay := value * MAX_REVERB_DECAY_IN_SECONDS
    { s with
      rev_decay := rev_decay
      combFiltersL :=
        s.combFiltersL.map (fun f => lib.LPCombFilter.setFeedbackFromDecay f rev_decay)
      combFiltersR :=
        s.combFiltersR.map (fun f => lib.LPCombFilter.setFeedbackFromDecay f rev_decay) }
  else if index = Param_smearing then
    let rev_smearing := value * MAX_SMEARING_VALUE
    { s with
      rev_smearing := rev_smearing
      apFiltersL_input :=
        s.apFiltersL_input.map (fun f => lib.AllPassFilter.setFeedback f rev_smearing)
      apFiltersR_input :=
        s.apFiltersR_input.map (fun f => lib.AllPassFilter.setFeedback f rev_smearing)
      apFiltersL_output :=
        s.apFiltersL_output.map (fun f => lib.AllPassFilter.setFeedback f rev_smearing)
      apFiltersR_output :=
        s.apFiltersR_output.map (fun f => lib.AllPassFilter.setFeedback f rev_smearing) }
  else if index = Param_damping then
    let rev_damping := value
    let dampingFrequency :=
      mapValueIntoRange (1.0 - rev_damping) c.MIN_LPF_FREQUENCY c.MAX_LPF_FREQUENCY
    { s with
      rev_damping := rev_damping
      combFiltersL :=
        s.combFiltersL.map (fun f => lib.LPCombFilter.setCutoffFrequency f dampingFrequency)
      combFiltersR :=
        s.combFiltersR.map (fun f => lib.LPCombFilter.setCutoffFrequency f dampingFrequency) }
  else if index = Param_lpfFreq then
    let rev_lpfFreq :=
      m.exp (mapValueIntoRange value c.MIN_LPF_FREQUENCY_LOG c.MAX_LPF_FREQUENCY_LOG)
    { s with
      rev_lpfFreq := rev_lpfFreq
      outputLPF := lib.LPFButterworth.setCutoffFrequency s.outputLPF rev_lpfFreq }
  else if index = Param_hpfFreq then
    let rev_hpfFreq :=
      m.exp (mapValueIntoRange value c.MIN_HPF_FREQUENCY_LOG c.MAX_HPF_FREQUENCY_LOG)
    { s with
      rev_hpfFreq := rev_hpfFreq
      outputHPF := lib.HPFButterworth.setCutoffFrequency s.outputHPF rev_hpfFreq }
  else if index = Param_preDelay then
    let rev_preDelay := value * MAX_PREDELAY_VALUE_IN_MS
    { s with
      rev_preDelay := rev_preDelay
      preDelayModule := lib.CombFilter.setDelayInmsec s.preDelayModule rev_preDelay }
  else if index = Param_ModRate then
    let rev_modRate := mapValueIntoRange value MIN_MOD_RATE_IN_HZ MAX_MOD_RATE_IN_HZ
    { s with
      rev_modRate := rev_modRate
      tremolo := lib.Tremolo.setModRate s.tremolo rev_modRate }
  else if index = Param_ModDepth then
    let rev_modDepth := value
    { s with
      rev_modDepth := rev_modDepth
      tremolo := lib.Tremolo.setModDepth s.tremolo rev_modDepth }
  else if index = Param_spread then
    updateReverbParameters { s with rev_spread := value }
  else
    s

/-- Source function `MisEfx::getParameter`. -/
def getParameter (m : Libm K) (c : Constants K) (s : State K lib) (index : ℤ) : K :=
  if index = Param_wet then
    s.rev_wet
  else if index = Param_decay then
    s.rev_decay / MAX_REVERB_DECAY_IN_SECONDS
  else if index = Param_smearing then
    s.rev_smearing / MAX_SMEARING_VALUE
  else if index = Param_damping then
    s.rev_damping
  else if index = Param_lpfFreq then
    mapValueOutsideRange (m.log s.rev_lpfFreq) c.MIN_LPF_FREQUENCY_LOG c.MAX_LPF_FREQUENCY_LOG
  else if index = Param_hpfFreq then
    mapValueOutsideRange (m.log s.rev_hpfFreq) c.MIN_HPF_FREQUENCY_LOG c.MAX_HPF_FREQUENCY_LOG
  else if index = Param_preDelay then
    s.rev_preDelay / MAX_PREDELAY_VALUE_IN_MS
  else if index = Param_ModRate then
    mapValueOutsideRange s.rev_modRate MIN_MOD_RATE_IN_HZ MAX_MOD_RATE_IN_HZ
  else if index = Param_ModDepth then
    s.rev_modDepth
  else if index = Param_spread then
    s.rev_spread
  else
    0

/-- A `for` loop that sends one sample through the units of an array in series, each unit
fed with the output of the previous one (the all-pass loops of `processReplacing`). -/
def seriesProcess {T : Type} (processAudio : T → K → T × K) : List T → K → List T × K
  | [], x => ([], x)
  | u :: us, x =>
    let r := processAudio u x
    let rs := seriesProcess processAudio us r.2
    (r.1 :: rs.1, rs.2)

/-- A `for` loop that feeds the same sample to every unit of an array and adds the outputs
to an accumulator (the comb-filter loop of `processReplacing`). -/
def parallelProcess {T : Type} (processAudio : T → K → T × K) :
    List T → K → K → List T × K
  | [], _, acc => ([], acc)
  | u :: us, x, acc =>
    let r := processAudio u x
    let rs := parallelProcess processAudio us x (acc + r.2)
    (r.1 :: rs.1, rs.2)

/-- The pre-delay lines of the loop body of `MisEfx::processReplacing`: the mono input and
the two successive calls of `preDelayModule->processAudio`; returns the module and
`(inputL, inputR)`. -/
def preDelayStage (C : CombFilterClass K) (preDelayModule : C.T) (inL_i inR_i : K) :
    C.T × K × K :=
  let input_mono := (inL_i + inR_i) / 2.0
  let a := C.processAudio preDelayModule input_mono
  let b := C.processAudio a.1 input_mono
  (b.1, a.2, b.2)

/-- The pre-delay module after the first `n` iterations of the loop of
`MisEfx::processReplacing`. -/
def preDelayAfter (C : CombFilterClass K) (inL inR : ℕ → K) : ℕ → C.T → C.T
  | 0, pd => pd
  | n + 1, pd => (preDelayStage C (preDelayAfter C inL inR n pd) (inL n) (inR n)).1

/-- The pair `(inputL, inputR)` that the pre-delay hands to the input all-pass chains in
iteration `i` of the loop of `MisEfx::processReplacing`. -/
def preDelayOut (C : CombFilterClass K) (inL inR : ℕ → K) (pd : C.T) (i : ℕ) : K × K :=
  (preDelayStage C (preDelayAfter C inL inR i pd) (inL i) (inR i)).2

/-- The loop body of `MisEfx::processReplacing` up to the stereo mix: the wet chain of one
frame.  Returns the plug-in with every component advanced, and `(outputL, outputR)`. -/
def wetChain (s : State K lib) (inL_i inR_i : K) : State K lib × K × K :=
  -- Pre-delay processing
  let pd := preDelayStage lib.CombFilter s.preDelayModule inL_i inR_i
  -- Input AllPass Filters series processing
  let apLi := seriesProcess lib.AllPassFilter.processAudio s.apFiltersL_input pd.2.1
  let apRi := seriesProcess lib.AllPassFilter.processAudio s.apFiltersR_input pd.2.2
  -- Comb Filters parallel processing
  let cbL := parallelProcess lib.LPCombFilter.processAudio s.combFiltersL apLi.2 0
  let cbR := parallelProcess lib.LPCombFilter.processAudio s.combFiltersR apRi.2 0
  -- Output AllPass Filters series processing
  let apLo := seriesProcess lib.AllPassFilter.processAudio s.apFiltersL_output cbL.2
  let apRo := seriesProcess lib.AllPassFilter.processAudio s.apFiltersR_output cbR.2
  -- Output LPF processing
  let lpL := lib.LPFButterworth.processAudio s.outputLPF apLo.2
  let lpR := lib.LPFButterworth.processAudio lpL.1 apRo.2
  -- Output HPF processing
  let hpL := lib.HPFButterworth.processAudio s.outputHPF lpL.2
  let hpR := lib.HPFButterworth.processAudio hpL.1 lpR.2
  -- Tremolo processing
  let trL := lib.Tremolo.processAudio s.tremolo hpL.2
  let trR := lib.Tremolo.processAudio trL.1 hpR.2
  ({ s with
      preDelayModule := pd.1
      apFiltersL_input := apLi.1
      apFiltersR_input := apRi.1
      combFiltersL := cbL.1
      combFiltersR := cbR.1
      apFiltersL_output := apLo.1
      apFiltersR_output := apRo.1
      outputLPF := lpR.1
      outputHPF := hpR.1
      tremolo := trR.1 },
    trL.2, trR.2)

/-- The last two statements of the loop body of `MisEfx::processReplacing`: the stereo
spread mix of the wet outputs with the dry inputs; returns `(outL[i], outR[i])`. -/
def stereoMix (wet1 wet2 dry outputL outputR inL_i inR_i : K) : K × K :=
  (wet1 * outputL + wet2 * outputR + dry * inL_i,
   wet1 * outputR + wet2 * outputL + dry * inR_i)

/-- What `MisEfx::processReplacing` has done when its loop has run: the plug-in and the two
output buffers. -/
structure Run (K : Type) (lib : DspLibrary K) where
  plugin : State K lib
  outL : ℕ → K
  outR : ℕ → K

/-- One iteration, of index `i`, of the loop of `MisEfx::processReplacing`. -/
def processFrame (inL inR : ℕ → K) (i : ℕ) (r : Run K lib) : Run K lib :=
  let w := wetChain r.plugin (inL i) (inR i)
  let o := stereoMix r.plugin.wet1 r.plugin.wet2 r.plugin.dry w.2.1 w.2.2 (inL i) (inR i)
  { plugin := w.1
    outL := Function.update r.outL i o.1
    outR := Function.update r.outR i o.2 }

/-- The loop `for (int i = 0; i < n; i++)` of `MisEfx::processReplacing`, from the state
`r`: iterations `0, 1, ..., n - 1` in this order. -/
def processLoop (inL inR : ℕ → K) : ℕ → Run K lib → Run K lib
  | 0, r => r
  | n + 1, r => processFrame inL inR n (processLoop inL inR n r)

/-- Source function `MisEfx::processReplacing`: the buffers are indexed by frame; `outL`,
`outR` are the output buffers as the host hands them over. -/
def processReplacing (s : State K lib) (inL inR outL outR : ℕ → K) (sampleFrames : ℕ) :
    Run K lib :=
  processLoop inL inR sampleFrames { plugin := s, outL := outL, outR := outR }

/-- Source function `MisEfx::setProgram`.  The base-class call
`AudioEffect::setProgram(program)` of the VST SDK stores `program` in `curProgram`. -/
def setProgram (m : Libm K) (c : Constants K) (s : State K lib) (program : ℤ) :
    State K lib :=
  let s : State K lib := { s with curProgram := program }
  let cp := presetAt s.rev_presets s.curProgram
  let s := setParameter m c s Param_wet cp.rev_wet
  let s := setParameter m c s Param_decay (cp.rev_decay / MAX_REVERB_DECAY_IN_SECONDS)
  let s := setParameter m c s Param_damping cp.rev_damping
  let s := setParameter m c s Param_smearing (cp.rev_smearing / MAX_SMEARING_VALUE)
  let s := setParameter m c s Param_spread cp.rev_spread
  let s := setParameter m c s Param_ModDepth cp.rev_modDepth
  let s := setParameter m c s Param_preDelay (cp.rev_preDelay / MAX_PREDELAY_VALUE_IN_MS)
  let s := setParameter m c s Param_lpfFreq
    (mapValueOutsideRange (m.log cp.rev_lpfFreq) c.MIN_LPF_FREQUENCY_LOG
      c.MAX_LPF_FREQUENCY_LOG)
  let s := setParameter m c s Param_hpfFreq
    (mapValueOutsideRange (m.log cp.rev_hpfFreq) c.MIN_HPF_FREQUENCY_LOG
      c.MAX_HPF_FREQUENCY_LOG)
  setParameter m c s Param_ModRate
    (mapValueOutsideRange cp.rev_modRate MIN_MOD_RATE_IN_HZ MAX_MOD_RATE_IN_HZ)

/-- Source function `MisEfx::setSampleRate`.  The base-class call
`AudioEffect::setSampleRate(sampleRate)` stores the rate in the VST base object, which is
not part of `State`. -/
def setSampleRate (s : State K lib) (sampleRate : K) : State K lib :=
  { s with
    preDelayModule := lib.CombFilter.setSampleRate s.preDelayModule sampleRate
    combFiltersL := s.combFiltersL.map (fun f => lib.LPCombFilter.setSampleRate f sampleRate)
    combFiltersR := s.combFiltersR.map (fun f => lib.LPCombFilter.setSampleRate f sampleRate)
    apFiltersL_input :=
      s.apFiltersL_input.map (fun f => lib.AllPassFilter.setSampleRate f sampleRate)
    apFiltersR_input :=
      s.apFiltersR_input.map (fun f => lib.AllPassFilter.setSampleRate f sampleRate)
    apFiltersL_output :=
      s.apFiltersL_output.map (fun f => lib.AllPassFilter.setSampleRate f sampleRate)
    apFiltersR_output :=
      s.apFiltersR_output.map (fun f => lib.AllPassFilter.setSampleRate f sampleRate)
    tremolo := lib.Tremolo.setSampleRate s.tremolo sampleRate
    outputLPF := lib.LPFButterworth.setSampleRate s.outputLPF sampleRate
    outputHPF := lib.HPFButterworth.setSampleRate s.outputHPF sampleRate }

end Ops

/-- A control call of the host on the plug-in. -/
inductive HostCall (K : Type) where
  | setParameter (index : ℤ) (value : K)
  | setProgram (program : ℤ)

section Host

variable {K : Type} [LinearOrderedField K] {lib : DspLibrary K}

/-- The host keeps to the contract: a normalized value lies in `[0,1]`, a program index in
`0 .. NUM_PRESETS - 1`. -/
def HostCall.InRange : HostCall K → Prop
  | HostCall.setParameter _ value => 0 ≤ value ∧ value ≤ 1
  | HostCall.setProgram program => 0 ≤ program ∧ program < (NUM_PRESETS : ℤ)

/-- The plug-in after one control call. -/
def HostCall.apply (m : Libm K) (c : Constants K) (s : State K lib) : HostCall K → State K lib
  | HostCall.setParameter index value => MisEfx.setParameter m c s index value
  | HostCall.setProgram program => MisEfx.setProgram m c s program

/-- The plug-in after a sequence of control calls, made in the order of the list. -/
def runHost (m : Libm K) (c : Constants K) (s : State K lib) (calls : List (HostCall K)) :
    State K lib :=
  calls.foldl (HostCall.apply m c) s

/-- The ten stored physical parameters and the three derived mix gains of the plug-in. -/
def storedParameters (s : State K lib) : List K :=
  [s.rev_wet, s.rev_decay, s.rev_smearing, s.rev_damping, s.rev_lpfFreq, s.rev_hpfFreq,
    s.rev_preDelay, s.rev_modRate, s.rev_modDepth, s.rev_spread, s.wet1, s.wet2, s.dry]

end Host

/-- What the control calls keep true of the smearing coefficient: the preset table is the
one `InitPresets` built, `rev_smearing` lies in `[0, MAX_SMEARING_VALUE]`, each of the four
all-pass arrays has three units, and the newest `setFeedback` call of every unit gave
`rev_smearing`. -/
def SmearingInvariant {K : Type} [LinearOrderedField K] (c : Constants K)
    (s : State K (DspLibrary.tracing K)) : Prop :=
  s.rev_presets = presetTable c ∧
  0 ≤ s.rev_smearing ∧ s.rev_smearing ≤ MAX_SMEARING_VALUE ∧
  (s.apFiltersL_input.length = NUM_ALLPASS_FILTERS_IN ∧
    s.apFiltersR_input.length = NUM_ALLPASS_FILTERS_IN ∧
    s.apFiltersL_output.length = NUM_ALLPASS_FILTERS_OUT ∧
    s.apFiltersR_output.length = NUM_ALLPASS_FILTERS_OUT) ∧
  ∀ u ∈ (s.apFiltersL_input ++ s.apFiltersR_input ++ s.apFiltersL_output ++
      s.apFiltersR_output : List (List (Call K))),
    Call.lastFeedback u = some s.rev_smearing

/-- The call traces of every DSP component a Schroeder plug-in owns, when it runs on the
tracing library: the pre-delay, the tremolo, the two output filters, the two comb banks and
the four all-pass arrays. -/
def ownedUnits {K : Type} [LinearOrderedField K] (s : State K (DspLibrary.tracing K)) :
    List (List (Call K)) :=
  List.append [s.preDelayModule, s.tremolo, s.outputLPF, s.outputHPF]
    (List.append s.combFiltersL
      (List.append s.combFiltersR
        (List.append s.apFiltersL_input
          (List.append s.apFiltersR_input
            (List.append s.apFiltersL_output s.apFiltersR_output)))))

/-- What the control calls keep true of the stored parameters: the mix gains are the ones
`updateReverbParameters` derives from `rev_wet` and `rev_spread`, and the two tone-filter
frequencies are positive. -/
def StoredConsistent {K : Type} [LinearOrderedField K] {lib : DspLibrary K}
    (s : State K lib) : Prop :=
  s.wet1 = (updateReverbParameters s).wet1 ∧ s.wet2 = (updateReverbParameters s).wet2 ∧
    s.dry = (updateReverbParameters s).dry ∧ 0 < s.rev_lpfFreq ∧ 0 < s.rev_hpfFreq

/-- What the control calls keep true of the delay lengths: the preset table is the one
`InitPresets` built, and the pre-delay, every comb unit and every all-pass unit is within
the capacity it was initialised with. -/
def DelaysWithinCapacity {K : Type} [LinearOrderedField K] (c : Constants K) (sr : ℤ)
    (s : State K (DspLibrary.tracing K)) : Prop :=
  s.rev_presets = presetTable c ∧
  UnitWithinCapacity MAX_PREDELAY_VALUE_IN_MS sr s.preDelayModule ∧
  (∀ u ∈ s.combFiltersL, UnitWithinCapacity MAX_COMB_FILTER_LENGTH_IN_MS sr u) ∧
  (∀ u ∈ s.combFiltersR, UnitWithinCapacity MAX_COMB_FILTER_LENGTH_IN_MS sr u) ∧
  (∀ u ∈ s.apFiltersL_input, UnitWithinCapacity MAX_AP_FILTER_LENGTH_IN_MS sr u) ∧
  (∀ u ∈ s.apFiltersR_input, UnitWithinCapacity MAX_AP_FILTER_LENGTH_IN_MS sr u) ∧
  (∀ u ∈ s.apFiltersL_output, UnitWithinCapacity MAX_AP_FILTER_LENGTH_IN_MS sr u) ∧
  (∀ u ∈ s.apFiltersR_output, UnitWithinCapacity MAX_AP_FILTER_LENGTH_IN_MS sr u)

/-- The pair `(outputL, outputR)` the wet chain hands to the stereo mix in iteration `i` of
the loop of `MisEfx::processReplacing` started on the plug-in `s`: `outputL` is the value
multiplied by `wet1` in `outL[i]`. -/
def wetOut {K : Type} [LinearOrderedField K] {lib : DspLibrary K} (s : State K lib)
    (inL inR : ℕ → K) (i : ℕ) : K × K :=
  (wetChain
    (processLoop inL inR i { plugin := s, outL := fun _ => 0, outR := fun _ => 0 }).plugin
    (inL i) (inR i)).2

/-- Source function `MisEfx::getParameterLabel`; the value is the content of `label` when
the function returns.  `kVstMaxParamStrLen` is a constant of the VST SDK.  `case
Param_decay` has no `break`, so control runs on into the statement of `case
Param_smearing`. -/
def getParameterLabel (kVstMaxParamStrLen : ℕ) (index : ℤ) (label : String) : String :=
  if index = Param_wet then
    vst_strncpy label "" kVstMaxParamStrLen
  else if index = Param_decay then
    let label := vst_strncpy label "s" kVstMaxParamStrLen
    vst_strncpy label "dB" kVstMaxParamStrLen
  else if index = Param_smearing then
    vst_strncpy label "dB" kVstMaxParamStrLen
  else if index = Param_damping then
    vst_strncpy label "" kVstMaxParamStrLen
  else if index = Param_lpfFreq then
    vst_strncpy label "Hz" kVstMaxParamStrLen
  else if index = Param_hpfFreq then
    vst_strncpy label "Hz" kVstMaxParamStrLen
  else if index = Param_preDelay then
    vst_strncpy label "ms" kVstMaxParamStrLen
  else if index = Param_ModRate then
    vst_strncpy label "Hz" kVstMaxParamStrLen
  else if index = Param_ModDepth then
    vst_strncpy label "%" kVstMaxParamStrLen
  else if index = Param_spread then
    vst_strncpy label "" kVstMaxParamStrLen
  else
    label

end MisEfx

/-! ## `plugins/MisEfx/MisEfx.cpp`: the feedback-delay-network plug-in (class `Feedverb`) -/

namespace FdnFeedverb

/-- Library enumeration `DelayDistribution` (only the enumerator the plug-in names). -/
inductive DelayDistribution where
  | RandomInRange
  deriving DecidableEq

/-- Library enumeration `LPFilterType` (the enumerators the plug-in names). -/
inductive LPFilterType where
  | Shelving
  | Vicanek
  deriving DecidableEq

/-- Library enumeration `HPFilterType` (only the enumerator the plug-in names). -/
inductive HPFilterType where
  | Shelving
  deriving DecidableEq

/-- Library enumeration `DiffuserDelayLogic` (only the enumerator the plug-in names). -/
inductive DiffuserDelayLogic where
  | Doubled
  deriving DecidableEq

/-- Library enumeration `MixMode` (only the enumerator the plug-in names). -/
inductive MixMode where
  | First
  deriving DecidableEq

/-- Interface of the library class `FDN` (`initialise` stands for `FDN::initialize`). -/
structure FDNClass (K : Type) where
  T : Type
  create : ℤ → ℤ → ℤ → ℤ → ℤ → T
  initialise : T → K → K → ℤ → T
  setRoomSize : T → K → DiffuserDelayLogic → DelayDistribution → DelayDistribution → T
  setDecayInSeconds : T → K → T
  setDampingFrequency : T → K → T
  setDampingType : T → LPFilterType → T
  setLowPassFrequency : T → K → T
  setLowPassType : T → LPFilterType → T
  setHighPassFrequency : T → K → T
  setHighPassType : T → HPFilterType → T
  setModDepth : T → K → T
  setModRate : T → K → T
  setStereoSpread : T → K → T
  setMixMode : T → MixMode → T
  setSampleRate : T → K → T
  processAudio : T → K × K → T × (K × K)

/-- The values an `FDN` has last received from its setters. -/
structure FDNSettings (K : Type) where
  sampleRate : K
  roomSize : K
  decayInSeconds : K
  dampingFrequency : K
  lowPassFrequency : K
  highPassFrequency : K
  modDepth : K
  modRate : K
  stereoSpread : K

/-- An `FDN` that records the value each setter last received and hands the input pair
through; it serves to run the plug-in on concrete inputs and to read what was pushed. -/
def FDNClass.recording (K : Type) [LinearOrderedField K] : FDNClass K where
  T := FDNSettings K
  create := fun _ _ _ _ _ =>
    { sampleRate := 0, roomSize := 0, decayInSeconds := 0, dampingFrequency := 0,
      lowPassFrequency := 0, highPassFrequency := 0, modDepth := 0, modRate := 0,
      stereoSpread := 0 }
  initialise := fun f _ _ sr => { f with sampleRate := (sr : K) }
  setRoomSize := fun f x _ _ _ => { f with roomSize := x }
  setDecayInSeconds := fun f x => { f with decayInSeconds := x }
  setDampingFrequency := fun f x => { f with dampingFrequency := x }
  setDampingType := fun f _ => f
  setLowPassFrequency := fun f x => { f with lowPassFrequency := x }
  setLowPassType := fun f _ => f
  setHighPassFrequency := fun f x => { f with highPassFrequency := x }
  setHighPassType := fun f _ => f
  setModDepth := fun f x => { f with modDepth := x }
  setModRate := fun f x => { f with modRate := x }
  setStereoSpread := fun f x => { f with stereoSpread := x }
  setMixMode := fun f _ => f
  setSampleRate := fun f x => { f with sampleRate := x }
  processAudio := fun f x => (f, x)

/-- The enumerators of this plug-in's `EfxParameter` that the code names (its header, with
their numbering, is not among the embedded sources). -/
inductive EfxParameter where
  | Param_mix
  | Param_roomSize
  | Param_decay
  | Param_spread
  | Param_modDepth
  | Param_modRate
  | Param_freqDamp
  | Param_lpf
  | Param_hpf
  | Param_early
  deriving DecidableEq

section Defs

variable {K : Type} [LinearOrderedField K]

def NUM_PRESETS : ℕ := 1
def DEFAULT_NUMBER_OF_INTERNAL_CHANNELS_FDN : ℤ := 16
def DIFFUSER_DELAY_BUFFER_SIZE_MS : K := 2000.0
def FEEDBACK_DELAY_BUFFER_SIZE_MS : K := 2000.0
def MAX_REVERB_DECAY_IN_SECONDS : K := 30.0
def MIN_FEEDBACK_DELAY_LENGTH : K := 100.0
def NUMBER_OF_DIFFUSION_STEPS : ℤ := 5
def EARLYREFL_DELAY_DISTRIBUTION : DelayDistribution := DelayDistribution.RandomInRange
def DIFFUSER_DELAY_DISTRIBUTION : DelayDistribution := DelayDistribution.RandomInRange
def FEEDBACK_DELAY_DISTRIBUTION : DelayDistribution := DelayDistribution.RandomInRange
def OUTPUT_LPF_TYPE : LPFilterType := LPFilterType.Shelving
def DAMPING_LPF_TYPE : LPFilterType := LPFilterType.Vicanek
def OUTPUT_HPF_TYPE : HPFilterType := HPFilterType.Shelving
def DIFFUSION_LOGIC : DiffuserDelayLogic := DiffuserDelayLogic.Doubled
def MIN_DAMPING_FREQUENCY : K := 200.0
def MAX_DAMPING_FREQUENCY : K := 20000.0
def MAX_MOD_RATE : K := 5.0
def LPF_FILTER_MIN_FREQ : K := 100.0
def HPF_FILTER_MIN_FREQ : K := 40.0
def LPF_FILTER_MAX_FREQ : K := 20000.0
def HPF_FILTER_MAX_FREQ : K := 7000.0

def MIN_DAMPING_FREQUENCY_LOG (m : Libm K) : K := m.log MIN_DAMPING_FREQUENCY
def MAX_DAMPING_FREQUENCY_LOG (m : Libm K) : K := m.log MAX_DAMPING_FREQUENCY
def LPF_FILTER_MAX_FREQ_LOG (m : Libm K) : K := m.log LPF_FILTER_MAX_FREQ
def LPF_FILTER_MIN_FREQ_LOG (m : Libm K) : K := m.log LPF_FILTER_MIN_FREQ

end Defs

/-- The data members of a `Feedverb` instance of `plugins/MisEfx`. -/
structure State (K : Type) (F : FDNClass K) where
  fdnver_modFeed : K
  fdnver_modRate : K
  fdnver_modDepth : K
  fdnver_mix : K
  fdnver_roomSize : K
  fdnver_highfreq : K
  fdnver_modMix : K
  fdnver_spread : K
  fdnver_freqDamp : K
  fdnver_lowfreq : K
  fdnver_stereoSpread : K
  fdnver_decay : K
  fdnver_lpftype : K
  _wet : K
  _dry : K
  t : K
  fdnver_FDN : F.T

section Ops

variable {K : Type} [LinearOrderedField K] {F : FDNClass K}

/-- Source function `Feedverb::updateMix`. -/
def updateMix (m : Libm K) (s : State K F) : State K F :=
  { s with
    _wet := m.sin (s.fdnver_mix * m.M_PI * 0.5)
    _dry := m.cos (s.fdnver_mix * m.M_PI * 0.5) }

/-- Source function `Feedverb::InitPlugin` of `plugins/MisEfx`, run by the constructor;
`sampleRate` is the value of `int sampleRate = getSampleRate()`, and `t` is the member `t`,
which this file never assigns. -/
def InitPlugin (m : Libm K) (c : Constants K) (sampleRate : ℤ) (t : K) : State K F :=
  let fdnver_roomSize : K := 0.5
  let fdnver_modRate : K := 0.0
  let fdnver_modDepth : K := 0.0
  let fdnver_freqDamp : K := 0.5
  let fdnver_lowfreq : K := c.MAX_LPF_FREQUENCY
  let fdnver_stereoSpread : K := 0.5
  let fdnver_decay : K := 0.2
  let fdnver_highfreq : K := c.MIN_HPF_FREQUENCY
  -- Create FDN objects
  let fdn := F.create 2 DEFAULT_NUMBER_OF_INTERNAL_CHANNELS_FDN 2 NUMBER_OF_DIFFUSION_STEPS 1
  -- Initialize objects (allocate delay lines)
  let fdn := F.initialise fdn DIFFUSER_DELAY_BUFFER_SIZE_MS FEEDBACK_DELAY_BUFFER_SIZE_MS
    sampleRate
  -- Set room size
  let fdn := F.setRoomSize fdn fdnver_roomSize DIFFUSION_LOGIC DIFFUSER_DELAY_DISTRIBUTION
    FEEDBACK_DELAY_DISTRIBUTION
  -- Set decay
  let fdn := F.setDecayInSeconds fdn (fdnver_decay * MAX_REVERB_DECAY_IN_SECONDS)
  -- set damping frequency
  let fdn := F.setDampingFrequency fdn
    (m.exp (mapValueIntoRange (1.0 - fdnver_freqDamp)
      (MIN_DAMPING_FREQUENCY_LOG m) (MAX_DAMPING_FREQUENCY_LOG m)))
  let fdn := F.setDampingType fdn DAMPING_LPF_TYPE
  -- set output low & high pass filters
  let fdn := F.setLowPassFrequency fdn fdnver_lowfreq
  let fdn := F.setLowPassType fdn OUTPUT_LPF_TYPE
  let fdn := F.setHighPassType fdn OUTPUT_HPF_TYPE
  let fdn := F.setHighPassFrequency fdn fdnver_highfreq
  -- Modulation
  let fdn := F.setModDepth fdn fdnver_modDepth
  let fdn := F.setModRate fdn fdnver_modRate
  -- stereo spread
  let fdn := F.setStereoSpread fdn fdnver_stereoSpread
  -- output mixing mode
  let fdn := F.setMixMode fdn MixMode.First
  updateMix m
    { fdnver_modFeed := 0.4
      fdnver_modRate := fdnver_modRate
      fdnver_modDepth := fdnver_modDepth
      fdnver_mix := 0.5
      fdnver_roomSize := fdnver_roomSize
      fdnver_highfreq := fdnver_highfreq
      fdnver_modMix := 0.5
      fdnver_spread := 1.0
      fdnver_freqDamp := fdnver_freqDamp
      fdnver_lowfreq := fdnver_lowfreq
      fdnver_stereoSpread := fdnver_stereoSpread
      fdnver_decay := fdnver_decay
      fdnver_lpftype := 0.61
      _wet := 0
      _dry := 0
      t := t
      fdnver_FDN := fdn }

/-- Source function `Feedverb::setParameter` of `plugins/MisEfx`.  `mapValueIntoRange` is
the helper of the same name defined in `reverb-esame-mis/src/MisEfx.cpp`. -/
def setParameter (m : Libm K) (s : State K F) (index : EfxParameter) (value : K) :
    State K F :=
  match index with
  | .Param_mix =>
    updateMix m { s with fdnver_mix := value }
  | .Param_roomSize =>
    { s with
      fdnver_roomSize := value
      fdnver_FDN := F.setRoomSize s.fdnver_FDN value DIFFUSION_LOGIC
        DIFFUSER_DELAY_DISTRIBUTION FEEDBACK_DELAY_DISTRIBUTION }
  | .Param_decay =>
    { s with
      fdnver_decay := value
      fdnver_FDN := F.setDecayInSeconds s.fdnver_FDN (value * MAX_REVERB_DECAY_IN_SECONDS) }
  | .Param_spread =>
    { s with
      fdnver_spread := value
      fdnver_FDN := F.setStereoSpread s.fdnver_FDN value }
  | .Param_modDepth =>
    { s with
      fdnver_modDepth := value
      fdnver_FDN := F.setModDepth s.fdnver_FDN value }
  | .Param_modRate =>
    { s with
      fdnver_modRate := value
      fdnver_FDN := F.setModRate s.fdnver_FDN (value * MAX_MOD_RATE) }
  | .Param_freqDamp =>
    let freq := m.exp (mapValueIntoRange (1.0 - value)
      (MIN_DAMPING_FREQUENCY_LOG m) (MAX_DAMPING_FREQUENCY_LOG m))
    { s with
      fdnver_freqDamp := value
      fdnver_FDN := F.setDampingFrequency s.fdnver_FDN freq }
  | .Param_lpf =>
    let fdnver_lowfreq := m.exp (mapValueIntoRange value
      (LPF_FILTER_MIN_FREQ_LOG m) (LPF_FILTER_MAX_FREQ_LOG m))
    { s with
      fdnver_lowfreq := fdnver_lowfreq
      fdnver_FDN := F.setLowPassFrequency s.fdnver_FDN fdnver_lowfreq }
  | .Param_hpf =>
    let fdnver_highfreq := mapValueIntoRange value HPF_FILTER_MIN_FREQ HPF_FILTER_MAX_FREQ
    { s with
      fdnver_highfreq := fdnver_highfreq
      fdnver_FDN := F.setHighPassFrequency s.fdnver_FDN fdnver_highfreq }
  | _ => s

/-- Source function `Feedverb::getParameter` of `plugins/MisEfx`.  `mapValueOutsideRange` is
the helper of the same name defined in `reverb-esame-mis/src/MisEfx.cpp`; the bounds it is
given here are the constants of the library header. -/
def getParameter (m : Libm K) (c : Constants K) (s : State K F) (index : EfxParameter) : K :=
  match index with
  | .Param_mix => s.fdnver_mix
  | .Param_modDepth => s.fdnver_modDepth
  | .Param_modRate => s.fdnver_modRate
  | .Param_hpf => mapValueOutsideRange s.fdnver_highfreq c.MIN_HPF_FREQUENCY c.MAX_HPF_FREQUENCY
  | .Param_roomSize => s.fdnver_roomSize
  | .Param_decay => s.fdnver_decay
  | .Param_early => s.t
  | .Param_spread => s.fdnver_spread
  | .Param_freqDamp => s.fdnver_freqDamp
  | .Param_lpf =>
    mapValueOutsideRange (m.log s.fdnver_lowfreq) c.MIN_LPF_FREQUENCY_LOG c.MAX_LPF_FREQUENCY_LOG

/-- What `Feedverb::processReplacing` of `plugins/MisEfx` has done when its loop has run:
the plug-in and the two output buffers. -/
structure Run (K : Type) (F : FDNClass K) where
  plugin : State K F
  outL : ℕ → K
  outR : ℕ → K

/-- One iteration, of index `i`, of the loop of `Feedverb::processReplacing` of
`plugins/MisEfx`; the FDN fills the local array `output`. -/
def processFrame (inL inR : ℕ → K) (i : ℕ) (r : Run K F) : Run K F :=
  let input : K × K := (inL i, inR i)
  let y := F.processAudio r.plugin.fdnver_FDN input
  let output : K × K := y.2
  { plugin := { r.plugin with fdnver_FDN := y.1 }
    outL := Function.update r.outL i (output.1 * r.plugin._wet + inL i * r.plugin._dry)
    outR := Function.update r.outR i (output.2 * r.plugin._wet + inR i * r.plugin._dry) }

/-- The loop `for (int i = 0; i < n; i++)` of `Feedverb::processReplacing` of
`plugins/MisEfx`: iterations `0, 1, ..., n - 1` in this order. -/
def processLoop (inL inR : ℕ → K) : ℕ → Run K F → Run K F
  | 0, r => r
  | n + 1, r => processFrame inL inR n (processLoop inL inR n r)

/-- Source function `Feedverb::processReplacing` of `plugins/MisEfx`; `outL`, `outR` are the
output buffers as the host hands them over. -/
def processReplacing (s : State K F) (inL inR outL outR : ℕ → K) (sampleFrames : ℕ) :
    Run K F :=
  processLoop inL inR sampleFrames { plugin := s, outL := outL, outR := outR }

/-- The FDN stepped `n` times in index order, the `i`-th step on the pair
`(inL[i], inR[i])`: what the contract of `ProcessBlock` asks for. -/
def fdnSteppedInOrder (F : FDNClass K) (inL inR : ℕ → K) : ℕ → F.T → F.T
  | 0, f => f
  | n + 1, f => (F.processAudio (fdnSteppedInOrder F inL inR n f) (inL n, inR n)).1

end Ops

end FdnFeedverb

/-! ## `plugins/Feedverb/Feedverb.cpp` and `Feedverb.h`: the `Feedverb` plug-in -/

namespace Feedverb

/-- Interface of the library class `FDN` as this plug-in uses it.  `processAudio(in, out)`
takes two pointers: it is given the buffer each pointer addresses and returns the output
buffer as the call leaves it. -/
structure FDNClass (K : Type) where
  T : Type
  setSampleRate : T → K → T
  processAudio : T → (ℕ → K) → (ℕ → K) → T × (ℕ → K)

/-- An `FDN` with one input and one output channel (the channel counts of the constructor
call that `InitPlugin` keeps in a comment) that hands the sample through: a step reads
`in[0]` and writes `out[0]`; its state is the sample rate it was last given. -/
def FDNClass.monoThrough (K : Type) : FDNClass K where
  T := K
  setSampleRate := fun _ sampleRate => sampleRate
  processAudio := fun f input output => (f, Function.update output 0 (input 0))

/-- The class `ReverbPresets` of `Feedverb.h`. -/
structure ReverbPresets (K : Type) where
  name : String
  rev_wet : K
  rev_smearing : K
  rev_decay : K
  rev_damping : K
  rev_lpfFreq : K
  rev_hpfFreq : K
  rev_preDelay : K
  rev_modRate : K
  rev_modDepth : K
  rev_spread : K

/-- The data members of a `Feedverb` instance of `plugins/Feedverb`. -/
structure State (K : Type) (F : FDNClass K) where
  rev_presets : List (ReverbPresets K)
  rev_wet : K
  rev_smearing : K
  rev_decay : K
  rev_damping : K
  rev_lpfFreq : K
  rev_hpfFreq : K
  rev_preDelay : K
  rev_modRate : K
  rev_modDepth : K
  rev_spread : K
  fdnverb_fdnLeft : F.T
  fdnverb_fdnRight : F.T

section Ops

variable {K : Type} [LinearOrderedField K] {F : FDNClass K}

/-- Source function `Feedverb::setSampleRate` of `plugins/Feedverb`.  The base-class call
`AudioEffect::setSampleRate(sampleRate)` stores the rate in the VST base object, which is
not part of `State`. -/
def setSampleRate (s : State K F) (sampleRate : K) : State K F :=
  { s with fdnverb_fdnLeft := F.setSampleRate s.fdnverb_fdnLeft sampleRate }

/-- What `Feedverb::processReplacing` of `plugins/Feedverb` has done when its loop has run:
the plug-in and the two output buffers. -/
structure Run (K : Type) (F : FDNClass K) where
  plugin : State K F
  outL : ℕ → K
  outR : ℕ → K

/-- One iteration of the loop of `Feedverb::processReplacing` of `plugins/Feedverb`: both
FDNs are called with the buffer pointers themselves.  The input buffers are taken to be
distinct from the output buffers. -/
def processFrame (inL inR : ℕ → K) (r : Run K F) : Run K F :=
  let l := F.processAudio r.plugin.fdnverb_fdnLeft inL r.outL
  let rr := F.processAudio r.plugin.fdnverb_fdnRight inR r.outR
  { plugin := { r.plugin with fdnverb_fdnLeft := l.1, fdnverb_fdnRight := rr.1 }
    outL := l.2
    outR := rr.2 }

/-- The loop `for (int i = 0; i < n; i++)` of `Feedverb::processReplacing` of
`plugins/Feedverb`. -/
def processLoop (inL inR : ℕ → K) : ℕ → Run K F → Run K F
  | 0, r => r
  | n + 1, r => processFrame inL inR (processLoop inL inR n r)

/-- Source function `Feedverb::processReplacing` of `plugins/Feedverb`; `outL`, `outR` are
the output buffers as the host hands them over. -/
def processReplacing (s : State K F) (inL inR outL outR : ℕ → K) (sampleFrames : ℕ) :
    Run K F :=
  processLoop inL inR sampleFrames { plugin := s, outL := outL, outR := outR }

end Ops

/-! The enumeration `EfxParameter` of `Feedverb.h`. -/

def Param_wet : ℤ := 0
def Param_decay : ℤ := 1
def Param_preDelay : ℤ := 2
def Param_damping : ℤ := 3
def Param_spread : ℤ := 4
def Param_smearing : ℤ := 5
def Param_lpfFreq : ℤ := 6
def Param_hpfFreq : ℤ := 7
def Param_ModRate : ℤ := 8
def Param_ModDepth : ℤ := 9
def Param_Count : ℤ := 10

/-- Source function `Feedverb::getParameterLabel` of `plugins/Feedverb`; the value is the
content of `label` when the function returns.  `kVstMaxParamStrLen` is a constant of the VST
SDK.  `case Param_decay` has no `break`, so control runs on into the statement of `case
Param_smearing`. -/
def getParameterLabel (kVstMaxParamStrLen : ℕ) (index : ℤ) (label : String) : String :=
  if index = Param_wet then
    vst_strncpy label "" kVstMaxParamStrLen
  else if index = Param_decay then
    let label := vst_strncpy label "s" kVstMaxParamStrLen
    vst_strncpy label "dB" kVstMaxParamStrLen
  else if index = Param_smearing then
    vst_strncpy label "dB" kVstMaxParamStrLen
  else if index = Param_damping then
    vst_strncpy label "" kVstMaxParamStrLen
  else if index = Param_lpfFreq then
    vst_strncpy label "Hz" kVstMaxParamStrLen
  else if index = Param_hpfFreq then
    vst_strncpy label "Hz" kVstMaxParamStrLen
  else if index = Param_preDelay then
    vst_strncpy label "ms" kVstMaxParamStrLen
  else if index = Param_ModRate then
    vst_strncpy label "Hz" kVstMaxParamStrLen
  else if index = Param_ModDepth then
    vst_strncpy label "%" kVstMaxParamStrLen
  else if index = Param_spread then
    vst_strncpy label "" kVstMaxParamStrLen
  else
    label

end Feedverb

/-! ## Parts of the block library modelled from the specification -/

section SpecModel

variable {K : Type} [LinearOrderedField K]

/-- Modelled from the spec: the bodies of `LPCombFilter::setFeedbackFromDecay` and
`FDN::setDecayInSeconds` are not among the embedded sources.  Section 4.7 gives the gain they
derive for a line of `delaySamples` samples:
`gain = sign * 10^(-3 * delaySamples / (decaySeconds * sampleRate))`. -/
def feedbackFromDecay (m : Libm K) (sign delaySamples decaySeconds sampleRate : K) : K :=
  sign * m.pow 10 (-3 * delaySamples / (decaySeconds * sampleRate))

/-- Modelled from the spec: the delay line of section 3 and 4.1, which the library class
`CombFilter` (not among the embedded sources) is built on: a circular sample buffer, a write
cursor, and the current delay length in samples. -/
structure DelayLine (K : Type) where
  buffer : List K
  cursor : ℕ
  delayInSamples : ℕ

/-- Modelled from the spec: `write(sample)` of section 4.1 stores at the cursor and advances
it, wrapping at the capacity. -/
def DelayLine.write (d : DelayLine K) (sample : K) : DelayLine K :=
  { d with
    buffer := d.buffer.set d.cursor sample
    cursor := (d.cursor + 1) % d.buffer.length }

/-- Modelled from the spec: `readDelayed(lengthInSamples)` of section 4.1 returns the sample
written `lengthInSamples` steps ago. -/
def DelayLine.readDelayed (d : DelayLine K) (lengthInSamples : ℕ) : K :=
  d.buffer.getD ((d.cursor + d.buffer.length - lengthInSamples) % d.buffer.length) 0

/-- Modelled from the spec: the state of a `CombFilter` (not among the embedded sources): a
delay line and a feedback gain. -/
structure SpecCombFilter (K : Type) where
  line : DelayLine K
  feedback : K

/-- Modelled from the spec: `processAudio` of the comb unit of section 4.3, without the
damping filter and the make-up gain of the damped variant:
`y = delayedSample; write(x + y*feedback); return y`. -/
def SpecCombFilter.processAudio (f : SpecCombFilter K) (x : K) : SpecCombFilter K × K :=
  let y := f.line.readDelayed f.line.delayInSamples
  ({ f with line := f.line.write (x + y * f.feedback) }, y)

/-- Modelled from the spec: a `CombFilter` of `capacity` samples, all zero, with the delay
set to `delayInSamples` samples and feedback `0`, as `InitPlugin` configures the pre-delay
module. -/
def SpecCombFilter.preDelay (capacity delayInSamples : ℕ) : SpecCombFilter K :=
  { line := { buffer := List.replicate capacity 0, cursor := 0,
              delayInSamples := delayInSamples }
    feedback := 0.0 }

/-- Modelled from the spec: the class `CombFilter` with the comb unit of section 4.3 as
`processAudio`.  The spec gives no formula for the other operations in samples, so the
delay is kept in samples and these setters leave the line as it is, except `setFeedback`. -/
def specCombFilterClass (K : Type) [LinearOrderedField K] (capacity delayInSamples : ℕ) :
    CombFilterClass K where
  T := SpecCombFilter K
  create := SpecCombFilter.preDelay capacity delayInSamples
  init := fun f _ _ => f
  setDelayInmsec := fun f _ => f
  setFeedback := fun f g => { f with feedback := g }
  setSampleRate := fun f _ => f
  processAudio := SpecCombFilter.processAudio

/-- Modelled from the spec: the outputs of successive `processAudio` calls of one comb unit
on a list of input samples. -/
def SpecCombFilter.run (f : SpecCombFilter K) : List K → List K
  | [] => []
  | x :: xs => (f.processAudio x).2 :: SpecCombFilter.run (f.processAudio x).1 xs

/-- Modelled from the spec: a block library whose `CombFilter` is the comb unit of the
specification and whose other units hand every sample through unchanged. -/
def DspLibrary.withSpecPreDelay (K : Type) [LinearOrderedField K]
    (capacity delayInSamples : ℕ) : DspLibrary K :=
  { DspLibrary.passThrough K with
    CombFilter := specCombFilterClass K capacity delayInSamples }

/-- Modelled from the spec: the control state of an `LPCombFilter` (the class is not among
the embedded sources): the capacity and the current delay in milliseconds, the sample rate,
the sign and the signed feedback gain of section 3 and 4.3, the damping cutoff and the
make-up gain. -/
structure SpecLPCombFilter (K : Type) where
  maxDelayInmsec : K
  sampleRate : K
  delayInmsec : K
  sign : K
  feedback : K
  cutoffFrequency : K
  makeUpGaindB : K

/-- Modelled from the spec: the class `LPCombFilter`, control part.  A new unit has the delay
`delay0` and a positive sign; `setDelayInmsec` stores the delay, clamped to the capacity
(section 4.1), and does not touch the gain; `setFeedbackFromDecay` recomputes the gain from
the unit's own delay length, `delayInmsec * sampleRate / 1000` samples, by the law of
section 4.7 with the unit's sign; `setFeedbackToNegative` makes the sign and the gain
negative.  The audio path is not part of this model: `processAudio` hands the sample
through. -/
def specLPCombFilterClass (m : Libm K) (delay0 : K) : LPCombFilterClass K where
  T := SpecLPCombFilter K
  create :=
    { maxDelayInmsec := 0, sampleRate := 0, delayInmsec := delay0, sign := 1, feedback := 0,
      cutoffFrequency := 0, makeUpGaindB := 0 }
  init := fun f maxDelayInmsec sampleRate =>
    { f with maxDelayInmsec := maxDelayInmsec, sampleRate := (sampleRate : K) }
  setDelayInmsec := fun f d => { f with delayInmsec := min d f.maxDelayInmsec }
  setFeedbackFromDecay := fun f decayInSeconds =>
    { f with
      feedback :=
        feedbackFromDecay m f.sign (f.delayInmsec * f.sampleRate / 1000) decayInSeconds
          f.sampleRate }
  setFeedbackToNegative := fun f => { f with sign := -1, feedback := -|f.feedback| }
  setCutoffFrequency := fun f frequency => { f with cutoffFrequency := frequency }
  setMakeUpGaindB := fun f g => { f with makeUpGaindB := g }
  setSampleRate := fun f sampleRate => { f with sampleRate := sampleRate }
  processAudio := fun f x => (f, x)

/-- Modelled from the spec: the library `base` with the comb units of the specification. -/
def DspLibrary.withSpecLPComb (base : DspLibrary K) (m : Libm K) (delay0 : K) :
    DspLibrary K :=
  { base with LPCombFilter := specLPCombFilterClass m delay0 }

/-- Modelled from the spec: sign alternation of a comb bank of the specification's units
(section 4.3): the bank has `8` units (`NUM_COMB_FILTERS`), unit `0` has a positive sign
and a positive gain, every other unit a negative sign and a negative gain. -/
def SignsAlternate (bank : List (SpecLPCombFilter K)) : Prop :=
  bank.length = 8 ∧
  (∀ f ∈ bank.head?, f.sign = 1 ∧ 0 < f.feedback) ∧
  (∀ f ∈ bank.tail, f.sign = -1 ∧ f.feedback < 0)

end SpecModel

/-- The unit impulse: `1` in frame `0`, then zeros. -/
def unitImpulse {K : Type} [LinearOrderedField K] (i : ℕ) : K := if i = 0 then 1 else 0

/-! ## Parameter mapping -/

/-- Mapping a value into a non-degenerate range and back out returns the value. -/
theorem mapValueOutsideRange_mapValueIntoRange {K : Type} [LinearOrderedField K]
    (x min max : K) (h : min ≠ max) :
    mapValueOutsideRange (mapValueIntoRange x min max) min max = x := by
  have hne : max - min ≠ 0 := sub_ne_zero.mpr (Ne.symm h)
  unfold mapValueOutsideRange mapValueIntoRange
  field_simp

/-- Mapping a value out of a non-degenerate range and back in returns the value. -/
theorem mapValueIntoRange_mapValueOutsideRange {K : Type} [LinearOrderedField K]
    (x min max : K) (h : min ≠ max) :
    mapValueIntoRange (mapValueOutsideRange x min max) min max = x := by
  have hne : max - min ≠ 0 := sub_ne_zero.mpr (Ne.symm h)
  unfold mapValueOutsideRange mapValueIntoRange
  field_simp

/-- C1: `mapValueIntoRange` and `mapValueOutsideRange` are exact inverses of each other:
for `min ≠ max` and every `x`, mapping into the range and back out returns `x`, mapping
out and back in returns `x`, and `mapValueIntoRange v min max = min + v * (max - min)`. -/
theorem mapValue_inverse {K : Type} [LinearOrderedField K] (x min max : K)
    (h : min ≠ max) :
    mapValueOutsideRange (mapValueIntoRange x min max) min max = x ∧
    mapValueIntoRange (mapValueOutsideRange x min max) min max = x ∧
    mapValueIntoRange x min max = min + x * (max - min) :=
  ⟨mapValueOutsideRange_mapValueIntoRange x min max h,
    mapValueIntoRange_mapValueOutsideRange x min max h, rfl⟩

/-- Witness of C1 on the range `[40, 7000]` at `x = 1/2`. -/
theorem mapValue_inverse_witness :
    (40 : ℚ) ≠ 7000 ∧
    (mapValueOutsideRange (mapValueIntoRange (1 / 2 : ℚ) 40 7000) 40 7000 = 1 / 2 ∧
     mapValueIntoRange (mapValueOutsideRange (1 / 2 : ℚ) 40 7000) 40 7000 = 1 / 2 ∧
     mapValueIntoRange (1 / 2 : ℚ) 40 7000 = 40 + 1 / 2 * (7000 - 40)) :=
  ⟨by norm_num, mapValue_inverse (1 / 2) 40 7000 (by norm_num)⟩

namespace MisEfx

/-- C2: in the Schroeder plug-in, for each of the linearly mapped parameters (wet, decay,
smearing, damping, pre-delay, modulation rate, modulation depth, spread) and every
normalized value `v` in `[0,1]`, `getParameter(id)` right after `setParameter(id, v)`
returns `v`. -/
theorem getParameter_setParameter_linear {K : Type} [LinearOrderedField K]
    {lib : DspLibrary K} (m : Libm K) (c : Constants K) (s : State K lib) (id : ℤ) (v : K)
    (hid : id ∈ [Param_wet, Param_decay, Param_smearing, Param_damping, Param_preDelay,
      Param_ModRate, Param_ModDepth, Param_spread])
    (_h0 : 0 ≤ v) (_h1 : v ≤ 1) :
    getParameter m c (setParameter m c s id v) id = v := by
  simp only [List.mem_cons, List.mem_singleton, List.not_mem_nil, or_false] at hid
  rcases hid with h | h | h | h | h | h | h | h <;> subst h
  · simp [getParameter, setParameter, updateReverbParameters, Param_wet]
  · simp [getParameter, setParameter, Param_wet, Param_decay, MAX_REVERB_DECAY_IN_SECONDS]
    norm_num
  · simp [getParameter, setParameter, Param_wet, Param_decay, Param_smearing,
      MAX_SMEARING_VALUE]
    norm_num
  · simp [getParameter, setParameter, Param_wet, Param_decay, Param_smearing, Param_damping]
  · simp [getParameter, setParameter, Param_wet, Param_decay, Param_smearing, Param_damping,
      Param_lpfFreq, Param_hpfFreq, Param_preDelay, MAX_PREDELAY_VALUE_IN_MS]
    norm_num
  · have hne : (MIN_MOD_RATE_IN_HZ : K) ≠ MAX_MOD_RATE_IN_HZ := by
      unfold MIN_MOD_RATE_IN_HZ MAX_MOD_RATE_IN_HZ; norm_num
    simp [getParameter, setParameter, Param_wet, Param_decay, Param_smearing, Param_damping,
      Param_lpfFreq, Param_hpfFreq, Param_preDelay, Param_ModRate,
      mapValueOutsideRange_mapValueIntoRange v _ _ hne]
  · simp [getParameter, setParameter, Param_wet, Param_decay, Param_smearing, Param_damping,
      Param_lpfFreq, Param_hpfFreq, Param_preDelay, Param_ModRate, Param_ModDepth]
  · simp [getParameter, setParameter, updateReverbParameters, Param_wet, Param_decay,
      Param_smearing, Param_damping, Param_lpfFreq, Param_hpfFreq, Param_preDelay,
      Param_ModRate, Param_ModDepth, Param_spread]

/-- Witness of C2: the modulation rate set to `1/2` on the freshly initialised plug-in. -/
theorem getParameter_setParameter_linear_witness :
    Param_ModRate ∈ [Param_wet, Param_decay, Param_smearing, Param_damping, Param_preDelay,
      Param_ModRate, Param_ModDepth, Param_spread] ∧ (0 : ℝ) ≤ 1 / 2 ∧ (1 / 2 : ℝ) ≤ 1 ∧
    getParameter
      ⟨Real.exp, Real.log, fun a b => a ^ b, Real.sin, Real.cos, Real.pi⟩
      ⟨100, 20000, 40, 7000, Real.log 100, Real.log 20000, Real.log 40, Real.log 7000⟩
      (setParameter ⟨Real.exp, Real.log, fun a b => a ^ b, Real.sin, Real.cos, Real.pi⟩
        ⟨100, 20000, 40, 7000, Real.log 100, Real.log 20000, Real.log 40, Real.log 7000⟩
        (InitPlugin
              ⟨100, 20000, 40, 7000, Real.log 100, Real.log 20000, Real.log 40, Real.log 7000⟩
              44100 : State ℝ (DspLibrary.passThrough ℝ))
        Param_ModRate (1 / 2))
      Param_ModRate = 1 / 2 :=
  ⟨by simp, by norm_num, by norm_num,
    getParameter_setParameter_linear _ _ _ _ _ (by simp) (by norm_num) (by norm_num)⟩

/-- C3: in the Schroeder plug-in the two output tone-filter frequencies use the logarithmic
mapping and its inverse.  With `min_log = log(min_hz)` and `max_log = log(max_hz)`,
`setParameter(Param_lpfFreq, v)` stores `exp(min_log + v*(max_log - min_log))` and
`getParameter(Param_lpfFreq)` then returns `v`; the same holds for `Param_hpfFreq` with the
high-pass range. -/
theorem setParameter_toneFreq_log_roundtrip {lib : DspLibrary ℝ} (m : Libm ℝ)
    (c : Constants ℝ) (s : State ℝ lib) (v : ℝ) (hm : m.IsReal) (hc : c.LogsOfHz m)
    (_h0 : 0 ≤ v) (_h1 : v ≤ 1) :
    ((setParameter m c s Param_lpfFreq v).rev_lpfFreq =
        Real.exp (Real.log c.MIN_LPF_FREQUENCY +
          v * (Real.log c.MAX_LPF_FREQUENCY - Real.log c.MIN_LPF_FREQUENCY)) ∧
      getParameter m c (setParameter m c s Param_lpfFreq v) Param_lpfFreq = v) ∧
    ((setParameter m c s Param_hpfFreq v).rev_hpfFreq =
        Real.exp (Real.log c.MIN_HPF_FREQUENCY +
          v * (Real.log c.MAX_HPF_FREQUENCY - Real.log c.MIN_HPF_FREQUENCY)) ∧
      getParameter m c (setParameter m c s Param_hpfFreq v) Param_hpfFreq = v) := by
  obtain ⟨hexp, hlog, -⟩ := hm
  obtain ⟨hl0, hl1, hh0, hh1, hlpos, hllt, hhpos, hhlt⟩ := hc
  rw [hlog] at hl0 hl1 hh0 hh1
  have hlne : c.MIN_LPF_FREQUENCY_LOG ≠ c.MAX_LPF_FREQUENCY_LOG := by
    rw [hl0, hl1]; exact ne_of_lt (Real.log_lt_log hlpos hllt)
  have hhne : c.MIN_HPF_FREQUENCY_LOG ≠ c.MAX_HPF_FREQUENCY_LOG := by
    rw [hh0, hh1]; exact ne_of_lt (Real.log_lt_log hhpos hhlt)
  refine ⟨⟨?_, ?_⟩, ?_, ?_⟩
  · simp [setParameter, Param_wet, Param_decay, Param_smearing, Param_damping,
      Param_lpfFreq, hexp, mapValueIntoRange, hl0, hl1]
  · simp [getParameter, setParameter, Param_wet, Param_decay, Param_smearing, Param_damping,
      Param_lpfFreq, hexp, hlog, Real.log_exp,
      mapValueOutsideRange_mapValueIntoRange v _ _ hlne]
  · simp [setParameter, Param_wet, Param_decay, Param_smearing, Param_damping,
      Param_lpfFreq, Param_hpfFreq, hexp, mapValueIntoRange, hh0, hh1]
  · simp [getParameter, setParameter, Param_wet, Param_decay, Param_smearing, Param_damping,
      Param_lpfFreq, Param_hpfFreq, hexp, hlog, Real.log_exp,
      mapValueOutsideRange_mapValueIntoRange v _ _ hhne]

/-- Witness of C3: the ranges `[100, 20000]` Hz and `[40, 7000]` Hz, `v = 1/2`, on the
freshly initialised plug-in. -/
theorem setParameter_toneFreq_log_roundtrip_witness :
    getParameter
      ⟨Real.exp, Real.log, fun a b => a ^ b, Real.sin, Real.cos, Real.pi⟩
      ⟨100, 20000, 40, 7000, Real.log 100, Real.log 20000, Real.log 40, Real.log 7000⟩
      (setParameter ⟨Real.exp, Real.log, fun a b => a ^ b, Real.sin, Real.cos, Real.pi⟩
        ⟨100, 20000, 40, 7000, Real.log 100, Real.log 20000, Real.log 40, Real.log 7000⟩
        (InitPlugin
              ⟨100, 20000, 40, 7000, Real.log 100, Real.log 20000, Real.log 40, Real.log 7000⟩
              44100 : State ℝ (DspLibrary.passThrough ℝ))
        Param_lpfFreq (1 / 2))
      Param_lpfFreq = 1 / 2 :=
  (setParameter_toneFreq_log_roundtrip
    ⟨Real.exp, Real.log, fun a b => a ^ b, Real.sin, Real.cos, Real.pi⟩
    ⟨100, 20000, 40, 7000, Real.log 100, Real.log 20000, Real.log 40, Real.log 7000⟩
    _ (1 / 2) ⟨rfl, rfl, rfl, rfl, rfl, rfl⟩
    ⟨rfl, rfl, rfl, rfl, by norm_num, by norm_num, by norm_num, by norm_num⟩
    (by norm_num) (by norm_num)).1.2

end MisEfx

/-- Mapping into `[a, b]` and back out of `[p, q]` returns every normalized value exactly
when the two ranges coincide. -/
theorem mapValue_roundtrip_iff {K : Type} [LinearOrderedField K] (a b p q : K)
    (hab : a ≠ b) :
    (∀ v : K, 0 ≤ v → v ≤ 1 → mapValueOutsideRange (mapValueIntoRange v a b) p q = v) ↔
      (p = a ∧ q = b) := by
  constructor
  · intro h
    have h0 := h 0 le_rfl zero_le_one
    have h1 := h 1 zero_le_one le_rfl
    unfold mapValueOutsideRange mapValueIntoRange at h0 h1
    have hq : q - p ≠ 0 := by
      intro hz
      rw [hz, div_zero] at h1
      exact zero_ne_one h1
    rw [div_eq_iff hq] at h0 h1
    have hp : p = a := by linarith
    exact ⟨hp, by rw [hp] at h1; linarith⟩
  · rintro ⟨rfl, rfl⟩ v _ _
    exact mapValueOutsideRange_mapValueIntoRange v p q hab

namespace FdnFeedverb

/-- C4 (what the code does): in the FDN plug-in the getter of `Param_hpf` maps out of the
header range `[MIN_HPF_FREQUENCY, MAX_HPF_FREQUENCY]` what the setter mapped into
`[HPF_FILTER_MIN_FREQ, HPF_FILTER_MAX_FREQ] = [40, 7000]`, and the getter of `Param_lpf`
maps out of `[MIN_LPF_FREQUENCY_LOG, MAX_LPF_FREQUENCY_LOG]` what the setter mapped into
`[log 100, log 20000]`.  `getParameter` after `setParameter(v)` returns `v` for every `v`
in `[0,1]` exactly when the header constants equal the plug-in's own bounds. -/
theorem getParameter_setParameter_freq_iff {F : FDNClass ℝ} (m : Libm ℝ) (c : Constants ℝ)
    (s : State ℝ F) (hm : m.IsReal) :
    (∀ v : ℝ, getParameter m c (setParameter m s .Param_hpf v) .Param_hpf =
        (40 + v * (7000 - 40) - c.MIN_HPF_FREQUENCY) /
          (c.MAX_HPF_FREQUENCY - c.MIN_HPF_FREQUENCY)) ∧
    ((∀ v : ℝ, 0 ≤ v → v ≤ 1 →
        getParameter m c (setParameter m s .Param_hpf v) .Param_hpf = v) ↔
      (c.MIN_HPF_FREQUENCY = 40 ∧ c.MAX_HPF_FREQUENCY = 7000)) ∧
    ((∀ v : ℝ, 0 ≤ v → v ≤ 1 →
        getParameter m c (setParameter m s .Param_lpf v) .Param_lpf = v) ↔
      (c.MIN_LPF_FREQUENCY_LOG = Real.log 100 ∧
        c.MAX_LPF_FREQUENCY_LOG = Real.log 20000)) := by
  obtain ⟨hexp, hlog, -⟩ := hm
  have hlne : Real.log 100 ≠ Real.log 20000 :=
    ne_of_lt (Real.log_lt_log (by norm_num) (by norm_num))
  refine ⟨?_, ?_, ?_⟩
  · intro v
    simp only [getParameter, setParameter, mapValueOutsideRange, mapValueIntoRange,
      HPF_FILTER_MIN_FREQ, HPF_FILTER_MAX_FREQ]
    norm_num
  · have h := mapValue_roundtrip_iff (40 : ℝ) 7000 c.MIN_HPF_FREQUENCY c.MAX_HPF_FREQUENCY
      (by norm_num)
    have e1 : (HPF_FILTER_MIN_FREQ : ℝ) = 40 := by unfold HPF_FILTER_MIN_FREQ; norm_num
    have e2 : (HPF_FILTER_MAX_FREQ : ℝ) = 7000 := by unfold HPF_FILTER_MAX_FREQ; norm_num
    simpa only [getParameter, setParameter, e1, e2] using h
  · have h := mapValue_roundtrip_iff (Real.log 100) (Real.log 20000)
      c.MIN_LPF_FREQUENCY_LOG c.MAX_LPF_FREQUENCY_LOG hlne
    have e1 : (LPF_FILTER_MIN_FREQ : ℝ) = 100 := by unfold LPF_FILTER_MIN_FREQ; norm_num
    have e2 : (LPF_FILTER_MAX_FREQ : ℝ) = 20000 := by unfold LPF_FILTER_MAX_FREQ; norm_num
    simpa only [getParameter, setParameter, LPF_FILTER_MIN_FREQ_LOG, LPF_FILTER_MAX_FREQ_LOG,
      e1, e2, hexp, hlog, Real.log_exp] using h

/-- Witness of C4: under a header whose high-pass range is, for instance, `[20, 20000]`,
`getParameter(Param_hpf)` after `setParameter(Param_hpf, 0)` on the freshly initialised
plug-in returns `(40 - 20) / (20000 - 20)`. -/
theorem getParameter_setParameter_freq_iff_witness :
    getParameter (F := FDNClass.recording ℝ)
      ⟨Real.exp, Real.log, fun a b => a ^ b, Real.sin, Real.cos, Real.pi⟩
      ⟨100, 20000, 20, 20000, Real.log 100, Real.log 20000, Real.log 20, Real.log 20000⟩
      (setParameter ⟨Real.exp, Real.log, fun a b => a ^ b, Real.sin, Real.cos, Real.pi⟩
        (InitPlugin ⟨Real.exp, Real.log, fun a b => a ^ b, Real.sin, Real.cos, Real.pi⟩
          ⟨100, 20000, 20, 20000, Real.log 100, Real.log 20000, Real.log 20, Real.log 20000⟩
          44100 0)
        .Param_hpf 0)
      .Param_hpf = (40 + 0 * (7000 - 40) - 20) / (20000 - 20) :=
  (getParameter_setParameter_freq_iff
    ⟨Real.exp, Real.log, fun a b => a ^ b, Real.sin, Real.cos, Real.pi⟩
    ⟨100, 20000, 20, 20000, Real.log 100, Real.log 20000, Real.log 20, Real.log 20000⟩
    _ ⟨rfl, rfl, rfl, rfl, rfl, rfl⟩).1 0

/-- C5 fails as stated: on the freshly initialised plug-in, `setParameter(Param_hpf, 1/2)`
pushes `3520` Hz to the FDN, which is not `exp(log 40 + (1/2)*(log 7000 - log 40))`. -/
theorem setParameter_hpf_not_logarithmic :
    (setParameter (F := FDNClass.recording ℝ)
        ⟨Real.exp, Real.log, fun a b => a ^ b, Real.sin, Real.cos, Real.pi⟩
        (InitPlugin ⟨Real.exp, Real.log, fun a b => a ^ b, Real.sin, Real.cos, Real.pi⟩
          ⟨100, 20000, 40, 7000, Real.log 100, Real.log 20000, Real.log 40, Real.log 7000⟩
          44100 0)
        .Param_hpf (1 / 2)).fdnver_FDN.highPassFrequency = 3520 ∧
    (3520 : ℝ) ≠ Real.exp (Real.log 40 + 1 / 2 * (Real.log 7000 - Real.log 40)) := by
  constructor
  · simp only [setParameter, FDNClass.recording, mapValueIntoRange, HPF_FILTER_MIN_FREQ,
      HPF_FILTER_MAX_FREQ]
    norm_num
  · intro h
    have h2 : Real.log 3520 = Real.log 40 + 1 / 2 * (Real.log 7000 - Real.log 40) := by
      rw [h, Real.log_exp]
    have h3 : Real.log (3520 * 3520) = Real.log (40 * 7000) := by
      rw [Real.log_mul (by norm_num) (by norm_num),
        Real.log_mul (by norm_num) (by norm_num)]
      linarith
    have h4 := Real.log_injOn_pos (by norm_num : (3520 * 3520 : ℝ) ∈ Set.Ioi 0)
      (by norm_num : (40 * 7000 : ℝ) ∈ Set.Ioi 0) h3
    norm_num at h4

/-- C5 (amended): in the FDN plug-in `setParameter(Param_lpf, v)` pushes to the FDN the
logarithmically mapped low-pass frequency `exp(log 100 + v*(log 20000 - log 100))`, while
`setParameter(Param_hpf, v)` pushes the linearly mapped high-pass frequency
`40 + v*(7000 - 40)`; each value is also the one stored in the plug-in. -/
theorem setParameter_lpf_log_hpf_linear {F : FDNClass ℝ} (m : Libm ℝ) (s : State ℝ F)
    (v : ℝ) (hm : m.IsReal) (_h0 : 0 ≤ v) (_h1 : v ≤ 1) :
    ((setParameter m s .Param_lpf v).fdnver_FDN =
        F.setLowPassFrequency s.fdnver_FDN
          (Real.exp (Real.log 100 + v * (Real.log 20000 - Real.log 100))) ∧
      (setParameter m s .Param_lpf v).fdnver_lowfreq =
        Real.exp (Real.log 100 + v * (Real.log 20000 - Real.log 100))) ∧
    ((setParameter m s .Param_hpf v).fdnver_FDN =
        F.setHighPassFrequency s.fdnver_FDN (40 + v * (7000 - 40)) ∧
      (setParameter m s .Param_hpf v).fdnver_highfreq = 40 + v * (7000 - 40)) := by
  obtain ⟨hexp, hlog, -⟩ := hm
  have e1 : (LPF_FILTER_MIN_FREQ : ℝ) = 100 := by unfold LPF_FILTER_MIN_FREQ; norm_num
  have e2 : (LPF_FILTER_MAX_FREQ : ℝ) = 20000 := by unfold LPF_FILTER_MAX_FREQ; norm_num
  have e3 : (HPF_FILTER_MIN_FREQ : ℝ) = 40 := by unfold HPF_FILTER_MIN_FREQ; norm_num
  have e4 : (HPF_FILTER_MAX_FREQ : ℝ) = 7000 := by unfold HPF_FILTER_MAX_FREQ; norm_num
  refine ⟨⟨?_, ?_⟩, ?_, ?_⟩ <;>
    simp only [setParameter, mapValueIntoRange, LPF_FILTER_MIN_FREQ_LOG,
      LPF_FILTER_MAX_FREQ_LOG, e1, e2, e3, e4, hexp, hlog]

/-- Witness of C5 (amended): `v = 1/2` on the freshly initialised plug-in with the
recording FDN; the high-pass frequency pushed is `40 + (1/2)*(7000 - 40)`. -/
theorem setParameter_lpf_log_hpf_linear_witness :
    (setParameter (F := FDNClass.recording ℝ)
        ⟨Real.exp, Real.log, fun a b => a ^ b, Real.sin, Real.cos, Real.pi⟩
        (InitPlugin ⟨Real.exp, Real.log, fun a b => a ^ b, Real.sin, Real.cos, Real.pi⟩
          ⟨100, 20000, 40, 7000, Real.log 100, Real.log 20000, Real.log 40, Real.log 7000⟩
          44100 0)
        .Param_hpf (1 / 2)).fdnver_highfreq = 40 + 1 / 2 * (7000 - 40) :=
  (setParameter_lpf_log_hpf_linear
    ⟨Real.exp, Real.log, fun a b => a ^ b, Real.sin, Real.cos, Real.pi⟩ _ (1 / 2)
    ⟨rfl, rfl, rfl, rfl, rfl, rfl⟩ (by norm_num) (by norm_num)).2.2

end FdnFeedverb

/-! ## The stereo mix of the Schroeder plug-in -/

namespace MisEfx

section Mix

variable {K : Type} [LinearOrderedField K] {lib : DspLibrary K}

/-- The wet chain advances the components and leaves the three mix gains alone. -/
theorem wetChain_gains (s : State K lib) (x y : K) :
    (wetChain s x y).1.wet1 = s.wet1 ∧ (wetChain s x y).1.wet2 = s.wet2 ∧
      (wetChain s x y).1.dry = s.dry :=
  ⟨rfl, rfl, rfl⟩

/-- The loop of `processReplacing` leaves the three mix gains alone. -/
theorem processLoop_gains (inL inR : ℕ → K) (n : ℕ) (r : Run K lib) :
    (processLoop inL inR n r).plugin.wet1 = r.plugin.wet1 ∧
      (processLoop inL inR n r).plugin.wet2 = r.plugin.wet2 ∧
      (processLoop inL inR n r).plugin.dry = r.plugin.dry := by
  induction n with
  | zero => exact ⟨rfl, rfl, rfl⟩
  | succ n ih => exact ih

/-- Frame `i` of the output buffers once the loop has run `n > i` iterations: the stereo
mix of the wet-chain outputs of iteration `i`, computed on the plug-in as the first `i`
iterations left it. -/
theorem processLoop_out (inL inR : ℕ → K) (r : Run K lib) (n i : ℕ) (hi : i < n) :
    ((processLoop inL inR n r).outL i, (processLoop inL inR n r).outR i) =
      stereoMix r.plugin.wet1 r.plugin.wet2 r.plugin.dry
        (wetChain (processLoop inL inR i r).plugin (inL i) (inR i)).2.1
        (wetChain (processLoop inL inR i r).plugin (inL i) (inR i)).2.2 (inL i) (inR i) := by
  induction n with
  | zero => exact absurd hi (Nat.not_lt_zero i)
  | succ n ih =>
    rcases Nat.lt_succ_iff_lt_or_eq.mp hi with h | h
    · have hne : i ≠ n := Nat.ne_of_lt h
      have := ih h
      simpa [processLoop, processFrame, Function.update_noteq hne] using this
    · subst h
      obtain ⟨g1, g2, g3⟩ := processLoop_gains inL inR i r
      simp [processLoop, processFrame, g1, g2, g3]

/-- The pre-delay module inside the plug-in after `n` iterations of the loop is the module
that `preDelayAfter` computes. -/
theorem processLoop_preDelayModule (inL inR : ℕ → K) (r : Run K lib) (n : ℕ) :
    (processLoop inL inR n r).plugin.preDelayModule =
      preDelayAfter lib.CombFilter inL inR n r.plugin.preDelayModule := by
  induction n with
  | zero => rfl
  | succ n ih => simp [processLoop, processFrame, wetChain, preDelayAfter, ih]

/-- Calling `setParameter(Param_wet, v)` stores `v` and refreshes the mix gains. -/
theorem setParameter_wet (m : Libm K) (c : Constants K) (s : State K lib) (v : K) :
    setParameter m c s Param_wet v = updateReverbParameters { s with rev_wet := v } := by
  simp [setParameter]

/-- Calling `setParameter(Param_spread, v)` stores `v` and refreshes the mix gains. -/
theorem setParameter_spread (m : Libm K) (c : Constants K) (s : State K lib) (v : K) :
    setParameter m c s Param_spread v = updateReverbParameters { s with rev_spread := v } := by
  simp [setParameter, Param_wet, Param_decay, Param_smearing, Param_damping, Param_lpfFreq,
    Param_hpfFreq, Param_preDelay, Param_ModRate, Param_ModDepth, Param_spread]

end Mix

/-- C6: stereo width law of the Schroeder plug-in.  For every wet amount `w = rev_wet` and
spread `sp = rev_spread`, `updateReverbParameters` sets, with `width = 2*sp - 1`,
`wet1 = w*(width/2 + 0.5)`, `wet2 = w*(1 - width)/2` and `dry = 1 - w`; and
`processReplacing` writes, for every frame `i < sampleFrames`,
`outL[i] = wet1*L + wet2*R + dry*inL[i]` and `outR[i] = wet1*R + wet2*L + dry*inR[i]`, where
`L` and `R` are the wet-chain outputs of that frame. -/
theorem stereo_width_law {K : Type} [LinearOrderedField K] {lib : DspLibrary K}
    (s : State K lib) (inL inR outL outR : ℕ → K) (sampleFrames i : ℕ)
    (hi : i < sampleFrames) :
    ((updateReverbParameters s).wet1 =
        s.rev_wet * ((2 * s.rev_spread - 1) / 2 + 0.5) ∧
      (updateReverbParameters s).wet2 = s.rev_wet * (1 - (2 * s.rev_spread - 1)) / 2 ∧
      (updateReverbParameters s).dry = 1 - s.rev_wet) ∧
    (processReplacing s inL inR outL outR sampleFrames).outL i =
      s.wet1 * (wetChain (processReplacing s inL inR outL outR i).plugin (inL i) (inR i)).2.1 +
        s.wet2 *
          (wetChain (processReplacing s inL inR outL outR i).plugin (inL i) (inR i)).2.2 +
        s.dry * inL i ∧
    (processReplacing s inL inR outL outR sampleFrames).outR i =
      s.wet1 * (wetChain (processReplacing s inL inR outL outR i).plugin (inL i) (inR i)).2.2 +
        s.wet2 *
          (wetChain (processReplacing s inL inR outL outR i).plugin (inL i) (inR i)).2.1 +
        s.dry * inR i := by
  have h := processLoop_out inL inR { plugin := s, outL := outL, outR := outR }
    sampleFrames i hi
  rw [stereoMix, Prod.mk.injEq] at h
  refine ⟨⟨?_, ?_, ?_⟩, h.1, h.2⟩
  · simp only [updateReverbParameters, mapValueIntoRange]
    norm_num
    left
    ring
  · simp only [updateReverbParameters, mapValueIntoRange]
    norm_num
    ring
  · simp only [updateReverbParameters]
    norm_num

/-- Witness of C6: frame `1` of a block of `3` frames carrying the unit impulse, on the
freshly initialised plug-in. -/
theorem stereo_width_law_witness :
    1 < 3 ∧
    (processReplacing
        (InitPlugin
              ⟨100, 20000, 40, 7000, Real.log 100, Real.log 20000, Real.log 40, Real.log 7000⟩
              44100 : State ℝ (DspLibrary.passThrough ℝ))
        unitImpulse unitImpulse (fun _ => 0) (fun _ => 0) 3).outL 1 =
      (InitPlugin
              ⟨100, 20000, 40, 7000, Real.log 100, Real.log 20000, Real.log 40, Real.log 7000⟩
              44100 : State ℝ (DspLibrary.passThrough ℝ)).wet1 *
          (wetChain (processReplacing
            (InitPlugin
              ⟨100, 20000, 40, 7000, Real.log 100, Real.log 20000, Real.log 40, Real.log 7000⟩
              44100 : State ℝ (DspLibrary.passThrough ℝ))
            unitImpulse unitImpulse (fun _ => 0) (fun _ => 0) 1).plugin
            (unitImpulse 1) (unitImpulse 1)).2.1 +
        (InitPlugin
              ⟨100, 20000, 40, 7000, Real.log 100, Real.log 20000, Real.log 40, Real.log 7000⟩
              44100 : State ℝ (DspLibrary.passThrough ℝ)).wet2 *
          (wetChain (processReplacing
            (InitPlugin
              ⟨100, 20000, 40, 7000, Real.log 100, Real.log 20000, Real.log 40, Real.log 7000⟩
              44100 : State ℝ (DspLibrary.passThrough ℝ))
            unitImpulse unitImpulse (fun _ => 0) (fun _ => 0) 1).plugin
            (unitImpulse 1) (unitImpulse 1)).2.2 +
        (InitPlugin
              ⟨100, 20000, 40, 7000, Real.log 100, Real.log 20000, Real.log 40, Real.log 7000⟩
              44100 : State ℝ (DspLibrary.passThrough ℝ)).dry * unitImpulse 1 :=
  ⟨by decide,
    (stereo_width_law (InitPlugin
              ⟨100, 20000, 40, 7000, Real.log 100, Real.log 20000, Real.log 40, Real.log 7000⟩
              44100 : State ℝ (DspLibrary.passThrough ℝ))
      unitImpulse unitImpulse (fun _ => 0) (fun _ => 0) 3 1 (by decide)).2.1⟩

/-- C7 fails as stated: with wet `1` and spread `0` set on the freshly initialised
plug-in, wet-chain outputs `(L, R) = (1, 0)` and identical inputs `0` give
`(outL[i], outR[i]) = (0, 1)`. -/
theorem spread_zero_not_collapsed :
    stereoMix
      (setParameter ⟨Real.exp, Real.log, fun a b => a ^ b, Real.sin, Real.cos, Real.pi⟩
        ⟨100, 20000, 40, 7000, Real.log 100, Real.log 20000, Real.log 40, Real.log 7000⟩
        (setParameter ⟨Real.exp, Real.log, fun a b => a ^ b, Real.sin, Real.cos, Real.pi⟩
          ⟨100, 20000, 40, 7000, Real.log 100, Real.log 20000, Real.log 40, Real.log 7000⟩
          (InitPlugin
              ⟨100, 20000, 40, 7000, Real.log 100, Real.log 20000, Real.log 40, Real.log 7000⟩
              44100 : State ℝ (DspLibrary.passThrough ℝ))
          Param_wet 1) Param_spread 0).wet1
      (setParameter ⟨Real.exp, Real.log, fun a b => a ^ b, Real.sin, Real.cos, Real.pi⟩
        ⟨100, 20000, 40, 7000, Real.log 100, Real.log 20000, Real.log 40, Real.log 7000⟩
        (setParameter ⟨Real.exp, Real.log, fun a b => a ^ b, Real.sin, Real.cos, Real.pi⟩
          ⟨100, 20000, 40, 7000, Real.log 100, Real.log 20000, Real.log 40, Real.log 7000⟩
          (InitPlugin
              ⟨100, 20000, 40, 7000, Real.log 100, Real.log 20000, Real.log 40, Real.log 7000⟩
              44100 : State ℝ (DspLibrary.passThrough ℝ))
          Param_wet 1) Param_spread 0).wet2
      (setParameter ⟨Real.exp, Real.log, fun a b => a ^ b, Real.sin, Real.cos, Real.pi⟩
        ⟨100, 20000, 40, 7000, Real.log 100, Real.log 20000, Real.log 40, Real.log 7000⟩
        (setParameter ⟨Real.exp, Real.log, fun a b => a ^ b, Real.sin, Real.cos, Real.pi⟩
          ⟨100, 20000, 40, 7000, Real.log 100, Real.log 20000, Real.log 40, Real.log 7000⟩
          (InitPlugin
              ⟨100, 20000, 40, 7000, Real.log 100, Real.log 20000, Real.log 40, Real.log 7000⟩
              44100 : State ℝ (DspLibrary.passThrough ℝ))
          Param_wet 1) Param_spread 0).dry
      1 0 0 0 = (0, 1) ∧ (0 : ℝ) ≠ 1 := by
  constructor
  · simp only [setParameter_wet, setParameter_spread, updateReverbParameters,
      mapValueIntoRange, stereoMix]
    norm_num
  · norm_num

/-- C7 (amended): in the Schroeder plug-in, for every wet amount `w` in `[0,1]`, every pair
of wet-chain outputs `(L, R)` and identical inputs `x`: with spread `0` the frame's outputs
are the wet channels swapped, `outL = w*R + (1-w)*x` and `outR = w*L + (1-w)*x`; the two
outputs collapse, `outL = outR`, with spread `1/2`. -/
theorem spread_zero_swaps_half_collapses {K : Type} [LinearOrderedField K]
    {lib : DspLibrary K} (m : Libm K) (c : Constants K) (s : State K lib) (w L R x : K)
    (_h0 : 0 ≤ w) (_h1 : w ≤ 1) :
    stereoMix
        (setParameter m c (setParameter m c s Param_wet w) Param_spread 0).wet1
        (setParameter m c (setParameter m c s Param_wet w) Param_spread 0).wet2
        (setParameter m c (setParameter m c s Param_wet w) Param_spread 0).dry
        L R x x = (w * R + (1 - w) * x, w * L + (1 - w) * x) ∧
    (stereoMix
        (setParameter m c (setParameter m c s Param_wet w) Param_spread (1 / 2)).wet1
        (setParameter m c (setParameter m c s Param_wet w) Param_spread (1 / 2)).wet2
        (setParameter m c (setParameter m c s Param_wet w) Param_spread (1 / 2)).dry
        L R x x).1 =
      (stereoMix
        (setParameter m c (setParameter m c s Param_wet w) Param_spread (1 / 2)).wet1
        (setParameter m c (setParameter m c s Param_wet w) Param_spread (1 / 2)).wet2
        (setParameter m c (setParameter m c s Param_wet w) Param_spread (1 / 2)).dry
        L R x x).2 := by
  constructor
  · simp only [setParameter_wet, setParameter_spread, updateReverbParameters,
      mapValueIntoRange, stereoMix]
    norm_num
  · simp only [setParameter_wet, setParameter_spread, updateReverbParameters,
      mapValueIntoRange, stereoMix]
    norm_num
    ring

/-- Witness of C7 (amended): wet `1`, spread `0`, wet-chain outputs `(1, 0)` and inputs
`0` on the freshly initialised plug-in. -/
theorem spread_zero_swaps_half_collapses_witness :
    stereoMix
      (setParameter ⟨Real.exp, Real.log, fun a b => a ^ b, Real.sin, Real.cos, Real.pi⟩
        ⟨100, 20000, 40, 7000, Real.log 100, Real.log 20000, Real.log 40, Real.log 7000⟩
        (setParameter ⟨Real.exp, Real.log, fun a b => a ^ b, Real.sin, Real.cos, Real.pi⟩
          ⟨100, 20000, 40, 7000, Real.log 100, Real.log 20000, Real.log 40, Real.log 7000⟩
          (InitPlugin
              ⟨100, 20000, 40, 7000, Real.log 100, Real.log 20000, Real.log 40, Real.log 7000⟩
              44100 : State ℝ (DspLibrary.passThrough ℝ))
          Param_wet 1) Param_spread 0).wet1
      (setParameter ⟨Real.exp, Real.log, fun a b => a ^ b, Real.sin, Real.cos, Real.pi⟩
        ⟨100, 20000, 40, 7000, Real.log 100, Real.log 20000, Real.log 40, Real.log 7000⟩
        (setParameter ⟨Real.exp, Real.log, fun a b => a ^ b, Real.sin, Real.cos, Real.pi⟩
          ⟨100, 20000, 40, 7000, Real.log 100, Real.log 20000, Real.log 40, Real.log 7000⟩
          (InitPlugin
              ⟨100, 20000, 40, 7000, Real.log 100, Real.log 20000, Real.log 40, Real.log 7000⟩
              44100 : State ℝ (DspLibrary.passThrough ℝ))
          Param_wet 1) Param_spread 0).wet2
      (setParameter ⟨Real.exp, Real.log, fun a b => a ^ b, Real.sin, Real.cos, Real.pi⟩
        ⟨100, 20000, 40, 7000, Real.log 100, Real.log 20000, Real.log 40, Real.log 7000⟩
        (setParameter ⟨Real.exp, Real.log, fun a b => a ^ b, Real.sin, Real.cos, Real.pi⟩
          ⟨100, 20000, 40, 7000, Real.log 100, Real.log 20000, Real.log 40, Real.log 7000⟩
          (InitPlugin
              ⟨100, 20000, 40, 7000, Real.log 100, Real.log 20000, Real.log 40, Real.log 7000⟩
              44100 : State ℝ (DspLibrary.passThrough ℝ))
          Param_wet 1) Param_spread 0).dry
      1 0 0 0 = (1 * 0 + (1 - 1) * 0, 1 * 1 + (1 - 1) * 0) :=
  (spread_zero_swaps_half_collapses
    ⟨Real.exp, Real.log, fun a b => a ^ b, Real.sin, Real.cos, Real.pi⟩
    ⟨100, 20000, 40, 7000, Real.log 100, Real.log 20000, Real.log 40, Real.log 7000⟩
    _ 1 1 0 0 (by norm_num) (by norm_num)).1

/-- C8 fails as stated: on the freshly initialised plug-in with wet `1`, the total wet
power `wet1^2 + wet2^2` is `1` at spread `0` and `1/2` at spread `1/2`. -/
theorem wet_power_not_constant :
    (setParameter ⟨Real.exp, Real.log, fun a b => a ^ b, Real.sin, Real.cos, Real.pi⟩
        ⟨100, 20000, 40, 7000, Real.log 100, Real.log 20000, Real.log 40, Real.log 7000⟩
        (setParameter ⟨Real.exp, Real.log, fun a b => a ^ b, Real.sin, Real.cos, Real.pi⟩
          ⟨100, 20000, 40, 7000, Real.log 100, Real.log 20000, Real.log 40, Real.log 7000⟩
          (InitPlugin
              ⟨100, 20000, 40, 7000, Real.log 100, Real.log 20000, Real.log 40, Real.log 7000⟩
              44100 : State ℝ (DspLibrary.passThrough ℝ))
          Param_wet 1) Param_spread 0).wet1 ^ 2 +
      (setParameter ⟨Real.exp, Real.log, fun a b => a ^ b, Real.sin, Real.cos, Real.pi⟩
        ⟨100, 20000, 40, 7000, Real.log 100, Real.log 20000, Real.log 40, Real.log 7000⟩
        (setParameter ⟨Real.exp, Real.log, fun a b => a ^ b, Real.sin, Real.cos, Real.pi⟩
          ⟨100, 20000, 40, 7000, Real.log 100, Real.log 20000, Real.log 40, Real.log 7000⟩
          (InitPlugin
              ⟨100, 20000, 40, 7000, Real.log 100, Real.log 20000, Real.log 40, Real.log 7000⟩
              44100 : State ℝ (DspLibrary.passThrough ℝ))
          Param_wet 1) Param_spread 0).wet2 ^ 2 = 1 ∧
    (setParameter ⟨Real.exp, Real.log, fun a b => a ^ b, Real.sin, Real.cos, Real.pi⟩
        ⟨100, 20000, 40, 7000, Real.log 100, Real.log 20000, Real.log 40, Real.log 7000⟩
        (setParameter ⟨Real.exp, Real.log, fun a b => a ^ b, Real.sin, Real.cos, Real.pi⟩
          ⟨100, 20000, 40, 7000, Real.log 100, Real.log 20000, Real.log 40, Real.log 7000⟩
          (InitPlugin
              ⟨100, 20000, 40, 7000, Real.log 100, Real.log 20000, Real.log 40, Real.log 7000⟩
              44100 : State ℝ (DspLibrary.passThrough ℝ))
          Param_wet 1) Param_spread (1 / 2)).wet1 ^ 2 +
      (setParameter ⟨Real.exp, Real.log, fun a b => a ^ b, Real.sin, Real.cos, Real.pi⟩
        ⟨100, 20000, 40, 7000, Real.log 100, Real.log 20000, Real.log 40, Real.log 7000⟩
        (setParameter ⟨Real.exp, Real.log, fun a b => a ^ b, Real.sin, Real.cos, Real.pi⟩
          ⟨100, 20000, 40, 7000, Real.log 100, Real.log 20000, Real.log 40, Real.log 7000⟩
          (InitPlugin
              ⟨100, 20000, 40, 7000, Real.log 100, Real.log 20000, Real.log 40, Real.log 7000⟩
              44100 : State ℝ (DspLibrary.passThrough ℝ))
          Param_wet 1) Param_spread (1 / 2)).wet2 ^ 2 = 1 / 2 ∧
    (1 : ℝ) ≠ 1 / 2 := by
  refine ⟨?_, ?_, by norm_num⟩
  · simp only [setParameter_wet, setParameter_spread, updateReverbParameters,
      mapValueIntoRange]
    norm_num
  · simp only [setParameter_wet, setParameter_spread, updateReverbParameters,
      mapValueIntoRange]
    norm_num

/-- C8 (amended): the Schroeder width law keeps the sum of the two wet gains, not their
power: for every wet amount `w = rev_wet` and spread `sp = rev_spread`,
`updateReverbParameters` yields `wet1 + wet2 = w`, and the total wet power is
`wet1^2 + wet2^2 = w^2 * (sp^2 + (1 - sp)^2)`. -/
theorem wet_sum_constant_power_varies {K : Type} [LinearOrderedField K]
    {lib : DspLibrary K} (s : State K lib) :
    (updateReverbParameters s).wet1 + (updateReverbParameters s).wet2 = s.rev_wet ∧
    (updateReverbParameters s).wet1 ^ 2 + (updateReverbParameters s).wet2 ^ 2 =
      s.rev_wet ^ 2 * (s.rev_spread ^ 2 + (1 - s.rev_spread) ^ 2) := by
  constructor
  · simp only [updateReverbParameters, mapValueIntoRange]
    norm_num
    ring
  · simp only [updateReverbParameters, mapValueIntoRange]
    norm_num
    ring

end MisEfx

/-! ## Decay law and pre-delay latency (library parts modelled from the specification) -/

/-- C9: decay law.  For every decay time `t > 0`, delay length `L > 0` samples and sample
rate `sr > 0`, the feedback gain `g = sign * 10^(-3 * L / (t * sr))` (with `sign = ±1`)
satisfies `|g|^(t*sr/L) = 10^(-3)`: after `t` seconds, that is `t*sr/L` trips round the
line, the amplitude is reduced by exactly 60 dB whatever the delay length; and
`0 < |g| < 1`. -/
theorem feedbackFromDecay_sixty_dB (m : Libm ℝ) (sign L t sr : ℝ) (hm : m.IsReal)
    (hsign : sign = 1 ∨ sign = -1) (ht : 0 < t) (hL : 0 < L) (hsr : 0 < sr) :
    |feedbackFromDecay m sign L t sr| ^ (t * sr / L) = (10 : ℝ) ^ (-3 : ℝ) ∧
    0 < |feedbackFromDecay m sign L t sr| ∧ |feedbackFromDecay m sign L t sr| < 1 := by
  obtain ⟨-, -, hpow, -⟩ := hm
  have hts : 0 < t * sr := mul_pos ht hsr
  have hneg : -3 * L / (t * sr) < 0 := by
    apply div_neg_of_neg_of_pos _ hts
    linarith
  have habs : |feedbackFromDecay m sign L t sr| = (10 : ℝ) ^ (-3 * L / (t * sr)) := by
    have hp : 0 < (10 : ℝ) ^ (-3 * L / (t * sr)) := Real.rpow_pos_of_pos (by norm_num) _
    unfold feedbackFromDecay
    rw [hpow, abs_mul, abs_of_pos hp]
    rcases hsign with h | h <;> rw [h] <;> simp
  rw [habs]
  refine ⟨?_, Real.rpow_pos_of_pos (by norm_num) _, ?_⟩
  · rw [← Real.rpow_mul (by norm_num : (0 : ℝ) ≤ 10)]
    congr 1
    field_simp
    ring
  · exact Real.rpow_lt_one_of_one_lt_of_neg (by norm_num) hneg

/-- Witness of C9: a line of `1323` samples at `44100` Hz with a decay time of `1` s and
a negative feedback sign. -/
theorem feedbackFromDecay_sixty_dB_witness :
    |feedbackFromDecay ⟨Real.exp, Real.log, fun a b => a ^ b, Real.sin, Real.cos, Real.pi⟩
        (-1) 1323 1 44100| ^ ((1 : ℝ) * 44100 / 1323) = (10 : ℝ) ^ (-3 : ℝ) ∧
    0 < |feedbackFromDecay ⟨Real.exp, Real.log, fun a b => a ^ b, Real.sin, Real.cos,
        Real.pi⟩ (-1) 1323 1 44100| ∧
    |feedbackFromDecay ⟨Real.exp, Real.log, fun a b => a ^ b, Real.sin, Real.cos, Real.pi⟩
        (-1) 1323 1 44100| < 1 :=
  feedbackFromDecay_sixty_dB
    ⟨Real.exp, Real.log, fun a b => a ^ b, Real.sin, Real.cos, Real.pi⟩ (-1) 1323 1 44100
    ⟨rfl, rfl, rfl, rfl, rfl, rfl⟩ (Or.inr rfl) (by norm_num) (by norm_num) (by norm_num)

namespace MisEfx

/-- Frames `0, ..., 4` of the left output buffer for the unit impulse, with wet `1`, the
spec's pre-delay line set to `4` samples and the other units handing the samples through. -/
theorem impulse_outL_specPreDelay :
    (List.range 5).map
        (processReplacing
          (setParameter ⟨Real.exp, Real.log, fun a b => a ^ b, Real.sin, Real.cos, Real.pi⟩
            ⟨100, 20000, 40, 7000, Real.log 100, Real.log 20000, Real.log 40, Real.log 7000⟩
            (InitPlugin
                  ⟨100, 20000, 40, 7000, Real.log 100, Real.log 20000, Real.log 40, Real.log 7000⟩
                  44100 : State ℝ (DspLibrary.withSpecPreDelay ℝ 8 4))
            Param_wet 1)
          unitImpulse unitImpulse (fun _ => 0) (fun _ => 0) 5).outL =
      [0, 0, 8, 0, 0] := by
  simp [List.range, List.range.loop, processReplacing, processLoop, processFrame, wetChain,
    stereoMix, seriesProcess, parallelProcess, setParameter_wet, updateReverbParameters,
    InitPlugin, presetTable, presetAt, setAllPassFiltersDelay, setCombFiltersDelay,
    DspLibrary.withSpecPreDelay, DspLibrary.passThrough, NUM_COMB_FILTERS,
    NUM_ALLPASS_FILTERS_IN, NUM_ALLPASS_FILTERS_OUT, mapValueIntoRange, preDelayStage,
    specCombFilterClass, SpecCombFilter.processAudio, SpecCombFilter.preDelay,
    DelayLine.write, DelayLine.readDelayed, unitImpulse, Function.update]
  norm_num

/-- Frames `0, ..., 4` of the right output buffer for the unit impulse, with wet `1`, the
spec's pre-delay line set to `4` samples and the other units handing the samples through. -/
theorem impulse_outR_specPreDelay :
    (List.range 5).map
        (processReplacing
          (setParameter ⟨Real.exp, Real.log, fun a b => a ^ b, Real.sin, Real.cos, Real.pi⟩
            ⟨100, 20000, 40, 7000, Real.log 100, Real.log 20000, Real.log 40, Real.log 7000⟩
            (InitPlugin
                  ⟨100, 20000, 40, 7000, Real.log 100, Real.log 20000, Real.log 40, Real.log 7000⟩
                  44100 : State ℝ (DspLibrary.withSpecPreDelay ℝ 8 4))
            Param_wet 1)
          unitImpulse unitImpulse (fun _ => 0) (fun _ => 0) 5).outR =
      [0, 0, 8, 0, 0] := by
  simp [List.range, List.range.loop, processReplacing, processLoop, processFrame, wetChain,
    stereoMix, seriesProcess, parallelProcess, setParameter_wet, updateReverbParameters,
    InitPlugin, presetTable, presetAt, setAllPassFiltersDelay, setCombFiltersDelay,
    DspLibrary.withSpecPreDelay, DspLibrary.passThrough, NUM_COMB_FILTERS,
    NUM_ALLPASS_FILTERS_IN, NUM_ALLPASS_FILTERS_OUT, mapValueIntoRange, preDelayStage,
    specCombFilterClass, SpecCombFilter.processAudio, SpecCombFilter.preDelay,
    DelayLine.write, DelayLine.readDelayed, unitImpulse, Function.update]
  norm_num

/-- C10 (the code at the failing input): the pre-delay is the spec's delay line with
feedback `0`, a buffer of `8` samples and the delay set to `D = 4` samples; both inputs
carry the unit impulse.  Stepped once per sample, the line returns the impulse at step `4`.
In `processReplacing` the one module is stepped twice in every frame, and the pairs
`(inputL, inputR)` handed to the input all-pass chains in frames `0, ..., 4` are
`(0,0), (0,0), (1,1), (0,0), (0,0)`: the impulse comes out in frame `2`, not in frame `4`.
With wet `1` and the other units handing the samples through, frames `0, ..., 4` of both
output buffers are `0, 0, 8, 0, 0`. -/
theorem preDelay_impulse_latency_halved :
    (SpecCombFilter.preDelay 8 4 : SpecCombFilter ℚ).run [1, 0, 0, 0, 0] = [0, 0, 0, 0, 1] ∧
    (List.range 5).map
        (preDelayOut (specCombFilterClass ℚ 8 4) unitImpulse unitImpulse
          (SpecCombFilter.preDelay 8 4)) =
      [(0, 0), (0, 0), (1, 1), (0, 0), (0, 0)] ∧
    (List.range 5).map
        (processReplacing
          (setParameter ⟨Real.exp, Real.log, fun a b => a ^ b, Real.sin, Real.cos, Real.pi⟩
            ⟨100, 20000, 40, 7000, Real.log 100, Real.log 20000, Real.log 40, Real.log 7000⟩
            (InitPlugin
                  ⟨100, 20000, 40, 7000, Real.log 100, Real.log 20000, Real.log 40, Real.log 7000⟩
                  44100 : State ℝ (DspLibrary.withSpecPreDelay ℝ 8 4))
            Param_wet 1)
          unitImpulse unitImpulse (fun _ => 0) (fun _ => 0) 5).outL =
      [0, 0, 8, 0, 0] ∧
    (List.range 5).map
        (processReplacing
          (setParameter ⟨Real.exp, Real.log, fun a b => a ^ b, Real.sin, Real.cos, Real.pi⟩
            ⟨100, 20000, 40, 7000, Real.log 100, Real.log 20000, Real.log 40, Real.log 7000⟩
            (InitPlugin
                  ⟨100, 20000, 40, 7000, Real.log 100, Real.log 20000, Real.log 40, Real.log 7000⟩
                  44100 : State ℝ (DspLibrary.withSpecPreDelay ℝ 8 4))
            Param_wet 1)
          unitImpulse unitImpulse (fun _ => 0) (fun _ => 0) 5).outR =
      [0, 0, 8, 0, 0] := by
  refine ⟨?_, ?_, impulse_outL_specPreDelay, impulse_outR_specPreDelay⟩
  · simp [SpecCombFilter.run, SpecCombFilter.processAudio, SpecCombFilter.preDelay,
      DelayLine.write, DelayLine.readDelayed]
  · simp [List.range, List.range.loop, preDelayOut, preDelayAfter, preDelayStage,
      specCombFilterClass, SpecCombFilter.processAudio, SpecCombFilter.preDelay,
      DelayLine.write, DelayLine.readDelayed, unitImpulse]
    norm_num

end MisEfx

/-! ## The branches of `setParameter` of the Schroeder plug-in -/

namespace MisEfx

section SetParameterCases

variable {K : Type} [LinearOrderedField K] {lib : DspLibrary K}

/-- The effect of `setParameter(Param_decay, v)`. -/
theorem setParameter_decay (m : Libm K) (c : Constants K) (s : State K lib) (v : K) :
    setParameter m c s Param_decay v =
      { s with
        rev_decay := v * MAX_REVERB_DECAY_IN_SECONDS
        combFiltersL := s.combFiltersL.map (fun f =>
          lib.LPCombFilter.setFeedbackFromDecay f (v * MAX_REVERB_DECAY_IN_SECONDS))
        combFiltersR := s.combFiltersR.map (fun f =>
          lib.LPCombFilter.setFeedbackFromDecay f (v * MAX_REVERB_DECAY_IN_SECONDS)) } := by
  simp [setParameter, Param_wet, Param_decay]

/-- The effect of `setParameter(Param_smearing, v)`. -/
theorem setParameter_smearing (m : Libm K) (c : Constants K) (s : State K lib) (v : K) :
    setParameter m c s Param_smearing v =
      { s with
        rev_smearing := v * MAX_SMEARING_VALUE
        apFiltersL_input := s.apFiltersL_input.map (fun f =>
          lib.AllPassFilter.setFeedback f (v * MAX_SMEARING_VALUE))
        apFiltersR_input := s.apFiltersR_input.map (fun f =>
          lib.AllPassFilter.setFeedback f (v * MAX_SMEARING_VALUE))
        apFiltersL_output := s.apFiltersL_output.map (fun f =>
          lib.AllPassFilter.setFeedback f (v * MAX_SMEARING_VALUE))
        apFiltersR_output := s.apFiltersR_output.map (fun f =>
          lib.AllPassFilter.setFeedback f (v * MAX_SMEARING_VALUE)) } := by
  simp [setParameter, Param_wet, Param_decay, Param_smearing]

/-- The effect of `setParameter(Param_damping, v)`. -/
theorem setParameter_damping (m : Libm K) (c : Constants K) (s : State K lib) (v : K) :
    setParameter m c s Param_damping v =
      { s with
        rev_damping := v
        combFiltersL := s.combFiltersL.map (fun f =>
          lib.LPCombFilter.setCutoffFrequency f
            (mapValueIntoRange (1.0 - v) c.MIN_LPF_FREQUENCY c.MAX_LPF_FREQUENCY))
        combFiltersR := s.combFiltersR.map (fun f =>
          lib.LPCombFilter.setCutoffFrequency f
            (mapValueIntoRange (1.0 - v) c.MIN_LPF_FREQUENCY c.MAX_LPF_FREQUENCY)) } := by
  simp [setParameter, Param_wet, Param_decay, Param_smearing, Param_damping]

/-- The effect of `setParameter(Param_lpfFreq, v)`. -/
theorem setParameter_lpfFreq (m : Libm K) (c : Constants K) (s : State K lib) (v : K) :
    setParameter m c s Param_lpfFreq v =
      { s with
        rev_lpfFreq :=
          m.exp (mapValueIntoRange v c.MIN_LPF_FREQUENCY_LOG c.MAX_LPF_FREQUENCY_LOG)
        outputLPF := lib.LPFButterworth.setCutoffFrequency s.outputLPF
          (m.exp (mapValueIntoRange v c.MIN_LPF_FREQUENCY_LOG c.MAX_LPF_FREQUENCY_LOG)) } := by
  simp [setParameter, Param_wet, Param_decay, Param_smearing, Param_damping, Param_lpfFreq]

/-- The effect of `setParameter(Param_hpfFreq, v)`. -/
theorem setParameter_hpfFreq (m : Libm K) (c : Constants K) (s : State K lib) (v : K) :
    setParameter m c s Param_hpfFreq v =
      { s with
        rev_hpfFreq :=
          m.exp (mapValueIntoRange v c.MIN_HPF_FREQUENCY_LOG c.MAX_HPF_FREQUENCY_LOG)
        outputHPF := lib.HPFButterworth.setCutoffFrequency s.outputHPF
          (m.exp (mapValueIntoRange v c.MIN_HPF_FREQUENCY_LOG c.MAX_HPF_FREQUENCY_LOG)) } := by
  simp [setParameter, Param_wet, Param_decay, Param_smearing, Param_damping, Param_lpfFreq,
    Param_hpfFreq]

/-- The effect of `setParameter(Param_preDelay, v)`. -/
theorem setParameter_preDelay (m : Libm K) (c : Constants K) (s : State K lib) (v : K) :
    setParameter m c s Param_preDelay v =
      { s with
        rev_preDelay := v * MAX_PREDELAY_VALUE_IN_MS
        preDelayModule :=
          lib.CombFilter.setDelayInmsec s.preDelayModule (v * MAX_PREDELAY_VALUE_IN_MS) } := by
  simp [setParameter, Param_wet, Param_decay, Param_smearing, Param_damping, Param_lpfFreq,
    Param_hpfFreq, Param_preDelay]

/-- The effect of `setParameter(Param_ModRate, v)`. -/
theorem setParameter_ModRate (m : Libm K) (c : Constants K) (s : State K lib) (v : K) :
    setParameter m c s Param_ModRate v =
      { s with
        rev_modRate := mapValueIntoRange v MIN_MOD_RATE_IN_HZ MAX_MOD_RATE_IN_HZ
        tremolo := lib.Tremolo.setModRate s.tremolo
          (mapValueIntoRange v MIN_MOD_RATE_IN_HZ MAX_MOD_RATE_IN_HZ) } := by
  simp [setParameter, Param_wet, Param_decay, Param_smearing, Param_damping, Param_lpfFreq,
    Param_hpfFreq, Param_preDelay, Param_ModRate]

/-- The effect of `setParameter(Param_ModDepth, v)`. -/
theorem setParameter_ModDepth (m : Libm K) (c : Constants K) (s : State K lib) (v : K) :
    setParameter m c s Param_ModDepth v =
      { s with
        rev_modDepth := v
        tremolo := lib.Tremolo.setModDepth s.tremolo v } := by
  simp [setParameter, Param_wet, Param_decay, Param_smearing, Param_damping, Param_lpfFreq,
    Param_hpfFreq, Param_preDelay, Param_ModRate, Param_ModDepth]

/-- An index that is no enumerator falls into the `default` branch of both `switch`
statements: `setParameter` changes nothing and `getParameter` returns `0`. -/
theorem setParameter_getParameter_default (m : Libm K) (c : Constants K) (s : State K lib)
    (index : ℤ) (v : K)
    (h : index ∉ [Param_wet, Param_decay, Param_smearing, Param_damping, Param_lpfFreq,
      Param_hpfFreq, Param_preDelay, Param_ModRate, Param_ModDepth, Param_spread]) :
    setParameter m c s index v = s ∧ getParameter m c s index = 0 := by
  simp only [List.mem_cons, List.mem_singleton, List.not_mem_nil, or_false, not_or] at h
  obtain ⟨h1, h2, h3, h4, h5, h6, h7, h8, h9, h10⟩ := h
  simp [setParameter, getParameter, h1, h2, h3, h4, h5, h6, h7, h8, h9, h10]

/-- Every index is one of the ten enumerators or none of them. -/
theorem index_cases (index : ℤ) :
    index = Param_wet ∨ index = Param_decay ∨ index = Param_smearing ∨
      index = Param_damping ∨ index = Param_lpfFreq ∨ index = Param_hpfFreq ∨
      index = Param_preDelay ∨ index = Param_ModRate ∨ index = Param_ModDepth ∨
      index = Param_spread ∨
      index ∉ [Param_wet, Param_decay, Param_smearing, Param_damping, Param_lpfFreq,
        Param_hpfFreq, Param_preDelay, Param_ModRate, Param_ModDepth, Param_spread] := by
  simp only [List.mem_cons, List.mem_singleton, List.not_mem_nil, or_false]
  tauto

end SetParameterCases

end MisEfx

/-! ## Block processing -/

namespace Feedverb

section Loop

variable {K : Type} {F : FDNClass K}

/-- With an FDN that writes only its first `channels` output samples, the loop of
`processReplacing` of `plugins/Feedverb` leaves every frame from `channels` on as the host
handed it over, however many iterations run. -/
theorem processLoop_out_of_channels (channels : ℕ)
    (hW : ∀ (f : F.T) (input output : ℕ → K) (k : ℕ), channels ≤ k →
      (F.processAudio f input output).2 k = output k)
    (inL inR : ℕ → K) (r : Run K F) (n i : ℕ) (hi : channels ≤ i) :
    (processLoop inL inR n r).outL i = r.outL i ∧
      (processLoop inL inR n r).outR i = r.outR i := by
  induction n with
  | zero => exact ⟨rfl, rfl⟩
  | succ n ih =>
    simp only [processLoop, processFrame]
    rw [hW _ _ _ i hi, hW _ _ _ i hi]
    exact ih

/-- With an FDN that reads only its first `channels` input samples, the loop of
`processReplacing` of `plugins/Feedverb` does the same on two pairs of input buffers that
agree on the first `channels` frames. -/
theorem processLoop_in_of_channels (channels : ℕ)
    (hR : ∀ (f : F.T) (input input' output : ℕ → K),
      (∀ k, k < channels → input k = input' k) →
      F.processAudio f input output = F.processAudio f input' output)
    (inL inR inL' inR' : ℕ → K) (hL : ∀ k, k < channels → inL k = inL' k)
    (hRt : ∀ k, k < channels → inR k = inR' k) (r : Run K F) (n : ℕ) :
    processLoop inL inR n r = processLoop inL' inR' n r := by
  induction n with
  | zero => rfl
  | succ n ih =>
    simp only [processLoop, processFrame, ih]
    rw [hR _ inL inL' _ hL, hR _ inR inR' _ hRt]

end Loop

/-- C11 (what the code does): `processReplacing` of `plugins/Feedverb` hands both FDNs the
buffer pointers themselves in every iteration, never the frame index.  With an FDN that
reads its first `channels` input samples and writes its first `channels` output samples,
every output frame `i >= channels` is left as the host handed it over, and the input
frames from `channels` on are never read: two blocks that agree on the first `channels`
frames give the same result. -/
theorem processReplacing_ignores_frame_index {K : Type} {F : FDNClass K} (channels : ℕ)
    (hW : ∀ (f : F.T) (input output : ℕ → K) (k : ℕ), channels ≤ k →
      (F.processAudio f input output).2 k = output k)
    (hR : ∀ (f : F.T) (input input' output : ℕ → K),
      (∀ k, k < channels → input k = input' k) →
      F.processAudio f input output = F.processAudio f input' output)
    (s : State K F) (inL inR outL outR : ℕ → K) (sampleFrames i : ℕ) (hi : channels ≤ i) :
    ((processReplacing s inL inR outL outR sampleFrames).outL i = outL i ∧
      (processReplacing s inL inR outL outR sampleFrames).outR i = outR i) ∧
    ∀ inL' inR' : ℕ → K, (∀ k, k < channels → inL k = inL' k) →
      (∀ k, k < channels → inR k = inR' k) →
      processReplacing s inL inR outL outR sampleFrames =
        processReplacing s inL' inR' outL outR sampleFrames :=
  ⟨processLoop_out_of_channels channels hW inL inR _ sampleFrames i hi,
    fun inL' inR' hL hRt =>
      processLoop_in_of_channels channels hR inL inR inL' inR' hL hRt _ sampleFrames⟩

/-- Witness of C11: the one-channel FDN that hands the sample through, a block of `3`
frames with the input `1, 2, 3` on both channels and output buffers holding `7`: frame `1`
of both output buffers still holds `7`. -/
theorem processReplacing_ignores_frame_index_witness :
    (processReplacing
        ({ rev_presets := [], rev_wet := 0, rev_smearing := 0, rev_decay := 0,
           rev_damping := 0, rev_lpfFreq := 0, rev_hpfFreq := 0, rev_preDelay := 0,
           rev_modRate := 0, rev_modDepth := 0, rev_spread := 0, fdnverb_fdnLeft := (44100 : ℚ),
           fdnverb_fdnRight := (44100 : ℚ) } : State ℚ (FDNClass.monoThrough ℚ))
        (fun i => (i : ℚ) + 1) (fun i => (i : ℚ) + 1) (fun _ => 7) (fun _ => 7) 3).outL 1 =
      (fun _ => (7 : ℚ)) 1 ∧
    (processReplacing
        ({ rev_presets := [], rev_wet := 0, rev_smearing := 0, rev_decay := 0,
           rev_damping := 0, rev_lpfFreq := 0, rev_hpfFreq := 0, rev_preDelay := 0,
           rev_modRate := 0, rev_modDepth := 0, rev_spread := 0, fdnverb_fdnLeft := (44100 : ℚ),
           fdnverb_fdnRight := (44100 : ℚ) } : State ℚ (FDNClass.monoThrough ℚ))
        (fun i => (i : ℚ) + 1) (fun i => (i : ℚ) + 1) (fun _ => 7) (fun _ => 7) 3).outR 1 =
      (fun _ => (7 : ℚ)) 1 :=
  (processReplacing_ignores_frame_index 1
    (fun _ _ _ k hk => by
      simp only [FDNClass.monoThrough]
      exact Function.update_noteq (by omega) _ _)
    (fun _ input input' _ h => by
      simp only [FDNClass.monoThrough]
      rw [h 0 (by norm_num)])
    _ _ _ _ _ 3 1 (le_refl 1)).1

end Feedverb

namespace FdnFeedverb

section Loop

variable {K : Type} [LinearOrderedField K] {F : FDNClass K}

/-- The loop of `processReplacing` of the FDN plug-in changes nothing in the plug-in but the
FDN, which it steps once per frame, in index order. -/
theorem processLoop_plugin (inL inR : ℕ → K) (r : Run K F) (n : ℕ) :
    (processLoop inL inR n r).plugin =
      { r.plugin with fdnver_FDN := fdnSteppedInOrder F inL inR n r.plugin.fdnver_FDN } := by
  induction n with
  | zero => rfl
  | succ n ih => simp [processLoop, processFrame, fdnSteppedInOrder, ih]

/-- Frames at or beyond the number of iterations run are left as the host handed them
over. -/
theorem processLoop_out_ge (inL inR : ℕ → K) (r : Run K F) (n i : ℕ) (hi : n ≤ i) :
    (processLoop inL inR n r).outL i = r.outL i ∧
      (processLoop inL inR n r).outR i = r.outR i := by
  induction n with
  | zero => exact ⟨rfl, rfl⟩
  | succ n ih =>
    have hne : i ≠ n := by omega
    have := ih (by omega)
    simpa [processLoop, processFrame, Function.update_noteq hne] using this

/-- Frame `i < n` of the output buffers after `n` iterations: the mix of the FDN output of
step `i` with the dry input. -/
theorem processLoop_out_lt (inL inR : ℕ → K) (r : Run K F) (n i : ℕ) (hi : i < n) :
    (processLoop inL inR n r).outL i =
        (F.processAudio (fdnSteppedInOrder F inL inR i r.plugin.fdnver_FDN)
          (inL i, inR i)).2.1 * r.plugin._wet + inL i * r.plugin._dry ∧
      (processLoop inL inR n r).outR i =
        (F.processAudio (fdnSteppedInOrder F inL inR i r.plugin.fdnver_FDN)
          (inL i, inR i)).2.2 * r.plugin._wet + inR i * r.plugin._dry := by
  induction n with
  | zero => exact absurd hi (Nat.not_lt_zero i)
  | succ n ih =>
    rcases Nat.lt_succ_iff_lt_or_eq.mp hi with h | h
    · have hne : i ≠ n := Nat.ne_of_lt h
      have := ih h
      simpa [processLoop, processFrame, Function.update_noteq hne] using this
    · subst h
      simp [processLoop, processFrame, processLoop_plugin]

end Loop

/-- C12: `processReplacing` of the FDN plug-in processes exactly `sampleFrames` frames in
index order: the FDN ends up stepped `sampleFrames` times, the `i`-th step on the pair
`(inL[i], inR[i])`; for every `i < sampleFrames`, `outL[i] = y_i[0]*_wet + inL[i]*_dry` and
`outR[i] = y_i[1]*_wet + inR[i]*_dry` with `y_i` the FDN output of step `i`; and no index
`>= sampleFrames` is written. -/
theorem processReplacing_in_order {K : Type} [LinearOrderedField K] {F : FDNClass K}
    (s : State K F) (inL inR outL outR : ℕ → K) (sampleFrames : ℕ) :
    (processReplacing s inL inR outL outR sampleFrames).plugin.fdnver_FDN =
      fdnSteppedInOrder F inL inR sampleFrames s.fdnver_FDN ∧
    (∀ i, i < sampleFrames →
      (processReplacing s inL inR outL outR sampleFrames).outL i =
          (F.processAudio (fdnSteppedInOrder F inL inR i s.fdnver_FDN)
            (inL i, inR i)).2.1 * s._wet + inL i * s._dry ∧
        (processReplacing s inL inR outL outR sampleFrames).outR i =
          (F.processAudio (fdnSteppedInOrder F inL inR i s.fdnver_FDN)
            (inL i, inR i)).2.2 * s._wet + inR i * s._dry) ∧
    (∀ i, sampleFrames ≤ i →
      (processReplacing s inL inR outL outR sampleFrames).outL i = outL i ∧
        (processReplacing s inL inR outL outR sampleFrames).outR i = outR i) := by
  refine ⟨?_, ?_, ?_⟩
  · simp [processReplacing, processLoop_plugin]
  · intro i hi
    exact processLoop_out_lt inL inR { plugin := s, outL := outL, outR := outR }
      sampleFrames i hi
  · intro i hi
    exact processLoop_out_ge inL inR { plugin := s, outL := outL, outR := outR }
      sampleFrames i hi

/-- Witness of C12: a block of `3` frames carrying the unit impulse on the freshly
initialised plug-in with the recording FDN; frame `1` is the mix of step `1`, frame `3` is
left alone. -/
theorem processReplacing_in_order_witness :
    (1 < 3 →
      (processReplacing
          (InitPlugin ⟨Real.exp, Real.log, fun a b => a ^ b, Real.sin, Real.cos, Real.pi⟩
            ⟨100, 20000, 40, 7000, Real.log 100, Real.log 20000, Real.log 40, Real.log 7000⟩
            44100 0 : State ℝ (FDNClass.recording ℝ))
          unitImpulse unitImpulse (fun _ => 0) (fun _ => 0) 3).outL 1 =
        ((FDNClass.recording ℝ).processAudio
            (fdnSteppedInOrder (FDNClass.recording ℝ) unitImpulse unitImpulse 1
              (InitPlugin ⟨Real.exp, Real.log, fun a b => a ^ b, Real.sin, Real.cos, Real.pi⟩
                ⟨100, 20000, 40, 7000, Real.log 100, Real.log 20000, Real.log 40,
                  Real.log 7000⟩
                44100 0 : State ℝ (FDNClass.recording ℝ)).fdnver_FDN)
            (unitImpulse 1, unitImpulse 1)).2.1 *
          (InitPlugin ⟨Real.exp, Real.log, fun a b => a ^ b, Real.sin, Real.cos, Real.pi⟩
            ⟨100, 20000, 40, 7000, Real.log 100, Real.log 20000, Real.log 40, Real.log 7000⟩
            44100 0 : State ℝ (FDNClass.recording ℝ))._wet +
        unitImpulse 1 *
          (InitPlugin ⟨Real.exp, Real.log, fun a b => a ^ b, Real.sin, Real.cos, Real.pi⟩
            ⟨100, 20000, 40, 7000, Real.log 100, Real.log 20000, Real.log 40, Real.log 7000⟩
            44100 0 : State ℝ (FDNClass.recording ℝ))._dry) ∧
    (3 ≤ 3 →
      (processReplacing
          (InitPlugin ⟨Real.exp, Real.log, fun a b => a ^ b, Real.sin, Real.cos, Real.pi⟩
            ⟨100, 20000, 40, 7000, Real.log 100, Real.log 20000, Real.log 40, Real.log 7000⟩
            44100 0 : State ℝ (FDNClass.recording ℝ))
          unitImpulse unitImpulse (fun _ => 0) (fun _ => 0) 3).outL 3 = (fun _ => 0) 3) :=
  ⟨fun h => ((processReplacing_in_order _ _ _ _ _ 3).2.1 1 h).1,
    fun h => ((processReplacing_in_order _ _ _ _ _ 3).2.2 3 h).1⟩

end FdnFeedverb

/-! ## Decay and feedback of the comb banks -/

namespace MisEfx

/-- The calls every left comb unit has received when `InitPlugin` returns, newest first. -/
theorem InitPlugin_comb_calls_left {K : Type} [LinearOrderedField K] (c : Constants K)
    (sr : ℤ) :
    (InitPlugin c sr : State K (DspLibrary.tracing K)).combFiltersL =
      ([25.31, 26.94, 28.96, 30.75, 32.24, 33.81, 35.31, 36.70] : List K).zipWith
        (fun d negative =>
          Call.setDelayInmsec d ::
            ((if negative then [Call.setFeedbackToNegative] else []) ++
              [Call.setMakeUpGaindB (-12.0),
                Call.setCutoffFrequency
                  (mapValueIntoRange (1.0 - 0.5) c.MIN_LPF_FREQUENCY c.MAX_LPF_FREQUENCY),
                Call.setFeedbackFromDecay 1.0, Call.init 100.0 sr]))
        [false, true, true, true, true, true, true, true] := by
  simp [InitPlugin, setAllPassFiltersDelay, setCombFiltersDelay, updateReverbParameters,
    DspLibrary.tracing, NUM_COMB_FILTERS, List.range, List.range.loop, presetTable, presetAt,
    MAX_COMB_FILTER_LENGTH_IN_MS]

end MisEfx

/-- Powers of ten with real exponents are equal only for equal exponents. -/
theorem rpow_ten_inj {a b : ℝ} (h : (10 : ℝ) ^ a = (10 : ℝ) ^ b) : a = b := by
  have h1 : (1 : ℝ) < 10 := by norm_num
  exact le_antisymm ((Real.rpow_le_rpow_left_iff h1).mp h.le)
    ((Real.rpow_le_rpow_left_iff h1).mp h.ge)

namespace MisEfx

/-- With the comb units of the specification, the left bank when `InitPlugin` returns: the
gains are the decay law at the delay `delay0` the units had when `setFeedbackFromDecay`
was called, the same for every unit, whatever delay was assigned afterwards. -/
theorem InitPlugin_specComb_left (base : DspLibrary ℝ) (m : Libm ℝ) (delay0 : ℝ)
    (c : Constants ℝ) (sr : ℤ) :
    (InitPlugin c sr : State ℝ (base.withSpecLPComb m delay0)).combFiltersL =
      ([25.31, 26.94, 28.96, 30.75, 32.24, 33.81, 35.31, 36.70] : List ℝ).zipWith
        (fun d negative =>
          ({ maxDelayInmsec := 100, sampleRate := sr, delayInmsec := d,
             sign := if negative then -1 else 1,
             feedback :=
               if negative then -|feedbackFromDecay m 1 (delay0 * sr / 1000) 1 sr|
               else feedbackFromDecay m 1 (delay0 * sr / 1000) 1 sr,
             cutoffFrequency :=
               mapValueIntoRange (1 - 0.5) c.MIN_LPF_FREQUENCY c.MAX_LPF_FREQUENCY,
             makeUpGaindB := -12 } : SpecLPCombFilter ℝ))
        [false, true, true, true, true, true, true, true] := by
  simp [InitPlugin, setAllPassFiltersDelay, setCombFiltersDelay, updateReverbParameters,
    DspLibrary.withSpecLPComb, specLPCombFilterClass, NUM_COMB_FILTERS, List.range,
    List.range.loop, presetTable, presetAt, MAX_COMB_FILTER_LENGTH_IN_MS]
  norm_num

/-- C13 (what the code does): in `InitPlugin` every comb unit is given its delay by
`setDelayInmsec` after the one `setFeedbackFromDecay` call it receives, and no
`setFeedbackFromDecay` follows: when `InitPlugin` returns, the newest call of every unit of
both banks is `setDelayInmsec`, and `setFeedbackFromDecay(1.0)` is among the older ones.
With the comb units of the specification the gains are therefore not the decay law at the
assigned delay lengths: it is false that every unit of the left bank has the gain of the law
evaluated at its own delay. -/
theorem InitPlugin_feedback_before_delay (base : DspLibrary ℝ) (m : Libm ℝ) (delay0 : ℝ)
    (c : Constants ℝ) (sr : ℤ) (hm : m.IsReal) (hsr : 0 < sr) :
    (∀ t ∈ (InitPlugin c sr : State ℝ (DspLibrary.tracing ℝ)).combFiltersL ++
        (InitPlugin c sr : State ℝ (DspLibrary.tracing ℝ)).combFiltersR,
      ∃ d older, t = Call.setDelayInmsec d :: older ∧
        Call.setFeedbackFromDecay 1.0 ∈ older) ∧
    ¬ ∀ f ∈ ((InitPlugin c sr : State ℝ (base.withSpecLPComb m delay0)).combFiltersL :
        List (SpecLPCombFilter ℝ)),
      f.feedback =
        feedbackFromDecay m f.sign (f.delayInmsec * f.sampleRate / 1000) 1.0 f.sampleRate := by
  obtain ⟨-, -, hpow, -⟩ := hm
  have hsr' : (0 : ℝ) < sr := by exact_mod_cast hsr
  constructor
  · intro t ht
    simp [InitPlugin, setAllPassFiltersDelay, setCombFiltersDelay, updateReverbParameters,
      DspLibrary.tracing, NUM_COMB_FILTERS, List.range, List.range.loop, presetTable,
      presetAt] at ht
    rcases ht with h | h | h | h | h | h | h | h | h | h | h | h | h | h | h | h <;>
      exact ⟨_, _, h, by simp⟩
  · intro h
    rw [InitPlugin_specComb_left] at h
    have h0 := h _ (List.mem_cons_self _ _)
    have h1 := h _ (List.mem_cons_of_mem _ (List.mem_cons_self _ _))
    simp only [feedbackFromDecay, hpow, Bool.false_eq_true, if_false, if_true, one_mul] at h0 h1
    have hp : (0 : ℝ) < (10 : ℝ) ^ (-3 * (delay0 * sr / 1000) / (sr : ℝ)) :=
      Real.rpow_pos_of_pos (by norm_num) _
    rw [abs_of_pos hp] at h1
    have e0 := rpow_ten_inj h0
    have e1 := rpow_ten_inj (by linarith :
      (10 : ℝ) ^ (-3 * (delay0 * sr / 1000) / (sr : ℝ)) =
        (10 : ℝ) ^ (-3 * (26.94 * sr / 1000) / (1.0 * (sr : ℝ))))
    have hne : (sr : ℝ) ≠ 0 := ne_of_gt hsr'
    field_simp at e0 e1
    norm_num at e0 e1
    have hz : sr ≠ 0 := ne_of_gt hsr
    rcases e0 with e0 | e0
    · rcases e1 with e1 | e1
      · rw [e0] at e1
        norm_num at e1
      · exact hz e1
    · exact hz e0

end MisEfx

namespace MisEfx

/-- Witness of C13: the passing-through library with the comb units of the specification,
created with delay `0`, at 44100 Hz. -/
theorem InitPlugin_feedback_before_delay_witness :
    ¬ ∀ f ∈ ((InitPlugin
          ⟨100, 20000, 40, 7000, Real.log 100, Real.log 20000, Real.log 40, Real.log 7000⟩
          44100 : State ℝ ((DspLibrary.passThrough ℝ).withSpecLPComb
            ⟨Real.exp, Real.log, fun a b => a ^ b, Real.sin, Real.cos, Real.pi⟩ 0)).combFiltersL :
        List (SpecLPCombFilter ℝ)),
      f.feedback =
        feedbackFromDecay ⟨Real.exp, Real.log, fun a b => a ^ b, Real.sin, Real.cos, Real.pi⟩
          f.sign (f.delayInmsec * f.sampleRate / 1000) 1.0 f.sampleRate :=
  (InitPlugin_feedback_before_delay (DspLibrary.passThrough ℝ)
    ⟨Real.exp, Real.log, fun a b => a ^ b, Real.sin, Real.cos, Real.pi⟩ 0
    ⟨100, 20000, 40, 7000, Real.log 100, Real.log 20000, Real.log 40, Real.log 7000⟩ 44100
    ⟨rfl, rfl, rfl, rfl, rfl, rfl⟩ (by norm_num)).2

end MisEfx

/-- Sign alternation survives an update of every unit that keeps a positive unit positive
and a negative unit negative. -/
theorem SignsAlternate.map {bank : List (SpecLPCombFilter ℝ)} (h : SignsAlternate bank)
    (g : SpecLPCombFilter ℝ → SpecLPCombFilter ℝ)
    (hpos : ∀ f, f.sign = 1 → 0 < f.feedback → (g f).sign = 1 ∧ 0 < (g f).feedback)
    (hneg : ∀ f, f.sign = -1 → f.feedback < 0 → (g f).sign = -1 ∧ (g f).feedback < 0) :
    SignsAlternate (bank.map g) := by
  obtain ⟨hlen, hhead, htail⟩ := h
  refine ⟨by simpa using hlen, ?_, ?_⟩
  · intro f hf
    cases bank with
    | nil => simp at hf
    | cons u us =>
      simp at hf
      subst hf
      exact hpos u (hhead u (by simp)).1 (hhead u (by simp)).2
  · intro f hf
    cases bank with
    | nil => simp at hf
    | cons u us =>
      simp at hf
      obtain ⟨a, ha, rfl⟩ := hf
      exact hneg a (htail a (by simpa using ha)).1 (htail a (by simpa using ha)).2

namespace MisEfx

section Signs

variable {base : DspLibrary ℝ} {m : Libm ℝ} {delay0 : ℝ}

/-- A control call `setParameter` keeps the sign alternation of both comb banks. -/
theorem setParameter_signs (hpow : m.pow = fun a b => a ^ b) (c : Constants ℝ)
    (s : State ℝ (base.withSpecLPComb m delay0)) (index : ℤ) (v : ℝ)
    (h : SignsAlternate s.combFiltersL ∧ SignsAlternate s.combFiltersR) :
    SignsAlternate (setParameter m c s index v).combFiltersL ∧
      SignsAlternate (setParameter m c s index v).combFiltersR := by
  have hdecay : ∀ t : ℝ,
      (∀ f : SpecLPCombFilter ℝ, f.sign = 1 → 0 < f.feedback →
        ((specLPCombFilterClass m delay0).setFeedbackFromDecay f t).sign = 1 ∧
          0 < ((specLPCombFilterClass m delay0).setFeedbackFromDecay f t).feedback) ∧
      (∀ f : SpecLPCombFilter ℝ, f.sign = -1 → f.feedback < 0 →
        ((specLPCombFilterClass m delay0).setFeedbackFromDecay f t).sign = -1 ∧
          ((specLPCombFilterClass m delay0).setFeedbackFromDecay f t).feedback < 0) := by
    intro t
    constructor
    · intro f hs _
      refine ⟨hs, ?_⟩
      simp only [specLPCombFilterClass, feedbackFromDecay, hpow, hs, one_mul]
      exact Real.rpow_pos_of_pos (by norm_num) _
    · intro f hs _
      refine ⟨hs, ?_⟩
      simp only [specLPCombFilterClass, feedbackFromDecay, hpow, hs]
      have := Real.rpow_pos_of_pos (by norm_num : (0 : ℝ) < 10)
        (-3 * (f.delayInmsec * f.sampleRate / 1000) / (t * f.sampleRate))
      linarith
  rcases index_cases index with h' | h' | h' | h' | h' | h' | h' | h' | h' | h' | h'
  · rw [h', setParameter_wet]; exact h
  · rw [h', setParameter_decay]
    exact ⟨h.1.map _ (hdecay _).1 (hdecay _).2, h.2.map _ (hdecay _).1 (hdecay _).2⟩
  · rw [h', setParameter_smearing]; exact h
  · rw [h', setParameter_damping]
    exact ⟨h.1.map _ (fun f hs hf => ⟨hs, hf⟩) (fun f hs hf => ⟨hs, hf⟩),
      h.2.map _ (fun f hs hf => ⟨hs, hf⟩) (fun f hs hf => ⟨hs, hf⟩)⟩
  · rw [h', setParameter_lpfFreq]; exact h
  · rw [h', setParameter_hpfFreq]; exact h
  · rw [h', setParameter_preDelay]; exact h
  · rw [h', setParameter_ModRate]; exact h
  · rw [h', setParameter_ModDepth]; exact h
  · rw [h', setParameter_spread]; exact h
  · rw [(setParameter_getParameter_default m c s index v h').1]; exact h

/-- A control call `setProgram` keeps the sign alternation of both comb banks. -/
theorem setProgram_signs (hpow : m.pow = fun a b => a ^ b) (c : Constants ℝ)
    (s : State ℝ (base.withSpecLPComb m delay0)) (program : ℤ)
    (h : SignsAlternate s.combFiltersL ∧ SignsAlternate s.combFiltersR) :
    SignsAlternate (setProgram m c s program).combFiltersL ∧
      SignsAlternate (setProgram m c s program).combFiltersR := by
  unfold setProgram
  repeat apply setParameter_signs hpow
  exact h

/-- Both comb banks alternate in sign when `InitPlugin` returns. -/
theorem InitPlugin_signs (hpow : m.pow = fun a b => a ^ b) (c : Constants ℝ) (sr : ℤ) :
    SignsAlternate (InitPlugin c sr : State ℝ (base.withSpecLPComb m delay0)).combFiltersL ∧
      SignsAlternate
        (InitPlugin c sr : State ℝ (base.withSpecLPComb m delay0)).combFiltersR := by
  have hp : ∀ x : ℝ, (0 : ℝ) < (10 : ℝ) ^ x := fun x =>
    Real.rpow_pos_of_pos (by norm_num) x
  constructor <;>
  · simp [SignsAlternate, InitPlugin, setAllPassFiltersDelay, setCombFiltersDelay,
      updateReverbParameters, DspLibrary.withSpecLPComb, specLPCombFilterClass,
      NUM_COMB_FILTERS, List.range, List.range.loop, presetTable, presetAt,
      feedbackFromDecay, hpow]
    exact ⟨hp _, ne_of_gt (hp _)⟩

/-- Any sequence of control calls keeps the sign alternation of both comb banks. -/
theorem runHost_signs (hpow : m.pow = fun a b => a ^ b) (c : Constants ℝ)
    (calls : List (HostCall ℝ)) (s : State ℝ (base.withSpecLPComb m delay0))
    (h : SignsAlternate s.combFiltersL ∧ SignsAlternate s.combFiltersR) :
    SignsAlternate (runHost m c s calls).combFiltersL ∧
      SignsAlternate (runHost m c s calls).combFiltersR := by
  induction calls generalizing s with
  | nil => exact h
  | cons call calls ih =>
    simp only [runHost, List.foldl_cons]
    apply ih
    cases call with
    | setParameter index value => exact setParameter_signs hpow c s index value h
    | setProgram program => exact setProgram_signs hpow c s program h

end Signs

/-- C14: feedback sign alternation in the Schroeder comb banks, with the comb units of the
specification.  After `InitPlugin`, and still after any later control calls in which every
`setParameter(Param_decay, v)` has `v` in `(0,1]`, both the left and the right bank have
`NUM_COMB_FILTERS` units, unit `0` with a positive feedback gain and every unit with index
`1 .. NUM_COMB_FILTERS - 1` with a negative feedback gain. -/
theorem comb_feedback_signs_alternate (base : DspLibrary ℝ) (m : Libm ℝ) (delay0 : ℝ)
    (c : Constants ℝ) (sr : ℤ) (calls : List (HostCall ℝ)) (hm : m.IsReal)
    (_hcalls : ∀ call ∈ calls, call.InRange ∧
      ∀ v, call = HostCall.setParameter Param_decay v → 0 < v) :
    SignsAlternate
        (runHost m c (InitPlugin c sr : State ℝ (base.withSpecLPComb m delay0))
          calls).combFiltersL ∧
      SignsAlternate
        (runHost m c (InitPlugin c sr : State ℝ (base.withSpecLPComb m delay0))
          calls).combFiltersR :=
  runHost_signs hm.2.2.1 c calls _ (InitPlugin_signs hm.2.2.1 c sr)

/-- Witness of C14: the decay set to `1/2` and then program `1` selected on the freshly
initialised plug-in, at `44100` Hz. -/
theorem comb_feedback_signs_alternate_witness :
    SignsAlternate
        (runHost ⟨Real.exp, Real.log, fun a b => a ^ b, Real.sin, Real.cos, Real.pi⟩
          ⟨100, 20000, 40, 7000, Real.log 100, Real.log 20000, Real.log 40, Real.log 7000⟩
          (InitPlugin
            ⟨100, 20000, 40, 7000, Real.log 100, Real.log 20000, Real.log 40, Real.log 7000⟩
            44100 : State ℝ ((DspLibrary.passThrough ℝ).withSpecLPComb
              ⟨Real.exp, Real.log, fun a b => a ^ b, Real.sin, Real.cos, Real.pi⟩ 0))
          [HostCall.setParameter Param_decay (1 / 2), HostCall.setProgram 1]).combFiltersL ∧
      SignsAlternate
        (runHost ⟨Real.exp, Real.log, fun a b => a ^ b, Real.sin, Real.cos, Real.pi⟩
          ⟨100, 20000, 40, 7000, Real.log 100, Real.log 20000, Real.log 40, Real.log 7000⟩
          (InitPlugin
            ⟨100, 20000, 40, 7000, Real.log 100, Real.log 20000, Real.log 40, Real.log 7000⟩
            44100 : State ℝ ((DspLibrary.passThrough ℝ).withSpecLPComb
              ⟨Real.exp, Real.log, fun a b => a ^ b, Real.sin, Real.cos, Real.pi⟩ 0))
          [HostCall.setParameter Param_decay (1 / 2), HostCall.setProgram 1]).combFiltersR :=
  comb_feedback_signs_alternate _ _ 0 _ 44100 _ ⟨rfl, rfl, rfl, rfl, rfl, rfl⟩
    (by
      intro call hcall
      simp only [List.mem_cons, List.mem_singleton, List.not_mem_nil, or_false] at hcall
      rcases hcall with rfl | rfl
      · refine ⟨⟨by norm_num, by norm_num⟩, ?_⟩
        intro v hv
        injection hv with _ hv
        rw [← hv]
        norm_num
      · refine ⟨⟨by norm_num, by norm_num [NUM_PRESETS]⟩, ?_⟩
        intro v hv
        cases hv)

end MisEfx

/-! ## Smearing of the all-pass units -/

namespace MisEfx

section Smearing

variable {K : Type} [LinearOrderedField K]

/-- The smearing invariant holds when `InitPlugin` returns. -/
theorem InitPlugin_smearing (c : Constants K) (sr : ℤ) :
    SmearingInvariant c (InitPlugin c sr : State K (DspLibrary.tracing K)) := by
  refine ⟨rfl, ?_, ?_, ⟨rfl, rfl, rfl, rfl⟩, ?_⟩
  · simp [InitPlugin, setAllPassFiltersDelay, setCombFiltersDelay, updateReverbParameters,
      presetTable, presetAt]
    norm_num
  · simp [InitPlugin, setAllPassFiltersDelay, setCombFiltersDelay, updateReverbParameters,
      presetTable, presetAt, MAX_SMEARING_VALUE]
    norm_num
  · intro u hu
    simp [InitPlugin, setAllPassFiltersDelay, setCombFiltersDelay, updateReverbParameters,
      DspLibrary.tracing, NUM_ALLPASS_FILTERS_IN, NUM_ALLPASS_FILTERS_OUT, List.range,
      List.range.loop, presetTable, presetAt] at hu ⊢
    rcases hu with h | h | h | h | h | h | h | h | h | h | h | h <;>
      · rw [h]; rfl

/-- A `setParameter` call keeps the smearing invariant, provided a smearing value lies in
`[0,1]`. -/
theorem setParameter_smearingInvariant (m : Libm K) (c : Constants K)
    (s : State K (DspLibrary.tracing K)) (index : ℤ) (v : K)
    (hv : index = Param_smearing → 0 ≤ v ∧ v ≤ 1) (h : SmearingInvariant c s) :
    SmearingInvariant c (setParameter m c s index v) := by
  rcases index_cases index with h' | h' | h' | h' | h' | h' | h' | h' | h' | h' | h'
  · rw [h', setParameter_wet]; exact h
  · rw [h', setParameter_decay]; exact h
  · obtain ⟨h0, h1⟩ := hv h'
    obtain ⟨hp, -, -, hlen, -⟩ := h
    rw [h', setParameter_smearing]
    refine ⟨hp, ?_, ?_, ?_, ?_⟩
    · exact mul_nonneg h0 (by unfold MAX_SMEARING_VALUE; norm_num)
    · have : (0 : K) ≤ MAX_SMEARING_VALUE := by unfold MAX_SMEARING_VALUE; norm_num
      show v * MAX_SMEARING_VALUE ≤ MAX_SMEARING_VALUE
      nlinarith
    · simpa using hlen
    · intro u hu
      simp only [List.mem_append, List.mem_map] at hu
      rcases hu with ((⟨a, -, rfl⟩ | ⟨a, -, rfl⟩) | ⟨a, -, rfl⟩) | ⟨a, -, rfl⟩ <;> rfl
  · rw [h', setParameter_damping]; exact h
  · rw [h', setParameter_lpfFreq]; exact h
  · rw [h', setParameter_hpfFreq]; exact h
  · rw [h', setParameter_preDelay]; exact h
  · rw [h', setParameter_ModRate]; exact h
  · rw [h', setParameter_ModDepth]; exact h
  · rw [h', setParameter_spread]; exact h
  · rw [(setParameter_getParameter_default m c s index v h').1]; exact h

/-- The smearing of each of the five presets, divided by `MAX_SMEARING_VALUE`, is a
normalized value. -/
theorem preset_smearing_normalized (c : Constants K) (program : ℤ)
    (hp : 0 ≤ program ∧ program < (NUM_PRESETS : ℤ)) :
    0 ≤ (presetAt (presetTable c) program).rev_smearing / MAX_SMEARING_VALUE ∧
      (presetAt (presetTable c) program).rev_smearing / MAX_SMEARING_VALUE ≤ 1 := by
  obtain ⟨h0, h5⟩ := hp
  simp only [NUM_PRESETS, Nat.cast_ofNat] at h5
  interval_cases program <;>
    simp [presetAt, presetTable, MAX_SMEARING_VALUE] <;> norm_num

/-- A `setProgram` call with a program index in range keeps the smearing invariant. -/
theorem setProgram_smearingInvariant (m : Libm K) (c : Constants K)
    (s : State K (DspLibrary.tracing K)) (program : ℤ)
    (hp : 0 ≤ program ∧ program < (NUM_PRESETS : ℤ)) (h : SmearingInvariant c s) :
    SmearingInvariant c (setProgram m c s program) := by
  have hsm := preset_smearing_normalized c program hp
  rw [← h.1] at hsm
  unfold setProgram
  refine setParameter_smearingInvariant m c _ _ _ (fun e => absurd e (by decide)) ?_
  refine setParameter_smearingInvariant m c _ _ _ (fun e => absurd e (by decide)) ?_
  refine setParameter_smearingInvariant m c _ _ _ (fun e => absurd e (by decide)) ?_
  refine setParameter_smearingInvariant m c _ _ _ (fun e => absurd e (by decide)) ?_
  refine setParameter_smearingInvariant m c _ _ _ (fun e => absurd e (by decide)) ?_
  refine setParameter_smearingInvariant m c _ _ _ (fun e => absurd e (by decide)) ?_
  refine setParameter_smearingInvariant m c _ _ _ (fun _ => hsm) ?_
  refine setParameter_smearingInvariant m c _ _ _ (fun e => absurd e (by decide)) ?_
  refine setParameter_smearingInvariant m c _ _ _ (fun e => absurd e (by decide)) ?_
  refine setParameter_smearingInvariant m c _ _ _ (fun e => absurd e (by decide)) ?_
  exact h

/-- Control calls that keep to the host contract keep the smearing invariant. -/
theorem runHost_smearingInvariant (m : Libm K) (c : Constants K)
    (calls : List (HostCall K)) (hcalls : ∀ call ∈ calls, call.InRange)
    (s : State K (DspLibrary.tracing K)) (h : SmearingInvariant c s) :
    SmearingInvariant c (runHost m c s calls) := by
  induction calls generalizing s with
  | nil => exact h
  | cons call calls ih =>
    simp only [runHost, List.foldl_cons]
    apply ih (fun x hx => hcalls x (List.mem_cons_of_mem _ hx))
    have hr := hcalls call (List.mem_cons_self _ _)
    cases call with
    | setParameter index value =>
      exact setParameter_smearingInvariant m c s index value (fun _ => hr) h
    | setProgram program => exact setProgram_smearingInvariant m c s program hr h

end Smearing

/-- C15: the all-pass smearing coefficient of the Schroeder plug-in stays below `1` and is
shared by all units.  In every state reached from `InitPlugin` by `setParameter` calls with
values in `[0,1]` and `setProgram(p)` calls with `p` in `0..4`, each of the four all-pass
arrays has three units, the newest `setFeedback` call of every one of the twelve units gave
the same `g = rev_smearing`, and `0 <= g <= 0.97 < 1`; after `setParameter(Param_smearing,
v)` it is `g = v * 0.97`. -/
theorem allPass_feedback_shared_below_one {K : Type} [LinearOrderedField K] (m : Libm K)
    (c : Constants K) (sr : ℤ) (calls : List (HostCall K))
    (s : State K (DspLibrary.tracing K)) (hcalls : ∀ call ∈ calls, call.InRange)
    (hs : s = runHost m c (InitPlugin c sr) calls) :
    (s.apFiltersL_input.length = 3 ∧ s.apFiltersR_input.length = 3 ∧
      s.apFiltersL_output.length = 3 ∧ s.apFiltersR_output.length = 3) ∧
    (∀ u ∈ (s.apFiltersL_input ++ s.apFiltersR_input ++ s.apFiltersL_output ++
        s.apFiltersR_output : List (List (Call K))),
      Call.lastFeedback u = some s.rev_smearing) ∧
    (0 ≤ s.rev_smearing ∧ s.rev_smearing ≤ 0.97 ∧ (0.97 : K) < 1) ∧
    ∀ v : K, (setParameter m c s Param_smearing v).rev_smearing = v * 0.97 := by
  subst hs
  obtain ⟨-, h0, h1, hlen, hall⟩ :=
    runHost_smearingInvariant m c calls hcalls _ (InitPlugin_smearing c sr)
  refine ⟨hlen, hall, ⟨h0, h1, by norm_num⟩, ?_⟩
  intro v
  rw [setParameter_smearing]
  rfl

/-- Witness of C15: the smearing set to `1`, then program `3` selected, on the freshly
initialised plug-in. -/
theorem allPass_feedback_shared_below_one_witness :
    (0 : ℝ) ≤
        (runHost ⟨Real.exp, Real.log, fun a b => a ^ b, Real.sin, Real.cos, Real.pi⟩
          ⟨100, 20000, 40, 7000, Real.log 100, Real.log 20000, Real.log 40, Real.log 7000⟩
          (InitPlugin
            ⟨100, 20000, 40, 7000, Real.log 100, Real.log 20000, Real.log 40, Real.log 7000⟩
            44100 : State ℝ (DspLibrary.tracing ℝ))
          [HostCall.setParameter Param_smearing 1, HostCall.setProgram 3]).rev_smearing ∧
      (runHost ⟨Real.exp, Real.log, fun a b => a ^ b, Real.sin, Real.cos, Real.pi⟩
          ⟨100, 20000, 40, 7000, Real.log 100, Real.log 20000, Real.log 40, Real.log 7000⟩
          (InitPlugin
            ⟨100, 20000, 40, 7000, Real.log 100, Real.log 20000, Real.log 40, Real.log 7000⟩
            44100 : State ℝ (DspLibrary.tracing ℝ))
          [HostCall.setParameter Param_smearing 1, HostCall.setProgram 3]).rev_smearing ≤
        0.97 ∧ (0.97 : ℝ) < 1 :=
  (allPass_feedback_shared_below_one _ _ 44100
    [HostCall.setParameter Param_smearing 1, HostCall.setProgram 3] _
    (by
      intro call hcall
      simp only [List.mem_cons, List.mem_singleton, List.not_mem_nil, or_false] at hcall
      rcases hcall with rfl | rfl
      · exact ⟨by norm_num, by norm_num⟩
      · exact ⟨by norm_num, by norm_num [NUM_PRESETS]⟩)
    rfl).2.2.1

end MisEfx

/-! ## Range of the decay time -/

namespace MisEfx

/-- C16 (counterexample): the normalized decay `0` is passed on as it is.  On the freshly
initialised plug-ins, `setParameter(Param_decay, 0)` calls `setFeedbackFromDecay(0)` on
every comb unit of both banks of the Schroeder plug-in (the newest call of each of the
sixteen units) and `FDN::setDecayInSeconds(0)` in the FDN plug-in: the decay time that
reaches the engine is `0`, not a strictly positive value. -/
theorem decay_zero_reaches_engine :
    ((setParameter ⟨Real.exp, Real.log, fun a b => a ^ b, Real.sin, Real.cos, Real.pi⟩
        ⟨100, 20000, 40, 7000, Real.log 100, Real.log 20000, Real.log 40, Real.log 7000⟩
        (InitPlugin
          ⟨100, 20000, 40, 7000, Real.log 100, Real.log 20000, Real.log 40, Real.log 7000⟩
          44100 : State ℝ (DspLibrary.tracing ℝ))
        Param_decay 0).combFiltersL.map List.head? =
      List.replicate 8 (some (Call.setFeedbackFromDecay 0))) ∧
    ((setParameter ⟨Real.exp, Real.log, fun a b => a ^ b, Real.sin, Real.cos, Real.pi⟩
        ⟨100, 20000, 40, 7000, Real.log 100, Real.log 20000, Real.log 40, Real.log 7000⟩
        (InitPlugin
          ⟨100, 20000, 40, 7000, Real.log 100, Real.log 20000, Real.log 40, Real.log 7000⟩
          44100 : State ℝ (DspLibrary.tracing ℝ))
        Param_decay 0).combFiltersR.map List.head? =
      List.replicate 8 (some (Call.setFeedbackFromDecay 0))) ∧
    (FdnFeedverb.setParameter
        ⟨Real.exp, Real.log, fun a b => a ^ b, Real.sin, Real.cos, Real.pi⟩
        (FdnFeedverb.InitPlugin
          ⟨Real.exp, Real.log, fun a b => a ^ b, Real.sin, Real.cos, Real.pi⟩
          ⟨100, 20000, 40, 7000, Real.log 100, Real.log 20000, Real.log 40, Real.log 7000⟩
          44100 0 : FdnFeedverb.State ℝ (FdnFeedverb.FDNClass.recording ℝ))
        FdnFeedverb.EfxParameter.Param_decay 0).fdnver_FDN.decayInSeconds = 0 := by
  refine ⟨?_, ?_, ?_⟩
  · rw [setParameter_decay]
    simp [InitPlugin, setAllPassFiltersDelay, setCombFiltersDelay, updateReverbParameters,
      DspLibrary.tracing, NUM_COMB_FILTERS, List.range, List.range.loop, List.replicate]
  · rw [setParameter_decay]
    simp [InitPlugin, setAllPassFiltersDelay, setCombFiltersDelay, updateReverbParameters,
      DspLibrary.tracing, NUM_COMB_FILTERS, List.range, List.range.loop, List.replicate]
  · simp [FdnFeedverb.setParameter, FdnFeedverb.FDNClass.recording]

/-- C16 (amended): `setParameter(Param_decay, v)` passes the scaled value on without a
clamp.  Every comb unit of both banks of the Schroeder plug-in receives
`setFeedbackFromDecay(v * MAX_REVERB_DECAY_IN_SECONDS)` with the maximum `5` s, the FDN of
the FDN plug-in receives `setDecayInSeconds(v * MAX_REVERB_DECAY_IN_SECONDS)` with the
maximum `30` s, and the value passed is strictly positive exactly when `v > 0`; at `v = 0`
it is `0`. -/
theorem setParameter_decay_passes_scaled_value {K : Type} [LinearOrderedField K]
    {lib : DspLibrary K} {F : FdnFeedverb.FDNClass K} (m : Libm K) (c : Constants K)
    (s : State K lib) (p : FdnFeedverb.State K F) (v : K) :
    (setParameter m c s Param_decay v).combFiltersL =
        s.combFiltersL.map (fun f => lib.LPCombFilter.setFeedbackFromDecay f (v * 5)) ∧
      (setParameter m c s Param_decay v).combFiltersR =
        s.combFiltersR.map (fun f => lib.LPCombFilter.setFeedbackFromDecay f (v * 5)) ∧
      (FdnFeedverb.setParameter m p FdnFeedverb.EfxParameter.Param_decay v).fdnver_FDN =
        F.setDecayInSeconds p.fdnver_FDN (v * 30) ∧
      ((0 < v * 5 ↔ 0 < v) ∧ (0 < v * 30 ↔ 0 < v)) ∧
      (v = 0 → v * 5 = 0 ∧ v * 30 = 0) := by
  have e5 : (MAX_REVERB_DECAY_IN_SECONDS : K) = 5 := by
    unfold MAX_REVERB_DECAY_IN_SECONDS; norm_num
  have e30 : (FdnFeedverb.MAX_REVERB_DECAY_IN_SECONDS : K) = 30 := by
    unfold FdnFeedverb.MAX_REVERB_DECAY_IN_SECONDS; norm_num
  refine ⟨?_, ?_, ?_, ⟨?_, ?_⟩, ?_⟩
  · rw [setParameter_decay, e5]
  · rw [setParameter_decay, e5]
  · simp only [FdnFeedverb.setParameter, e30]
  · exact mul_pos_iff_of_pos_right (by norm_num)
  · exact mul_pos_iff_of_pos_right (by norm_num)
  · rintro rfl
    simp

end MisEfx

/-! ## Sample-rate changes -/

namespace Feedverb

/-- Calling `setSampleRate(48000)` on a `plugins/Feedverb` instance whose two FDNs were
last given 44100: the left FDN now holds 48000, the right one still 44100. -/
theorem setSampleRate_right_stale_example :
    ((setSampleRate
        ({ rev_presets := [], rev_wet := 0, rev_smearing := 0, rev_decay := 0,
           rev_damping := 0, rev_lpfFreq := 0, rev_hpfFreq := 0, rev_preDelay := 0,
           rev_modRate := 0, rev_modDepth := 0, rev_spread := 0,
           fdnverb_fdnLeft := (44100 : ℚ), fdnverb_fdnRight := (44100 : ℚ) } :
          State ℚ (FDNClass.monoThrough ℚ)) 48000).fdnverb_fdnLeft : ℚ) = (48000 : ℚ) ∧
    ((setSampleRate
        ({ rev_presets := [], rev_wet := 0, rev_smearing := 0, rev_decay := 0,
           rev_damping := 0, rev_lpfFreq := 0, rev_hpfFreq := 0, rev_preDelay := 0,
           rev_modRate := 0, rev_modDepth := 0, rev_spread := 0,
           fdnverb_fdnLeft := (44100 : ℚ), fdnverb_fdnRight := (44100 : ℚ) } :
          State ℚ (FDNClass.monoThrough ℚ)) 48000).fdnverb_fdnRight : ℚ) = (44100 : ℚ) :=
  ⟨rfl, rfl⟩

end Feedverb

namespace MisEfx

/-- C17 (what the code does): `setSampleRate(sr)` of the Schroeder plug-in gives `sr` to
every component it owns: the newest call of the pre-delay, of each comb unit of both banks,
of each input and output all-pass unit of both channels, of the tremolo and of both output
filters is `setSampleRate(sr)`, and no unit is added or dropped (after `InitPlugin` there
are `2 * NUM_COMB_FILTERS` comb units).  `setSampleRate(sr)` of `plugins/Feedverb` gives
`sr` to `fdnverb_fdnLeft` only: `fdnverb_fdnRight` is left as it was. -/
theorem setSampleRate_reaches_components {K : Type} [LinearOrderedField K]
    {F : Feedverb.FDNClass K} (c : Constants K) (rate : ℤ)
    (s : State K (DspLibrary.tracing K)) (p : Feedverb.State K F) (sr : K) :
    ((∀ u ∈ ownedUnits (setSampleRate s sr), u.head? = some (Call.setSampleRate sr)) ∧
      (ownedUnits (setSampleRate s sr)).length = (ownedUnits s).length ∧
      (setSampleRate s sr).combFiltersL.length = s.combFiltersL.length ∧
      (setSampleRate s sr).combFiltersR.length = s.combFiltersR.length ∧
      (InitPlugin c rate : State K (DspLibrary.tracing K)).combFiltersL.length +
          (InitPlugin c rate : State K (DspLibrary.tracing K)).combFiltersR.length =
        2 * NUM_COMB_FILTERS) ∧
    (Feedverb.setSampleRate p sr).fdnverb_fdnLeft = F.setSampleRate p.fdnverb_fdnLeft sr ∧
    (Feedverb.setSampleRate p sr).fdnverb_fdnRight = p.fdnverb_fdnRight := by
  refine ⟨⟨?_, ?_, ?_, ?_, ?_⟩, rfl, rfl⟩
  · intro u hu
    simp only [ownedUnits, setSampleRate, List.append_eq, List.mem_append, List.mem_cons,
      List.mem_singleton, List.not_mem_nil, or_false, List.mem_map] at hu
    rcases hu with (h | h | h | h) | ⟨a, -, h⟩ | ⟨a, -, h⟩ | ⟨a, -, h⟩ | ⟨a, -, h⟩ |
      ⟨a, -, h⟩ | ⟨a, -, h⟩ <;> subst h <;> rfl
  · simp [ownedUnits, setSampleRate]
  · simp [setSampleRate]
  · simp [setSampleRate]
  · simp [InitPlugin, setAllPassFiltersDelay, setCombFiltersDelay, updateReverbParameters,
      NUM_COMB_FILTERS]

end MisEfx

/-! ## Stereo spread -/

namespace FdnFeedverb

/-- C18 (what the code does): when `InitPlugin` returns, `getParameter(Param_spread)`
returns `fdnver_spread = 1.0` while the stereo spread pushed into the FDN is
`fdnver_stereoSpread = 0.5`, so `setParameter(Param_spread, getParameter(Param_spread))`
changes the FDN's stereo spread from `0.5` to `1`.  Once `setParameter(Param_spread, v)` has
been called, the value read back is the one last pushed. -/
theorem InitPlugin_spread_differs_from_pushed {K : Type} [LinearOrderedField K]
    (m : Libm K) (c : Constants K) (sampleRate : ℤ) (t v : K)
    (s : State K (FDNClass.recording K)) :
    (getParameter m c (InitPlugin m c sampleRate t : State K (FDNClass.recording K))
        EfxParameter.Param_spread = 1 ∧
      (InitPlugin m c sampleRate t : State K (FDNClass.recording K)).fdnver_FDN.stereoSpread =
        0.5 ∧
      (setParameter m (InitPlugin m c sampleRate t : State K (FDNClass.recording K))
          EfxParameter.Param_spread
          (getParameter m c (InitPlugin m c sampleRate t : State K (FDNClass.recording K))
            EfxParameter.Param_spread)).fdnver_FDN.stereoSpread = 1 ∧
      (0.5 : K) ≠ 1) ∧
    (getParameter m c (setParameter m s EfxParameter.Param_spread v)
        EfxParameter.Param_spread = v ∧
      (setParameter m s EfxParameter.Param_spread v).fdnver_FDN.stereoSpread = v) := by
  refine ⟨⟨?_, ?_, ?_, by norm_num⟩, rfl, rfl⟩
  · simp [getParameter, InitPlugin, updateMix]
    norm_num
  · simp [InitPlugin, updateMix, FDNClass.recording]
  · simp [getParameter, setParameter, InitPlugin, updateMix, FDNClass.recording]
    norm_num

end FdnFeedverb

/-! ## Delay lengths of the two channels -/

namespace MisEfx

/-- C20: after `setCombFiltersDelay` and `setAllPassFiltersDelay` the delay lengths are the
same constants whatever the state was (so whatever the spread parameter is): each right
table is the left table with `STEREO_SPREAD_COEFFICIENT_IN_MS = 1.0` added to every entry,
entry `i` of a right table is entry `i` of the left table plus that constant, and unit `i`
of every array has been given entry `i` of its table by `setDelayInmsec`. -/
theorem right_delay_is_left_plus_constant {K : Type} [LinearOrderedField K]
    {lib : DspLibrary K} (s : State K lib) :
    ((setAllPassFiltersDelay (setCombFiltersDelay s)).combFilterDlymsLeft =
        [25.31, 26.94, 28.96, 30.75, 32.24, 33.81, 35.31, 36.70] ∧
      (setAllPassFiltersDelay (setCombFiltersDelay s)).allPassDlymsLeft_input =
        [1.1, 2.3, 4.7] ∧
      (setAllPassFiltersDelay (setCombFiltersDelay s)).allPassDlymsLeft_output =
        [7.73, 10.00, 12.61] ∧
      (setAllPassFiltersDelay (setCombFiltersDelay s)).combFilterDlymsLeft.length =
        NUM_COMB_FILTERS) ∧
    ((STEREO_SPREAD_COEFFICIENT_IN_MS : K) = 1 ∧
      ∀ i : ℕ,
        (setAllPassFiltersDelay (setCombFiltersDelay s)).combFilterDlymsRight[i]? =
          ((setAllPassFiltersDelay (setCombFiltersDelay s)).combFilterDlymsLeft[i]?).map
            (fun d => d + STEREO_SPREAD_COEFFICIENT_IN_MS) ∧
        (setAllPassFiltersDelay (setCombFiltersDelay s)).allPassDlymsRight_input[i]? =
          ((setAllPassFiltersDelay (setCombFiltersDelay s)).allPassDlymsLeft_input[i]?).map
            (fun d => d + STEREO_SPREAD_COEFFICIENT_IN_MS) ∧
        (setAllPassFiltersDelay (setCombFiltersDelay s)).allPassDlymsRight_output[i]? =
          ((setAllPassFiltersDelay (setCombFiltersDelay s)).allPassDlymsLeft_output[i]?).map
            (fun d => d + STEREO_SPREAD_COEFFICIENT_IN_MS)) ∧
    ((setAllPassFiltersDelay (setCombFiltersDelay s)).combFiltersL =
        List.zipWith lib.LPCombFilter.setDelayInmsec s.combFiltersL
          (setAllPassFiltersDelay (setCombFiltersDelay s)).combFilterDlymsLeft ∧
      (setAllPassFiltersDelay (setCombFiltersDelay s)).combFiltersR =
        List.zipWith lib.LPCombFilter.setDelayInmsec s.combFiltersR
          (setAllPassFiltersDelay (setCombFiltersDelay s)).combFilterDlymsRight ∧
      (setAllPassFiltersDelay (setCombFiltersDelay s)).apFiltersL_input =
        List.zipWith lib.AllPassFilter.setDelayInmsec s.apFiltersL_input
          (setAllPassFiltersDelay (setCombFiltersDelay s)).allPassDlymsLeft_input ∧
      (setAllPassFiltersDelay (setCombFiltersDelay s)).apFiltersR_input =
        List.zipWith lib.AllPassFilter.setDelayInmsec s.apFiltersR_input
          (setAllPassFiltersDelay (setCombFiltersDelay s)).allPassDlymsRight_input ∧
      (setAllPassFiltersDelay (setCombFiltersDelay s)).apFiltersL_output =
        List.zipWith lib.AllPassFilter.setDelayInmsec s.apFiltersL_output
          (setAllPassFiltersDelay (setCombFiltersDelay s)).allPassDlymsLeft_output ∧
      (setAllPassFiltersDelay (setCombFiltersDelay s)).apFiltersR_output =
        List.zipWith lib.AllPassFilter.setDelayInmsec s.apFiltersR_output
          (setAllPassFiltersDelay (setCombFiltersDelay s)).allPassDlymsRight_output) := by
  refine ⟨⟨rfl, rfl, rfl, rfl⟩, ⟨?_, ?_⟩, rfl, rfl, rfl, rfl, rfl, rfl⟩
  · unfold STEREO_SPREAD_COEFFICIENT_IN_MS; norm_num
  · intro i
    refine ⟨?_, ?_, ?_⟩ <;>
      simp only [setAllPassFiltersDelay, setCombFiltersDelay, List.getElem?_map]

end MisEfx

/-! ## Idempotence of the Schroeder parameters -/

namespace MisEfx

section Idempotence

variable {lib : DspLibrary ℝ}

/-- The stored parameters are consistent when `InitPlugin` returns. -/
theorem InitPlugin_storedConsistent (m : Libm ℝ) (c : Constants ℝ) (sr : ℤ)
    (hc : c.LogsOfHz m) : StoredConsistent (InitPlugin c sr : State ℝ lib) := by
  obtain ⟨-, -, -, -, hlpos, hllt, hhpos, -⟩ := hc
  refine ⟨rfl, rfl, rfl, ?_, ?_⟩
  · show 0 < c.MAX_LPF_FREQUENCY
    exact lt_trans hlpos hllt
  · show 0 < c.MIN_HPF_FREQUENCY
    exact hhpos

/-- Every `setParameter` call keeps the stored parameters consistent. -/
theorem setParameter_storedConsistent (m : Libm ℝ) (c : Constants ℝ) (s : State ℝ lib)
    (index : ℤ) (v : ℝ) (hm : m.IsReal) (h : StoredConsistent s) :
    StoredConsistent (setParameter m c s index v) := by
  obtain ⟨hexp, -⟩ := hm
  rcases index_cases index with h' | h' | h' | h' | h' | h' | h' | h' | h' | h' | h'
  · rw [h', setParameter_wet]; exact ⟨rfl, rfl, rfl, h.2.2.2.1, h.2.2.2.2⟩
  · rw [h', setParameter_decay]; exact h
  · rw [h', setParameter_smearing]; exact h
  · rw [h', setParameter_damping]; exact h
  · rw [h', setParameter_lpfFreq]
    refine ⟨h.1, h.2.1, h.2.2.1, ?_, h.2.2.2.2⟩
    show 0 < m.exp _
    rw [hexp]; exact Real.exp_pos _
  · rw [h', setParameter_hpfFreq]
    refine ⟨h.1, h.2.1, h.2.2.1, h.2.2.2.1, ?_⟩
    show 0 < m.exp _
    rw [hexp]; exact Real.exp_pos _
  · rw [h', setParameter_preDelay]; exact h
  · rw [h', setParameter_ModRate]; exact h
  · rw [h', setParameter_ModDepth]; exact h
  · rw [h', setParameter_spread]; exact ⟨rfl, rfl, rfl, h.2.2.2.1, h.2.2.2.2⟩
  · rw [(setParameter_getParameter_default m c s index v h').1]; exact h

/-- Every `setProgram` call keeps the stored parameters consistent. -/
theorem setProgram_storedConsistent (m : Libm ℝ) (c : Constants ℝ) (s : State ℝ lib)
    (program : ℤ) (hm : m.IsReal) (h : StoredConsistent s) :
    StoredConsistent (setProgram m c s program) := by
  unfold setProgram
  repeat apply setParameter_storedConsistent m c _ _ _ hm
  exact h

/-- Every sequence of control calls keeps the stored parameters consistent. -/
theorem runHost_storedConsistent (m : Libm ℝ) (c : Constants ℝ)
    (calls : List (HostCall ℝ)) (hm : m.IsReal) (s : State ℝ lib)
    (h : StoredConsistent s) : StoredConsistent (runHost m c s calls) := by
  induction calls generalizing s with
  | nil => exact h
  | cons call calls ih =>
    simp only [runHost, List.foldl_cons]
    apply ih
    cases call with
    | setParameter index value => exact setParameter_storedConsistent m c s index value hm h
    | setProgram program => exact setProgram_storedConsistent m c s program hm h

/-- In a consistent state, writing back the value read leaves the stored parameters as they
are. -/
theorem setParameter_getParameter_stored (m : Libm ℝ) (c : Constants ℝ) (s : State ℝ lib)
    (index : ℤ) (hm : m.IsReal) (hc : c.LogsOfHz m) (h : StoredConsistent s) :
    storedParameters (setParameter m c s index (getParameter m c s index)) =
      storedParameters s := by
  obtain ⟨hexp, hlog, -⟩ := hm
  obtain ⟨hl0, hl1, hh0, hh1, hlpos, hllt, hhpos, hhlt⟩ := hc
  rw [hlog] at hl0 hl1 hh0 hh1
  have hlne : c.MIN_LPF_FREQUENCY_LOG ≠ c.MAX_LPF_FREQUENCY_LOG := by
    rw [hl0, hl1]; exact ne_of_lt (Real.log_lt_log hlpos hllt)
  have hhne : c.MIN_HPF_FREQUENCY_LOG ≠ c.MAX_HPF_FREQUENCY_LOG := by
    rw [hh0, hh1]; exact ne_of_lt (Real.log_lt_log hhpos hhlt)
  obtain ⟨hw1, hw2, hd, hlp, hhp⟩ := h
  rcases index_cases index with h' | h' | h' | h' | h' | h' | h' | h' | h' | h' | h'
  · have hg : getParameter m c s Param_wet = s.rev_wet := by simp [getParameter]
    rw [h', hg, setParameter_wet]
    simp only [storedParameters]
    rw [hw1, hw2, hd]
    rfl
  · have hg : getParameter m c s Param_decay = s.rev_decay / MAX_REVERB_DECAY_IN_SECONDS := by
      simp [getParameter, Param_wet, Param_decay]
    rw [h', hg, setParameter_decay]
    simp [storedParameters, MAX_REVERB_DECAY_IN_SECONDS]
    norm_num
  · have hg : getParameter m c s Param_smearing = s.rev_smearing / MAX_SMEARING_VALUE := by
      simp [getParameter, Param_wet, Param_decay, Param_smearing]
    rw [h', hg, setParameter_smearing]
    simp [storedParameters, MAX_SMEARING_VALUE]
    norm_num
  · have hg : getParameter m c s Param_damping = s.rev_damping := by
      simp [getParameter, Param_wet, Param_decay, Param_smearing, Param_damping]
    rw [h', hg, setParameter_damping]
    rfl
  · have hg : getParameter m c s Param_lpfFreq =
        mapValueOutsideRange (m.log s.rev_lpfFreq) c.MIN_LPF_FREQUENCY_LOG
          c.MAX_LPF_FREQUENCY_LOG := by
      simp [getParameter, Param_wet, Param_decay, Param_smearing, Param_damping,
        Param_lpfFreq]
    rw [h', hg, setParameter_lpfFreq]
    simp [storedParameters, mapValueIntoRange_mapValueOutsideRange _ _ _ hlne, hexp, hlog,
      Real.exp_log hlp]
  · have hg : getParameter m c s Param_hpfFreq =
        mapValueOutsideRange (m.log s.rev_hpfFreq) c.MIN_HPF_FREQUENCY_LOG
          c.MAX_HPF_FREQUENCY_LOG := by
      simp [getParameter, Param_wet, Param_decay, Param_smearing, Param_damping,
        Param_lpfFreq, Param_hpfFreq]
    rw [h', hg, setParameter_hpfFreq]
    simp [storedParameters, mapValueIntoRange_mapValueOutsideRange _ _ _ hhne, hexp, hlog,
      Real.exp_log hhp]
  · have hg : getParameter m c s Param_preDelay =
        s.rev_preDelay / MAX_PREDELAY_VALUE_IN_MS := by
      simp [getParameter, Param_wet, Param_decay, Param_smearing, Param_damping,
        Param_lpfFreq, Param_hpfFreq, Param_preDelay]
    rw [h', hg, setParameter_preDelay]
    simp [storedParameters, MAX_PREDELAY_VALUE_IN_MS]
    norm_num
  · have hne : (MIN_MOD_RATE_IN_HZ : ℝ) ≠ MAX_MOD_RATE_IN_HZ := by
      unfold MIN_MOD_RATE_IN_HZ MAX_MOD_RATE_IN_HZ; norm_num
    have hg : getParameter m c s Param_ModRate =
        mapValueOutsideRange s.rev_modRate MIN_MOD_RATE_IN_HZ MAX_MOD_RATE_IN_HZ := by
      simp [getParameter, Param_wet, Param_decay, Param_smearing, Param_damping,
        Param_lpfFreq, Param_hpfFreq, Param_preDelay, Param_ModRate]
    rw [h', hg, setParameter_ModRate]
    simp [storedParameters, mapValueIntoRange_mapValueOutsideRange _ _ _ hne]
  · have hg : getParameter m c s Param_ModDepth = s.rev_modDepth := by
      simp [getParameter, Param_wet, Param_decay, Param_smearing, Param_damping,
        Param_lpfFreq, Param_hpfFreq, Param_preDelay, Param_ModRate, Param_ModDepth]
    rw [h', hg, setParameter_ModDepth]
    rfl
  · have hg : getParameter m c s Param_spread = s.rev_spread := by
      simp [getParameter, Param_wet, Param_decay, Param_smearing, Param_damping,
        Param_lpfFreq, Param_hpfFreq, Param_preDelay, Param_ModRate, Param_ModDepth,
        Param_spread]
    rw [h', hg, setParameter_spread]
    simp only [storedParameters]
    rw [hw1, hw2, hd]
    rfl
  · rw [(setParameter_getParameter_default m c s index _ h').1]

end Idempotence

/-- C19: idempotence in the Schroeder plug-in, in exact (real) arithmetic.  For every
parameter index (the ten enumerators, and any other integer, for which nothing happens) and
every state reached from `InitPlugin` by `setParameter` calls with values in `[0,1]` and
`setProgram` calls with a program in `0..4`, `setParameter(id, getParameter(id))` leaves
the ten stored physical parameters and the derived `wet1`, `wet2`, `dry` unchanged.  The
`_LOG` constants are the logarithms of the frequency bounds. -/
theorem setParameter_getParameter_idempotent {lib : DspLibrary ℝ} (m : Libm ℝ)
    (c : Constants ℝ) (sr : ℤ) (calls : List (HostCall ℝ)) (index : ℤ) (s : State ℝ lib)
    (hm : m.IsReal) (hc : c.LogsOfHz m) (_hcalls : ∀ call ∈ calls, call.InRange)
    (hs : s = runHost m c (InitPlugin c sr) calls) :
    storedParameters (setParameter m c s index (getParameter m c s index)) =
      storedParameters s := by
  subst hs
  exact setParameter_getParameter_stored m c _ index hm hc
    (runHost_storedConsistent m c calls hm _ (InitPlugin_storedConsistent m c sr hc))

end MisEfx

namespace MisEfx

/-- Witness of C19: the low-pass frequency written back after a decay change and a program
change, with the frequency ranges `[100, 20000]` Hz and `[40, 7000]` Hz. -/
theorem setParameter_getParameter_idempotent_witness :
    storedParameters
        (setParameter ⟨Real.exp, Real.log, fun a b => a ^ b, Real.sin, Real.cos, Real.pi⟩
          ⟨100, 20000, 40, 7000, Real.log 100, Real.log 20000, Real.log 40, Real.log 7000⟩
          (runHost ⟨Real.exp, Real.log, fun a b => a ^ b, Real.sin, Real.cos, Real.pi⟩
            ⟨100, 20000, 40, 7000, Real.log 100, Real.log 20000, Real.log 40, Real.log 7000⟩
            (InitPlugin
              ⟨100, 20000, 40, 7000, Real.log 100, Real.log 20000, Real.log 40, Real.log 7000⟩
              44100 : State ℝ (DspLibrary.passThrough ℝ))
            [HostCall.setParameter Param_decay (1 / 2), HostCall.setProgram 1])
          Param_lpfFreq
          (getParameter ⟨Real.exp, Real.log, fun a b => a ^ b, Real.sin, Real.cos, Real.pi⟩
            ⟨100, 20000, 40, 7000, Real.log 100, Real.log 20000, Real.log 40, Real.log 7000⟩
            (runHost ⟨Real.exp, Real.log, fun a b => a ^ b, Real.sin, Real.cos, Real.pi⟩
              ⟨100, 20000, 40, 7000, Real.log 100, Real.log 20000, Real.log 40,
                Real.log 7000⟩
              (InitPlugin
                ⟨100, 20000, 40, 7000, Real.log 100, Real.log 20000, Real.log 40,
                  Real.log 7000⟩
                44100 : State ℝ (DspLibrary.passThrough ℝ))
              [HostCall.setParameter Param_decay (1 / 2), HostCall.setProgram 1])
            Param_lpfFreq)) =
      storedParameters
        (runHost ⟨Real.exp, Real.log, fun a b => a ^ b, Real.sin, Real.cos, Real.pi⟩
          ⟨100, 20000, 40, 7000, Real.log 100, Real.log 20000, Real.log 40, Real.log 7000⟩
          (InitPlugin
            ⟨100, 20000, 40, 7000, Real.log 100, Real.log 20000, Real.log 40, Real.log 7000⟩
            44100 : State ℝ (DspLibrary.passThrough ℝ))
          [HostCall.setParameter Param_decay (1 / 2), HostCall.setProgram 1]) :=
  setParameter_getParameter_idempotent _ _ 44100
    [HostCall.setParameter Param_decay (1 / 2), HostCall.setProgram 1] Param_lpfFreq _
    ⟨rfl, rfl, rfl, rfl, rfl, rfl⟩
    ⟨rfl, rfl, rfl, rfl, by norm_num, by norm_num, by norm_num, by norm_num⟩
    (by
      intro call hcall
      simp only [List.mem_cons, List.mem_singleton, List.not_mem_nil, or_false] at hcall
      rcases hcall with rfl | rfl
      · exact ⟨by norm_num, by norm_num⟩
      · exact ⟨by norm_num, by norm_num [NUM_PRESETS]⟩)
    rfl

end MisEfx

/-! ## Delay lengths and capacities -/

/-- A unit stays within its capacity when it receives one more call that is within it. -/
theorem unitWithinCapacity_cons {K : Type} [LinearOrderedField K] {cap : K} {sr : ℤ}
    {u : List (Call K)} (h : UnitWithinCapacity cap sr u) (call : Call K)
    (hc : call.WithinCapacity cap) : UnitWithinCapacity cap sr (call :: u) := by
  refine ⟨List.mem_cons_of_mem _ h.1, ?_⟩
  intro x hx
  rcases List.mem_cons.mp hx with rfl | hx
  · exact hc
  · exact h.2 x hx

/-- The units of an array stay within their capacity when each receives one more call that
is within it. -/
theorem unitWithinCapacity_map {K : Type} [LinearOrderedField K] {cap : K} {sr : ℤ}
    {us : List (List (Call K))} (h : ∀ u ∈ us, UnitWithinCapacity cap sr u)
    (call : Call K) (hc : call.WithinCapacity cap) :
    ∀ u ∈ us.map (fun f => call :: f), UnitWithinCapacity cap sr u := by
  intro u hu
  obtain ⟨a, ha, rfl⟩ := List.mem_map.mp hu
  exact unitWithinCapacity_cons (h a ha) call hc

namespace MisEfx

section Capacity

variable {K : Type} [LinearOrderedField K]

/-- The delays are within capacity when `InitPlugin` returns. -/
theorem InitPlugin_delaysWithinCapacity (c : Constants K) (sr : ℤ) :
    DelaysWithinCapacity c sr (InitPlugin c sr : State K (DspLibrary.tracing K)) := by
  refine ⟨rfl, ?_, ?_, ?_, ?_, ?_, ?_, ?_⟩
  · simp [UnitWithinCapacity, Call.WithinCapacity, InitPlugin, setAllPassFiltersDelay,
      setCombFiltersDelay, updateReverbParameters, DspLibrary.tracing, presetTable, presetAt,
      MAX_PREDELAY_VALUE_IN_MS]
    norm_num
  iterate 2
    intro u hu
    simp [InitPlugin, setAllPassFiltersDelay, setCombFiltersDelay, updateReverbParameters,
      DspLibrary.tracing, NUM_COMB_FILTERS, List.range, List.range.loop, presetTable,
      presetAt] at hu
    rcases hu with h | h | h | h | h | h | h | h <;>
      · subst h
        simp [UnitWithinCapacity, Call.WithinCapacity, MAX_COMB_FILTER_LENGTH_IN_MS,
          STEREO_SPREAD_COEFFICIENT_IN_MS]
        norm_num
  all_goals
    intro u hu
    simp [InitPlugin, setAllPassFiltersDelay, setCombFiltersDelay, updateReverbParameters,
      DspLibrary.tracing, NUM_ALLPASS_FILTERS_IN, NUM_ALLPASS_FILTERS_OUT, List.range,
      List.range.loop, presetTable, presetAt] at hu
    rcases hu with h | h | h <;>
      · subst h
        simp [UnitWithinCapacity, Call.WithinCapacity, MAX_AP_FILTER_LENGTH_IN_MS,
          STEREO_SPREAD_COEFFICIENT_IN_MS]
        norm_num

/-- A `setParameter` call keeps the delays within capacity, provided a pre-delay value is at
most `1`. -/
theorem setParameter_delaysWithinCapacity (m : Libm K) (c : Constants K) (sr : ℤ)
    (s : State K (DspLibrary.tracing K)) (index : ℤ) (v : K)
    (hv : index = Param_preDelay → v ≤ 1) (h : DelaysWithinCapacity c sr s) :
    DelaysWithinCapacity c sr (setParameter m c s index v) := by
  obtain ⟨hp, hpd, hcL, hcR, hLi, hRi, hLo, hRo⟩ := h
  rcases index_cases index with h' | h' | h' | h' | h' | h' | h' | h' | h' | h' | h'
  · rw [h', setParameter_wet]; exact ⟨hp, hpd, hcL, hcR, hLi, hRi, hLo, hRo⟩
  · rw [h', setParameter_decay]
    exact ⟨hp, hpd, unitWithinCapacity_map hcL _ trivial,
      unitWithinCapacity_map hcR _ trivial, hLi, hRi, hLo, hRo⟩
  · rw [h', setParameter_smearing]
    exact ⟨hp, hpd, hcL, hcR, unitWithinCapacity_map hLi _ trivial,
      unitWithinCapacity_map hRi _ trivial, unitWithinCapacity_map hLo _ trivial,
      unitWithinCapacity_map hRo _ trivial⟩
  · rw [h', setParameter_damping]
    exact ⟨hp, hpd, unitWithinCapacity_map hcL _ trivial,
      unitWithinCapacity_map hcR _ trivial, hLi, hRi, hLo, hRo⟩
  · rw [h', setParameter_lpfFreq]; exact ⟨hp, hpd, hcL, hcR, hLi, hRi, hLo, hRo⟩
  · rw [h', setParameter_hpfFreq]; exact ⟨hp, hpd, hcL, hcR, hLi, hRi, hLo, hRo⟩
  · rw [h', setParameter_preDelay]
    refine ⟨hp,
      unitWithinCapacity_cons hpd (Call.setDelayInmsec (v * MAX_PREDELAY_VALUE_IN_MS)) ?_,
      hcL, hcR, hLi, hRi, hLo, hRo⟩
    have h1 := hv h'
    have : (0 : K) ≤ MAX_PREDELAY_VALUE_IN_MS := by unfold MAX_PREDELAY_VALUE_IN_MS; norm_num
    show v * MAX_PREDELAY_VALUE_IN_MS ≤ MAX_PREDELAY_VALUE_IN_MS
    nlinarith
  · rw [h', setParameter_ModRate]; exact ⟨hp, hpd, hcL, hcR, hLi, hRi, hLo, hRo⟩
  · rw [h', setParameter_ModDepth]; exact ⟨hp, hpd, hcL, hcR, hLi, hRi, hLo, hRo⟩
  · rw [h', setParameter_spread]; exact ⟨hp, hpd, hcL, hcR, hLi, hRi, hLo, hRo⟩
  · rw [(setParameter_getParameter_default m c s index v h').1]
    exact ⟨hp, hpd, hcL, hcR, hLi, hRi, hLo, hRo⟩

/-- The pre-delay of each of the five presets, divided by `MAX_PREDELAY_VALUE_IN_MS`, is at
most `1`. -/
theorem preset_preDelay_normalized (c : Constants K) (program : ℤ)
    (hp : 0 ≤ program ∧ program < (NUM_PRESETS : ℤ)) :
    (presetAt (presetTable c) program).rev_preDelay / MAX_PREDELAY_VALUE_IN_MS ≤ 1 := by
  obtain ⟨h0, h5⟩ := hp
  simp only [NUM_PRESETS, Nat.cast_ofNat] at h5
  interval_cases program <;>
    simp [presetAt, presetTable, MAX_PREDELAY_VALUE_IN_MS] <;> norm_num

/-- A `setProgram` call with a program index in range keeps the delays within capacity. -/
theorem setProgram_delaysWithinCapacity (m : Libm K) (c : Constants K) (sr : ℤ)
    (s : State K (DspLibrary.tracing K)) (program : ℤ)
    (hp : 0 ≤ program ∧ program < (NUM_PRESETS : ℤ)) (h : DelaysWithinCapacity c sr s) :
    DelaysWithinCapacity c sr (setProgram m c s program) := by
  have hpd := preset_preDelay_normalized c program hp
  rw [← h.1] at hpd
  unfold setProgram
  refine setParameter_delaysWithinCapacity m c sr _ _ _ (fun e => absurd e (by decide)) ?_
  refine setParameter_delaysWithinCapacity m c sr _ _ _ (fun e => absurd e (by decide)) ?_
  refine setParameter_delaysWithinCapacity m c sr _ _ _ (fun e => absurd e (by decide)) ?_
  refine setParameter_delaysWithinCapacity m c sr _ _ _ (fun _ => hpd) ?_
  refine setParameter_delaysWithinCapacity m c sr _ _ _ (fun e => absurd e (by decide)) ?_
  refine setParameter_delaysWithinCapacity m c sr _ _ _ (fun e => absurd e (by decide)) ?_
  refine setParameter_delaysWithinCapacity m c sr _ _ _ (fun e => absurd e (by decide)) ?_
  refine setParameter_delaysWithinCapacity m c sr _ _ _ (fun e => absurd e (by decide)) ?_
  refine setParameter_delaysWithinCapacity m c sr _ _ _ (fun e => absurd e (by decide)) ?_
  refine setParameter_delaysWithinCapacity m c sr _ _ _ (fun e => absurd e (by decide)) ?_
  exact h

/-- Control calls that keep to the host contract keep the delays within capacity. -/
theorem runHost_delaysWithinCapacity (m : Libm K) (c : Constants K) (sr : ℤ)
    (calls : List (HostCall K)) (hcalls : ∀ call ∈ calls, call.InRange)
    (s : State K (DspLibrary.tracing K)) (h : DelaysWithinCapacity c sr s) :
    DelaysWithinCapacity c sr (runHost m c s calls) := by
  induction calls generalizing s with
  | nil => exact h
  | cons call calls ih =>
    simp only [runHost, List.foldl_cons]
    apply ih (fun x hx => hcalls x (List.mem_cons_of_mem _ hx))
    have hr := hcalls call (List.mem_cons_self _ _)
    cases call with
    | setParameter index value =>
      exact setParameter_delaysWithinCapacity m c sr s index value (fun _ => hr.2) h
    | setProgram program => exact setProgram_delaysWithinCapacity m c sr s program hr h

end Capacity

/-- C21: delay lengths never exceed the capacity in the Schroeder plug-in.  In every state
reached from `InitPlugin` by `setParameter` calls with values in `[0,1]` and `setProgram(p)`
calls with `p` in `0..4`, the pre-delay has been initialised with 300 ms, every comb unit
with 100 ms and every all-pass unit with 50 ms (and with no other capacity), and every delay
a `setDelayInmsec` call asked of a unit is at most the capacity of that unit. -/
theorem delay_requests_within_capacity {K : Type} [LinearOrderedField K] (m : Libm K)
    (c : Constants K) (sr : ℤ) (calls : List (HostCall K))
    (s : State K (DspLibrary.tracing K)) (hcalls : ∀ call ∈ calls, call.InRange)
    (hs : s = runHost m c (InitPlugin c sr) calls) :
    UnitWithinCapacity 300 sr s.preDelayModule ∧
    (∀ u ∈ s.combFiltersL ++ s.combFiltersR, UnitWithinCapacity 100 sr u) ∧
    (∀ u ∈ s.apFiltersL_input ++ s.apFiltersR_input ++ s.apFiltersL_output ++
        s.apFiltersR_output, UnitWithinCapacity 50 sr u) := by
  subst hs
  have e300 : (MAX_PREDELAY_VALUE_IN_MS : K) = 300 := by
    unfold MAX_PREDELAY_VALUE_IN_MS; norm_num
  have e100 : (MAX_COMB_FILTER_LENGTH_IN_MS : K) = 100 := by
    unfold MAX_COMB_FILTER_LENGTH_IN_MS; norm_num
  have e50 : (MAX_AP_FILTER_LENGTH_IN_MS : K) = 50 := by
    unfold MAX_AP_FILTER_LENGTH_IN_MS; norm_num
  obtain ⟨-, hpd, hcL, hcR, hLi, hRi, hLo, hRo⟩ :=
    runHost_delaysWithinCapacity m c sr calls hcalls _ (InitPlugin_delaysWithinCapacity c sr)
  rw [e300] at hpd
  rw [e100] at hcL hcR
  rw [e50] at hLi hRi hLo hRo
  refine ⟨hpd, ?_, ?_⟩
  · intro u hu
    rcases List.mem_append.mp hu with h | h
    · exact hcL u h
    · exact hcR u h
  · intro u hu
    simp only [List.mem_append] at hu
    rcases hu with ((h | h) | h) | h
    · exact hLi u h
    · exact hRi u h
    · exact hLo u h
    · exact hRo u h

/-- Witness of C21: the pre-delay set to `1`, then program `1` selected, on the freshly
initialised plug-in at 44100 Hz. -/
theorem delay_requests_within_capacity_witness :
    UnitWithinCapacity 300 44100
      (runHost ⟨Real.exp, Real.log, fun a b => a ^ b, Real.sin, Real.cos, Real.pi⟩
        ⟨100, 20000, 40, 7000, Real.log 100, Real.log 20000, Real.log 40, Real.log 7000⟩
        (InitPlugin
          ⟨100, 20000, 40, 7000, Real.log 100, Real.log 20000, Real.log 40, Real.log 7000⟩
          44100 : State ℝ (DspLibrary.tracing ℝ))
        [HostCall.setParameter Param_preDelay 1, HostCall.setProgram 1]).preDelayModule :=
  (delay_requests_within_capacity
    ⟨Real.exp, Real.log, fun a b => a ^ b, Real.sin, Real.cos, Real.pi⟩
    ⟨100, 20000, 40, 7000, Real.log 100, Real.log 20000, Real.log 40, Real.log 7000⟩
    44100 [HostCall.setParameter Param_preDelay 1, HostCall.setProgram 1] _
    (by
      intro call hcall
      simp only [List.mem_cons, List.mem_singleton, List.not_mem_nil, or_false] at hcall
      rcases hcall with rfl | rfl
      · exact ⟨by norm_num, by norm_num⟩
      · exact ⟨by norm_num, by norm_num [NUM_PRESETS]⟩)
    rfl).1

end MisEfx

/-! ## Modulation rate -/

namespace MisEfx

/-- C22: the modulation rate of the Schroeder plug-in stays in the supported band.  For
every normalized `v` in `[0,1]`, `setParameter(Param_ModRate, v)` stores and passes to the
tremolo, by `setModRate`, the rate `r = 0.1 + v*(10 - 0.1)`, with `0.1 <= r <= 10`;
`v = 0` gives `0.1`, `v = 1` gives `10`, and `r` does not decrease when `v` grows. -/
theorem setParameter_ModRate_in_band {K : Type} [LinearOrderedField K] {lib : DspLibrary K}
    (m : Libm K) (c : Constants K) (s : State K lib) (v : K) (h0 : 0 ≤ v) (h1 : v ≤ 1) :
    ((setParameter m c s Param_ModRate v).rev_modRate = 0.1 + v * (10 - 0.1) ∧
      (setParameter m c s Param_ModRate v).tremolo =
        lib.Tremolo.setModRate s.tremolo (0.1 + v * (10 - 0.1))) ∧
    ((0.1 : K) ≤ 0.1 + v * (10 - 0.1) ∧ 0.1 + v * (10 - 0.1) ≤ (10 : K)) ∧
    ((setParameter m c s Param_ModRate 0).tremolo = lib.Tremolo.setModRate s.tremolo 0.1 ∧
      (setParameter m c s Param_ModRate 1).tremolo = lib.Tremolo.setModRate s.tremolo 10) ∧
    ∀ w : K, v ≤ w →
      (setParameter m c s Param_ModRate v).rev_modRate ≤
        (setParameter m c s Param_ModRate w).rev_modRate := by
  have e : ∀ x : K, mapValueIntoRange x MIN_MOD_RATE_IN_HZ MAX_MOD_RATE_IN_HZ =
      0.1 + x * (10 - 0.1) := by
    intro x
    simp only [mapValueIntoRange, MIN_MOD_RATE_IN_HZ, MAX_MOD_RATE_IN_HZ]
    norm_num
  refine ⟨⟨?_, ?_⟩, ⟨?_, ?_⟩, ⟨?_, ?_⟩, ?_⟩
  · rw [setParameter_ModRate, ← e]
  · rw [setParameter_ModRate, ← e]
  · have : (0 : K) ≤ v * (10 - 0.1) := mul_nonneg h0 (by norm_num)
    linarith
  · have : v * (10 - 0.1) ≤ 1 * (10 - 0.1 : K) :=
      mul_le_mul_of_nonneg_right h1 (by norm_num)
    linarith
  · rw [setParameter_ModRate, e]
    norm_num
  · rw [setParameter_ModRate, e]
    norm_num
  · intro w hw
    rw [setParameter_ModRate, setParameter_ModRate]
    show mapValueIntoRange v _ _ ≤ mapValueIntoRange w _ _
    rw [e, e]
    have : v * (10 - 0.1) ≤ w * (10 - 0.1 : K) :=
      mul_le_mul_of_nonneg_right hw (by norm_num)
    linarith

/-- Witness of C22: the modulation rate set to `1/2` on the freshly initialised plug-in. -/
theorem setParameter_ModRate_in_band_witness :
    (setParameter ⟨Real.exp, Real.log, fun a b => a ^ b, Real.sin, Real.cos, Real.pi⟩
        ⟨100, 20000, 40, 7000, Real.log 100, Real.log 20000, Real.log 40, Real.log 7000⟩
        (InitPlugin
          ⟨100, 20000, 40, 7000, Real.log 100, Real.log 20000, Real.log 40, Real.log 7000⟩
          44100 : State ℝ (DspLibrary.passThrough ℝ))
        Param_ModRate (1 / 2)).rev_modRate = 0.1 + (1 / 2) * (10 - 0.1) :=
  (setParameter_ModRate_in_band _ _ _ (1 / 2) (by norm_num) (by norm_num)).1.1

end MisEfx

/-! ## Mix gains -/

namespace MisEfx

/-- C25: the width law of the Schroeder plug-in is a linear cross-fade.  For every wet
amount `w = rev_wet` and spread `sp = rev_spread`, `updateReverbParameters` yields
`wet1 = w*sp` and `wet2 = w*(1 - sp)`, hence `wet1 + wet2 = w` and
`wet1 + wet2 + dry = 1`; for `w`, `sp` in `[0,1]` the three gains lie in `[0,1]`. -/
theorem updateReverbParameters_linear_crossfade {K : Type} [LinearOrderedField K]
    {lib : DspLibrary K} (s : State K lib) :
    ((updateReverbParameters s).wet1 = s.rev_wet * s.rev_spread ∧
      (updateReverbParameters s).wet2 = s.rev_wet * (1 - s.rev_spread) ∧
      (updateReverbParameters s).dry = 1 - s.rev_wet) ∧
    ((updateReverbParameters s).wet1 + (updateReverbParameters s).wet2 = s.rev_wet ∧
      (updateReverbParameters s).wet1 + (updateReverbParameters s).wet2 +
        (updateReverbParameters s).dry = 1) ∧
    (0 ≤ s.rev_wet → s.rev_wet ≤ 1 → 0 ≤ s.rev_spread → s.rev_spread ≤ 1 →
      (0 ≤ (updateReverbParameters s).wet1 ∧ (updateReverbParameters s).wet1 ≤ 1) ∧
      (0 ≤ (updateReverbParameters s).wet2 ∧ (updateReverbParameters s).wet2 ≤ 1) ∧
      (0 ≤ (updateReverbParameters s).dry ∧ (updateReverbParameters s).dry ≤ 1)) := by
  have e1 : (updateReverbParameters s).wet1 = s.rev_wet * s.rev_spread := by
    simp only [updateReverbParameters, mapValueIntoRange]
    ring
  have e2 : (updateReverbParameters s).wet2 = s.rev_wet * (1 - s.rev_spread) := by
    simp only [updateReverbParameters, mapValueIntoRange]
    ring
  have e3 : (updateReverbParameters s).dry = 1 - s.rev_wet := by
    simp only [updateReverbParameters]
    norm_num
  refine ⟨⟨e1, e2, e3⟩, ⟨?_, ?_⟩, ?_⟩
  · rw [e1, e2]; ring
  · rw [e1, e2, e3]; ring
  · intro hw0 hw1 hs0 hs1
    rw [e1, e2, e3]
    have hs0' : 0 ≤ 1 - s.rev_spread := by linarith
    have hs1' : 1 - s.rev_spread ≤ 1 := by linarith
    refine ⟨⟨mul_nonneg hw0 hs0, ?_⟩, ⟨mul_nonneg hw0 hs0', ?_⟩, ⟨by linarith, by linarith⟩⟩
    · calc s.rev_wet * s.rev_spread ≤ 1 * 1 := mul_le_mul hw1 hs1 hs0 (by norm_num)
        _ = 1 := one_mul 1
    · calc s.rev_wet * (1 - s.rev_spread) ≤ 1 * 1 := mul_le_mul hw1 hs1' hs0' (by norm_num)
        _ = 1 := one_mul 1

/-- C26: dry pass-through in the Schroeder plug-in.  After `setParameter(Param_wet, 0)`,
whatever the spread and whatever the state of the wet chain, `processReplacing` writes
`outL[i] = inL[i]` and `outR[i] = inR[i]` for every `i < sampleFrames` (in exact
arithmetic). -/
theorem wet_zero_dry_passthrough {K : Type} [LinearOrderedField K] {lib : DspLibrary K}
    (m : Libm K) (c : Constants K) (s : State K lib) (inL inR outL outR : ℕ → K)
    (sampleFrames i : ℕ) (hi : i < sampleFrames) :
    (processReplacing (setParameter m c s Param_wet 0) inL inR outL outR sampleFrames).outL i =
        inL i ∧
      (processReplacing (setParameter m c s Param_wet 0) inL inR outL outR sampleFrames).outR
          i = inR i := by
  have h := processLoop_out inL inR
    ({ plugin := setParameter m c s Param_wet 0, outL := outL, outR := outR } : Run K lib)
    sampleFrames i hi
  have g1 : (setParameter m c s Param_wet 0).wet1 = 0 := by
    rw [setParameter_wet]; simp [updateReverbParameters]
  have g2 : (setParameter m c s Param_wet 0).wet2 = 0 := by
    rw [setParameter_wet]; simp [updateReverbParameters]
  have g3 : (setParameter m c s Param_wet 0).dry = 1 := by
    rw [setParameter_wet]; simp [updateReverbParameters]; norm_num
  simp only [stereoMix, g1, g2, g3, zero_mul, zero_add, one_mul, Prod.mk.injEq] at h
  exact h

/-- Witness of C26: the spread set to `1/4`, then the wet amount to `0`; a block of two
frames with the input `1, 2` on the left and `3, 4` on the right. -/
theorem wet_zero_dry_passthrough_witness :
    (processReplacing
        (setParameter ⟨Real.exp, Real.log, fun a b => a ^ b, Real.sin, Real.cos, Real.pi⟩
          ⟨100, 20000, 40, 7000, Real.log 100, Real.log 20000, Real.log 40, Real.log 7000⟩
          (setParameter ⟨Real.exp, Real.log, fun a b => a ^ b, Real.sin, Real.cos, Real.pi⟩
            ⟨100, 20000, 40, 7000, Real.log 100, Real.log 20000, Real.log 40, Real.log 7000⟩
            (InitPlugin
              ⟨100, 20000, 40, 7000, Real.log 100, Real.log 20000, Real.log 40, Real.log 7000⟩
              44100 : State ℝ (DspLibrary.passThrough ℝ))
            Param_spread (1 / 4))
          Param_wet 0)
        (fun i => (i : ℝ) + 1) (fun i => (i : ℝ) + 3) (fun _ => 0) (fun _ => 0) 2).outL 1 =
      (fun i : ℕ => (i : ℝ) + 1) 1 :=
  (wet_zero_dry_passthrough _ _ _ _ _ _ _ 2 1 (by decide)).1

end MisEfx

namespace FdnFeedverb

/-- C27: the wet/dry mix of the FDN plug-in is equal-power, in exact real arithmetic.
`updateMix` sets `_wet = sin(mix*pi/2)` and `_dry = cos(mix*pi/2)`, and so does
`setParameter(Param_mix, v)` with `mix = v`; hence `_wet^2 + _dry^2 = 1`; for `v` in
`[0,1]` both gains lie in `[0,1]`; `v = 0` gives `(_wet, _dry) = (0, 1)` and `v = 1` gives
`(1, 0)`. -/
theorem updateMix_equal_power {F : FDNClass ℝ} (m : Libm ℝ) (s : State ℝ F) (v : ℝ)
    (hm : m.IsReal) :
    ((updateMix m s)._wet = Real.sin (s.fdnver_mix * Real.pi / 2) ∧
      (updateMix m s)._dry = Real.cos (s.fdnver_mix * Real.pi / 2)) ∧
    ((setParameter m s EfxParameter.Param_mix v)._wet = Real.sin (v * Real.pi / 2) ∧
      (setParameter m s EfxParameter.Param_mix v)._dry = Real.cos (v * Real.pi / 2)) ∧
    (setParameter m s EfxParameter.Param_mix v)._wet ^ 2 +
        (setParameter m s EfxParameter.Param_mix v)._dry ^ 2 = 1 ∧
    (0 ≤ v → v ≤ 1 →
      (0 ≤ (setParameter m s EfxParameter.Param_mix v)._wet ∧
        (setParameter m s EfxParameter.Param_mix v)._wet ≤ 1) ∧
      (0 ≤ (setParameter m s EfxParameter.Param_mix v)._dry ∧
        (setParameter m s EfxParameter.Param_mix v)._dry ≤ 1)) ∧
    ((setParameter m s EfxParameter.Param_mix 0)._wet = 0 ∧
      (setParameter m s EfxParameter.Param_mix 0)._dry = 1) ∧
    ((setParameter m s EfxParameter.Param_mix 1)._wet = 1 ∧
      (setParameter m s EfxParameter.Param_mix 1)._dry = 0) := by
  obtain ⟨-, -, -, hsin, hcos, hpi⟩ := hm
  have ew : ∀ (t : State ℝ F), (updateMix m t)._wet = Real.sin (t.fdnver_mix * Real.pi / 2) := by
    intro t
    simp only [updateMix, hsin, hpi]
    congr 1
    norm_num
    ring
  have ed : ∀ (t : State ℝ F), (updateMix m t)._dry = Real.cos (t.fdnver_mix * Real.pi / 2) := by
    intro t
    simp only [updateMix, hcos, hpi]
    congr 1
    norm_num
    ring
  have sw : ∀ x : ℝ, (setParameter m s EfxParameter.Param_mix x)._wet =
      Real.sin (x * Real.pi / 2) := fun x => ew _
  have sd : ∀ x : ℝ, (setParameter m s EfxParameter.Param_mix x)._dry =
      Real.cos (x * Real.pi / 2) := fun x => ed _
  refine ⟨⟨ew s, ed s⟩, ⟨sw v, sd v⟩, ?_, ?_, ⟨?_, ?_⟩, ⟨?_, ?_⟩⟩
  · rw [sw, sd]; exact Real.sin_sq_add_cos_sq _
  · intro h0 h1
    rw [sw, sd]
    have hpos := Real.pi_pos
    have ha0 : 0 ≤ v * Real.pi / 2 := by positivity
    have ha1 : v * Real.pi / 2 ≤ Real.pi / 2 := by nlinarith
    refine ⟨⟨Real.sin_nonneg_of_nonneg_of_le_pi ha0 (by linarith), Real.sin_le_one _⟩,
      ⟨Real.cos_nonneg_of_neg_pi_div_two_le_of_le (by linarith) ha1, Real.cos_le_one _⟩⟩
  · rw [sw]; simp
  · rw [sd]; simp
  · rw [sw]; simp
  · rw [sd]; simp

/-- Witness of C27: the mix set to `1/2` on the freshly initialised plug-in. -/
theorem updateMix_equal_power_witness :
    (setParameter ⟨Real.exp, Real.log, fun a b => a ^ b, Real.sin, Real.cos, Real.pi⟩
        (InitPlugin ⟨Real.exp, Real.log, fun a b => a ^ b, Real.sin, Real.cos, Real.pi⟩
          ⟨100, 20000, 40, 7000, Real.log 100, Real.log 20000, Real.log 40, Real.log 7000⟩
          44100 0 : State ℝ (FDNClass.recording ℝ))
        EfxParameter.Param_mix (1 / 2))._wet ^ 2 +
      (setParameter ⟨Real.exp, Real.log, fun a b => a ^ b, Real.sin, Real.cos, Real.pi⟩
        (InitPlugin ⟨Real.exp, Real.log, fun a b => a ^ b, Real.sin, Real.cos, Real.pi⟩
          ⟨100, 20000, 40, 7000, Real.log 100, Real.log 20000, Real.log 40, Real.log 7000⟩
          44100 0 : State ℝ (FDNClass.recording ℝ))
        EfxParameter.Param_mix (1 / 2))._dry ^ 2 = 1 :=
  (updateMix_equal_power _ _ (1 / 2) ⟨rfl, rfl, rfl, rfl, rfl, rfl⟩).2.2.1

end FdnFeedverb

/-! ## The per-sample pipeline -/

namespace MisEfx

section Pipeline

variable {K : Type} {T : Type}

/-- The output of a serial chain: every unit is fed with the output of the unit before
it. -/
theorem seriesProcess_out (f : T → K → T × K) (us : List T) (x : K) :
    (seriesProcess f us x).2 = us.foldl (fun y u => (f u y).2) x := by
  induction us generalizing x with
  | nil => rfl
  | cons u us ih => simp [seriesProcess, ih]

/-- The units of a serial chain after one sample: unit `j` has processed the output of the
units before it. -/
theorem seriesProcess_units (f : T → K → T × K) (us : List T) (x : K) :
    (seriesProcess f us x).1 =
      List.zipWith (fun u y => (f u y).1) us (List.scanl (fun y u => (f u y).2) x us) := by
  induction us generalizing x with
  | nil => rfl
  | cons u us ih => simp [seriesProcess, ih, List.scanl]

variable [LinearOrderedField K]

/-- The units of a parallel bank after one sample: every unit has processed the same
input. -/
theorem parallelProcess_units (f : T → K → T × K) (us : List T) (x acc : K) :
    (parallelProcess f us x acc).1 = us.map (fun u => (f u x).1) := by
  induction us generalizing acc with
  | nil => rfl
  | cons u us ih => simp [parallelProcess, ih]

/-- The output of a parallel bank: the accumulator plus the sum of the outputs of the
units. -/
theorem parallelProcess_sum (f : T → K → T × K) (us : List T) (x acc : K) :
    (parallelProcess f us x acc).2 = acc + (us.map (fun u => (f u x).2)).sum := by
  induction us generalizing acc with
  | nil => simp [parallelProcess]
  | cons u us ih => simp [parallelProcess, ih, add_assoc]

end Pipeline

/-- C24: a parallel comb bank between serial all-pass chains.  In every frame (`wetChain` is
the loop body, run on the plug-in as the previous frames left it), with `xL` the output of
the last unit of the left input all-pass chain, each unit fed with the output of the unit
before it and the first one with the left pre-delay output: every unit of the left comb bank
processes the same input `xL`, and the left output all-pass chain processes, each unit
after the other, the sum of the outputs of the comb units.  The same holds on the right. -/
theorem comb_bank_parallel_between_chains {K : Type} [LinearOrderedField K]
    {lib : DspLibrary K} (s : State K lib) (inL inR : ℕ → K) (a b : K) (i : ℕ)
    (r : Run K lib) :
    (processLoop inL inR (i + 1) r).plugin =
        (wetChain (processLoop inL inR i r).plugin (inL i) (inR i)).1 ∧
    ((wetChain s a b).1.apFiltersL_input =
        List.zipWith (fun u y => (lib.AllPassFilter.processAudio u y).1) s.apFiltersL_input
          (List.scanl (fun y u => (lib.AllPassFilter.processAudio u y).2)
            (preDelayStage lib.CombFilter s.preDelayModule a b).2.1 s.apFiltersL_input) ∧
      (wetChain s a b).1.combFiltersL =
        s.combFiltersL.map (fun u => (lib.LPCombFilter.processAudio u
          (s.apFiltersL_input.foldl (fun y u => (lib.AllPassFilter.processAudio u y).2)
            (preDelayStage lib.CombFilter s.preDelayModule a b).2.1)).1) ∧
      (wetChain s a b).1.apFiltersL_output =
        (seriesProcess lib.AllPassFilter.processAudio s.apFiltersL_output
          (s.combFiltersL.map (fun u => (lib.LPCombFilter.processAudio u
            (s.apFiltersL_input.foldl (fun y u => (lib.AllPassFilter.processAudio u y).2)
              (preDelayStage lib.CombFilter s.preDelayModule a b).2.1)).2)).sum).1) ∧
    ((wetChain s a b).1.apFiltersR_input =
        List.zipWith (fun u y => (lib.AllPassFilter.processAudio u y).1) s.apFiltersR_input
          (List.scanl (fun y u => (lib.AllPassFilter.processAudio u y).2)
            (preDelayStage lib.CombFilter s.preDelayModule a b).2.2 s.apFiltersR_input) ∧
      (wetChain s a b).1.combFiltersR =
        s.combFiltersR.map (fun u => (lib.LPCombFilter.processAudio u
          (s.apFiltersR_input.foldl (fun y u => (lib.AllPassFilter.processAudio u y).2)
            (preDelayStage lib.CombFilter s.preDelayModule a b).2.2)).1) ∧
      (wetChain s a b).1.apFiltersR_output =
        (seriesProcess lib.AllPassFilter.processAudio s.apFiltersR_output
          (s.combFiltersR.map (fun u => (lib.LPCombFilter.processAudio u
            (s.apFiltersR_input.foldl (fun y u => (lib.AllPassFilter.processAudio u y).2)
              (preDelayStage lib.CombFilter s.preDelayModule a b).2.2)).2)).sum).1) := by
  refine ⟨rfl, ⟨?_, ?_, ?_⟩, ?_, ?_, ?_⟩
  · simp only [wetChain, seriesProcess_units]
  · simp only [wetChain, parallelProcess_units, seriesProcess_out]
  · simp only [wetChain, parallelProcess_sum, seriesProcess_out, zero_add]
  · simp only [wetChain, seriesProcess_units]
  · simp only [wetChain, parallelProcess_units, seriesProcess_out]
  · simp only [wetChain, parallelProcess_sum, seriesProcess_out, zero_add]

end MisEfx

namespace MisEfx

/-- The left wet signal of frames `0` and `1` for a silent input, on the plug-in as
`InitPlugin` leaves it with the library with memory. -/
theorem wetOut_silent_init :
    (List.range 2).map (fun i =>
        (wetOut
          (InitPlugin
            ⟨100, 20000, 40, 7000, Real.log 100, Real.log 20000, Real.log 40, Real.log 7000⟩
            44100 : State ℝ (DspLibrary.withMemory ℝ))
          (fun _ => 0) (fun _ => 0) i).1) = [0, 0] := by
  simp [List.range, List.range.loop, wetOut, processLoop, processFrame, wetChain,
    preDelayStage, seriesProcess, parallelProcess, InitPlugin, setAllPassFiltersDelay,
    setCombFiltersDelay, updateReverbParameters, DspLibrary.withMemory,
    DspLibrary.passThrough, NUM_COMB_FILTERS, NUM_ALLPASS_FILTERS_IN,
    NUM_ALLPASS_FILTERS_OUT]

/-- The left wet signal of frames `0` and `1` for a silent input, when unit `0` of the right
comb bank holds the sample `1` and everything else is as `InitPlugin` leaves it. -/
theorem wetOut_silent_right_comb :
    (List.range 2).map (fun i =>
        (wetOut
          ({ (InitPlugin
              ⟨100, 20000, 40, 7000, Real.log 100, Real.log 20000, Real.log 40, Real.log 7000⟩
              44100 : State ℝ (DspLibrary.withMemory ℝ)) with
            combFiltersR := ([1, 0, 0, 0, 0, 0, 0, 0] : List ℝ) } :
            State ℝ (DspLibrary.withMemory ℝ))
          (fun _ => 0) (fun _ => 0) i).1) = [0, 1 / 2] := by
  simp [List.range, List.range.loop, wetOut, processLoop, processFrame, wetChain,
    preDelayStage, seriesProcess, parallelProcess, InitPlugin, setAllPassFiltersDelay,
    setCombFiltersDelay, updateReverbParameters, DspLibrary.withMemory,
    DspLibrary.passThrough, NUM_COMB_FILTERS, NUM_ALLPASS_FILTERS_IN,
    NUM_ALLPASS_FILTERS_OUT]

/-- C23 (what the code does): the left wet signal depends on the right chain from the
second frame on.  In the first frame after a state `s`, the left wet signal and the left
units do not depend on the right comb and all-pass units.  But `outputLPF`, `outputHPF` and
`tremolo` are single objects that process the left sample and then the right sample of every
frame, so the left sample of the next frame meets the state the right sample left: with a
silent input and an output low-pass filter that has memory, the left wet signal of frames
`0, 1` is `0, 0` on the plug-in as initialised, and `0, 1/2` when only unit `0` of the right
comb bank holds another sample. -/
theorem left_wet_depends_on_right_chain {K : Type} [LinearOrderedField K]
    {lib : DspLibrary K} (s : State K lib) (cR : List lib.LPCombFilter.T)
    (aRi aRo : List lib.AllPassFilter.T) (a b : K) :
    ((wetChain
          ({ s with
              combFiltersR := cR
              apFiltersR_input := aRi
              apFiltersR_output := aRo } : State K lib) a b).2.1 = (wetChain s a b).2.1 ∧
      (wetChain
          ({ s with
              combFiltersR := cR
              apFiltersR_input := aRi
              apFiltersR_output := aRo } : State K lib) a b).1.combFiltersL =
        (wetChain s a b).1.combFiltersL ∧
      (wetChain
          ({ s with
              combFiltersR := cR
              apFiltersR_input := aRi
              apFiltersR_output := aRo } : State K lib) a b).1.apFiltersL_input =
        (wetChain s a b).1.apFiltersL_input ∧
      (wetChain
          ({ s with
              combFiltersR := cR
              apFiltersR_input := aRi
              apFiltersR_output := aRo } : State K lib) a b).1.apFiltersL_output =
        (wetChain s a b).1.apFiltersL_output) ∧
    ((List.range 2).map (fun i =>
        (wetOut
          (InitPlugin
            ⟨100, 20000, 40, 7000, Real.log 100, Real.log 20000, Real.log 40, Real.log 7000⟩
            44100 : State ℝ (DspLibrary.withMemory ℝ))
          (fun _ => 0) (fun _ => 0) i).1) = [0, 0] ∧
      (List.range 2).map (fun i =>
        (wetOut
          ({ (InitPlugin
              ⟨100, 20000, 40, 7000, Real.log 100, Real.log 20000, Real.log 40, Real.log 7000⟩
              44100 : State ℝ (DspLibrary.withMemory ℝ)) with
            combFiltersR := ([1, 0, 0, 0, 0, 0, 0, 0] : List ℝ) } :
            State ℝ (DspLibrary.withMemory ℝ))
          (fun _ => 0) (fun _ => 0) i).1) = [0, 1 / 2]) :=
  ⟨⟨rfl, rfl, rfl, rfl⟩, wetOut_silent_init, wetOut_silent_right_comb⟩

end MisEfx

/-! ## Programs -/

namespace MisEfx

section Program

variable {K : Type} [LinearOrderedField K] {lib : DspLibrary K}

/-- The ten stored parameters, the mix gains and the program index after `setProgram`, in
terms of the selected preset `cp`. -/
theorem setProgram_members (m : Libm K) (c : Constants K) (s : State K lib) (program : ℤ) :
    ((setProgram m c s program).rev_wet = (presetAt s.rev_presets program).rev_wet ∧
      (setProgram m c s program).rev_decay =
        (presetAt s.rev_presets program).rev_decay / MAX_REVERB_DECAY_IN_SECONDS *
          MAX_REVERB_DECAY_IN_SECONDS ∧
      (setProgram m c s program).rev_smearing =
        (presetAt s.rev_presets program).rev_smearing / MAX_SMEARING_VALUE *
          MAX_SMEARING_VALUE ∧
      (setProgram m c s program).rev_damping = (presetAt s.rev_presets program).rev_damping ∧
      (setProgram m c s program).rev_lpfFreq =
        m.exp (mapValueIntoRange
          (mapValueOutsideRange (m.log (presetAt s.rev_presets program).rev_lpfFreq)
            c.MIN_LPF_FREQUENCY_LOG c.MAX_LPF_FREQUENCY_LOG)
          c.MIN_LPF_FREQUENCY_LOG c.MAX_LPF_FREQUENCY_LOG) ∧
      (setProgram m c s program).rev_hpfFreq =
        m.exp (mapValueIntoRange
          (mapValueOutsideRange (m.log (presetAt s.rev_presets program).rev_hpfFreq)
            c.MIN_HPF_FREQUENCY_LOG c.MAX_HPF_FREQUENCY_LOG)
          c.MIN_HPF_FREQUENCY_LOG c.MAX_HPF_FREQUENCY_LOG) ∧
      (setProgram m c s program).rev_preDelay =
        (presetAt s.rev_presets program).rev_preDelay / MAX_PREDELAY_VALUE_IN_MS *
          MAX_PREDELAY_VALUE_IN_MS ∧
      (setProgram m c s program).rev_modRate =
        mapValueIntoRange
          (mapValueOutsideRange (presetAt s.rev_presets program).rev_modRate
            MIN_MOD_RATE_IN_HZ MAX_MOD_RATE_IN_HZ)
          MIN_MOD_RATE_IN_HZ MAX_MOD_RATE_IN_HZ ∧
      (setProgram m c s program).rev_modDepth = (presetAt s.rev_presets program).rev_modDepth ∧
      (setProgram m c s program).rev_spread = (presetAt s.rev_presets program).rev_spread) ∧
    ((setProgram m c s program).wet1 =
        (presetAt s.rev_presets program).rev_wet *
          (mapValueIntoRange (presetAt s.rev_presets program).rev_spread (-1.0) 1.0 / 2.0 +
            0.5) ∧
      (setProgram m c s program).wet2 =
        (presetAt s.rev_presets program).rev_wet *
          (1 - mapValueIntoRange (presetAt s.rev_presets program).rev_spread (-1.0) 1.0) /
            2.0 ∧
      (setProgram m c s program).dry = 1.0 - (presetAt s.rev_presets program).rev_wet) ∧
    ((setProgram m c s program).curProgram = program ∧
      (setProgram m c s program).rev_presets = s.rev_presets ∧
      (setProgram m c s program).combFilterDlymsLeft = s.combFilterDlymsLeft ∧
      (setProgram m c s program).combFilterDlymsRight = s.combFilterDlymsRight ∧
      (setProgram m c s program).allPassDlymsLeft_input = s.allPassDlymsLeft_input ∧
      (setProgram m c s program).allPassDlymsRight_input = s.allPassDlymsRight_input ∧
      (setProgram m c s program).allPassDlymsLeft_output = s.allPassDlymsLeft_output ∧
      (setProgram m c s program).allPassDlymsRight_output = s.allPassDlymsRight_output ∧
      (setProgram m c s program).modWaveform = s.modWaveform) := by
  simp only [setProgram, setParameter_wet, setParameter_decay, setParameter_damping,
    setParameter_smearing, setParameter_spread, setParameter_ModDepth, setParameter_preDelay,
    setParameter_lpfFreq, setParameter_hpfFreq, setParameter_ModRate, updateReverbParameters,
    and_self]

end Program

section ProgramReal

variable {lib : DspLibrary ℝ}

/-- The two tone-filter frequencies of each of the five presets are positive. -/
theorem preset_freq_pos (m : Libm ℝ) (c : Constants ℝ) (program : ℤ) (hc : c.LogsOfHz m)
    (hp : 0 ≤ program ∧ program < (NUM_PRESETS : ℤ)) :
    0 < (presetAt (presetTable c) program).rev_lpfFreq ∧
      0 < (presetAt (presetTable c) program).rev_hpfFreq := by
  obtain ⟨-, -, -, -, hlpos, hllt, hhpos, -⟩ := hc
  have hmax : 0 < c.MAX_LPF_FREQUENCY := lt_trans hlpos hllt
  obtain ⟨h0, h5⟩ := hp
  simp only [NUM_PRESETS, Nat.cast_ofNat] at h5
  interval_cases program <;>
    simp [presetAt, presetTable, hmax, hhpos] <;> norm_num

/-- After `setProgram(p)` on a plug-in that holds the preset table, each of the ten stored
parameters is the value preset `p` holds for it. -/
theorem setProgram_stored_eq_preset (m : Libm ℝ) (c : Constants ℝ) (s : State ℝ lib)
    (program : ℤ) (hm : m.IsReal) (hc : c.LogsOfHz m) (hs : s.rev_presets = presetTable c)
    (hp : 0 ≤ program ∧ program < (NUM_PRESETS : ℤ)) :
    (setProgram m c s program).rev_wet = (presetAt (presetTable c) program).rev_wet ∧
      (setProgram m c s program).rev_decay = (presetAt (presetTable c) program).rev_decay ∧
      (setProgram m c s program).rev_smearing =
        (presetAt (presetTable c) program).rev_smearing ∧
      (setProgram m c s program).rev_damping =
        (presetAt (presetTable c) program).rev_damping ∧
      (setProgram m c s program).rev_lpfFreq =
        (presetAt (presetTable c) program).rev_lpfFreq ∧
      (setProgram m c s program).rev_hpfFreq =
        (presetAt (presetTable c) program).rev_hpfFreq ∧
      (setProgram m c s program).rev_preDelay =
        (presetAt (presetTable c) program).rev_preDelay ∧
      (setProgram m c s program).rev_modRate =
        (presetAt (presetTable c) program).rev_modRate ∧
      (setProgram m c s program).rev_modDepth =
        (presetAt (presetTable c) program).rev_modDepth ∧
      (setProgram m c s program).rev_spread =
        (presetAt (presetTable c) program).rev_spread := by
  obtain ⟨hlp, hhp⟩ := preset_freq_pos m c program hc hp
  obtain ⟨hexp, hlog, -⟩ := hm
  obtain ⟨hl0, hl1, hh0, hh1, hlpos, hllt, hhpos, hhlt⟩ := hc
  rw [hlog] at hl0 hl1 hh0 hh1
  have hlne : c.MIN_LPF_FREQUENCY_LOG ≠ c.MAX_LPF_FREQUENCY_LOG := by
    rw [hl0, hl1]; exact ne_of_lt (Real.log_lt_log hlpos hllt)
  have hhne : c.MIN_HPF_FREQUENCY_LOG ≠ c.MAX_HPF_FREQUENCY_LOG := by
    rw [hh0, hh1]; exact ne_of_lt (Real.log_lt_log hhpos hhlt)
  have hne : (MIN_MOD_RATE_IN_HZ : ℝ) ≠ MAX_MOD_RATE_IN_HZ := by
    unfold MIN_MOD_RATE_IN_HZ MAX_MOD_RATE_IN_HZ; norm_num
  obtain ⟨⟨a1, a2, a3, a4, a5, a6, a7, a8, a9, a10⟩, -, -⟩ := setProgram_members m c s program
  rw [hs] at a1 a2 a3 a4 a5 a6 a7 a8 a9 a10
  refine ⟨a1, ?_, ?_, a4, ?_, ?_, ?_, ?_, a9, a10⟩
  · rw [a2]; unfold MAX_REVERB_DECAY_IN_SECONDS; norm_num
  · rw [a3]; unfold MAX_SMEARING_VALUE; norm_num
  · rw [a5, mapValueIntoRange_mapValueOutsideRange _ _ _ hlne, hexp, hlog, Real.exp_log hlp]
  · rw [a6, mapValueIntoRange_mapValueOutsideRange _ _ _ hhne, hexp, hlog, Real.exp_log hhp]
  · rw [a7]; unfold MAX_PREDELAY_VALUE_IN_MS; norm_num
  · rw [a8, mapValueIntoRange_mapValueOutsideRange _ _ _ hne]

end ProgramReal

/-- The left comb bank after `setProgram`: every unit has received
`setFeedbackFromDecay` with the preset's decay time and then `setCutoffFrequency` with the
preset's damping frequency. -/
theorem setProgram_combFiltersL {K : Type} [LinearOrderedField K] {lib : DspLibrary K}
    (m : Libm K) (c : Constants K) (s : State K lib) (program : ℤ) :
    (setProgram m c s program).combFiltersL =
      s.combFiltersL.map (fun f =>
        lib.LPCombFilter.setCutoffFrequency
          (lib.LPCombFilter.setFeedbackFromDecay f
            ((presetAt s.rev_presets program).rev_decay / MAX_REVERB_DECAY_IN_SECONDS *
              MAX_REVERB_DECAY_IN_SECONDS))
          (mapValueIntoRange (1.0 - (presetAt s.rev_presets program).rev_damping)
            c.MIN_LPF_FREQUENCY c.MAX_LPF_FREQUENCY)) := by
  simp only [setProgram, setParameter_wet, setParameter_decay, setParameter_damping,
    setParameter_smearing, setParameter_spread, setParameter_ModDepth, setParameter_preDelay,
    setParameter_lpfFreq, setParameter_hpfFreq, setParameter_ModRate, updateReverbParameters,
    List.map_map]
  rfl

/-- With the comb units of the specification, the gains that `InitPlugin` leaves in the left
bank are not the decay law at the delays of the units, whatever delay the units had when
they were created. -/
theorem InitPlugin_specComb_not_law (base : DspLibrary ℝ) (m : Libm ℝ) (delay0 : ℝ)
    (c : Constants ℝ) (sr : ℤ) (hm : m.IsReal) (hsr : 0 < sr) :
    ¬ ∀ f ∈ ((InitPlugin c sr : State ℝ (base.withSpecLPComb m delay0)).combFiltersL :
        List (SpecLPCombFilter ℝ)),
      f.feedback =
        feedbackFromDecay m f.sign (f.delayInmsec * f.sampleRate / 1000) 1.0 f.sampleRate := by
  obtain ⟨-, -, hpow, -⟩ := hm
  have hsr' : (0 : ℝ) < sr := by exact_mod_cast hsr
  intro h
  rw [InitPlugin_specComb_left] at h
  have h0 := h _ (List.mem_cons_self _ _)
  have h1 := h _ (List.mem_cons_of_mem _ (List.mem_cons_self _ _))
  simp only [feedbackFromDecay, hpow, Bool.false_eq_true, if_false, if_true, one_mul] at h0 h1
  have hp : (0 : ℝ) < (10 : ℝ) ^ (-3 * (delay0 * sr / 1000) / (sr : ℝ)) :=
    Real.rpow_pos_of_pos (by norm_num) _
  rw [abs_of_pos hp] at h1
  have e0 := rpow_ten_inj h0
  have e1 := rpow_ten_inj (by linarith :
    (10 : ℝ) ^ (-3 * (delay0 * sr / 1000) / (sr : ℝ)) =
      (10 : ℝ) ^ (-3 * (26.94 * sr / 1000) / (1.0 * (sr : ℝ))))
  have hne : (sr : ℝ) ≠ 0 := ne_of_gt hsr'
  field_simp at e0 e1
  norm_num at e0 e1
  have hz : sr ≠ 0 := ne_of_gt hsr
  rcases e0 with e0 | e0
  · rcases e1 with e1 | e1
    · rw [e0] at e1
      norm_num at e1
    · exact hz e1
  · exact hz e0

/-- With the comb units of the specification, after `setProgram(0)` on the plug-in as
`InitPlugin` leaves it, the gain of every unit of the left bank is the decay law at the
unit's own delay, for the decay time `1.0` s of preset `0`. -/
theorem setProgram_specComb_law (base : DspLibrary ℝ) (m : Libm ℝ) (delay0 : ℝ)
    (c : Constants ℝ) (sr : ℤ) :
    ∀ f ∈ ((setProgram m c (InitPlugin c sr : State ℝ (base.withSpecLPComb m delay0))
        0).combFiltersL : List (SpecLPCombFilter ℝ)),
      f.feedback =
        feedbackFromDecay m f.sign (f.delayInmsec * f.sampleRate / 1000) 1.0 f.sampleRate := by
  intro f hf
  rw [setProgram_combFiltersL] at hf
  obtain ⟨g, -, rfl⟩ := List.mem_map.mp hf
  have e : (presetAt (InitPlugin c sr : State ℝ (base.withSpecLPComb m delay0)).rev_presets
      0).rev_decay / MAX_REVERB_DECAY_IN_SECONDS * MAX_REVERB_DECAY_IN_SECONDS = (1.0 : ℝ) := by
    simp [InitPlugin, setAllPassFiltersDelay, setCombFiltersDelay, updateReverbParameters,
      presetTable, presetAt, MAX_REVERB_DECAY_IN_SECONDS]
    norm_num
  rw [e]
  rfl

/-- C28 (what the code does): `setProgram` of the Schroeder plug-in restores the ten
parameters of the preset, but the state after `InitPlugin` is not the state after
`setProgram(0)`.  In exact (real) arithmetic, with the `_LOG` constants the logarithms of the
frequency bounds: for every program index `p` in `0..NUM_PRESETS-1`, after `setProgram(p)`
each of the ten stored physical parameters equals the value preset `p` holds for it; and the
plug-in right after `InitPlugin` has the same stored parameters, mix gains, program index,
preset table, delay tables and waveform as after a following `setProgram(0)`.  The comb
units differ: `setProgram(0)` calls `setFeedbackFromDecay` on every unit with its delay
assigned, `InitPlugin` called it before the delays were assigned.  With the comb units of the
specification, at a sample rate `sr > 0`, every gain of the left bank is the decay law at
the unit's own delay after `setProgram(0)` and not after `InitPlugin`, so the left banks,
and with them the states, are different. -/
theorem setProgram_restores_parameters_not_units {lib : DspLibrary ℝ} (base : DspLibrary ℝ)
    (m : Libm ℝ) (c : Constants ℝ) (delay0 : ℝ) (s : State ℝ lib) (sr program : ℤ)
    (hm : m.IsReal) (hc : c.LogsOfHz m) (hs : s.rev_presets = presetTable c)
    (hp : 0 ≤ program ∧ program < (NUM_PRESETS : ℤ)) (hsr : 0 < sr) :
    ((setProgram m c s program).rev_wet = (presetAt (presetTable c) program).rev_wet ∧
      (setProgram m c s program).rev_decay = (presetAt (presetTable c) program).rev_decay ∧
      (setProgram m c s program).rev_smearing =
        (presetAt (presetTable c) program).rev_smearing ∧
      (setProgram m c s program).rev_damping =
        (presetAt (presetTable c) program).rev_damping ∧
      (setProgram m c s program).rev_lpfFreq =
        (presetAt (presetTable c) program).rev_lpfFreq ∧
      (setProgram m c s program).rev_hpfFreq =
        (presetAt (presetTable c) program).rev_hpfFreq ∧
      (setProgram m c s program).rev_preDelay =
        (presetAt (presetTable c) program).rev_preDelay ∧
      (setProgram m c s program).rev_modRate =
        (presetAt (presetTable c) program).rev_modRate ∧
      (setProgram m c s program).rev_modDepth =
        (presetAt (presetTable c) program).rev_modDepth ∧
      (setProgram m c s program).rev_spread =
        (presetAt (presetTable c) program).rev_spread) ∧
    (storedParameters (setProgram m c (InitPlugin c sr : State ℝ lib) 0) =
        storedParameters (InitPlugin c sr : State ℝ lib) ∧
      (setProgram m c (InitPlugin c sr : State ℝ lib) 0).curProgram =
        (InitPlugin c sr : State ℝ lib).curProgram ∧
      (setProgram m c (InitPlugin c sr : State ℝ lib) 0).rev_presets =
        (InitPlugin c sr : State ℝ lib).rev_presets ∧
      (setProgram m c (InitPlugin c sr : State ℝ lib) 0).combFilterDlymsLeft =
        (InitPlugin c sr : State ℝ lib).combFilterDlymsLeft ∧
      (setProgram m c (InitPlugin c sr : State ℝ lib) 0).combFilterDlymsRight =
        (InitPlugin c sr : State ℝ lib).combFilterDlymsRight ∧
      (setProgram m c (InitPlugin c sr : State ℝ lib) 0).allPassDlymsLeft_input =
        (InitPlugin c sr : State ℝ lib).allPassDlymsLeft_input ∧
      (setProgram m c (InitPlugin c sr : State ℝ lib) 0).allPassDlymsRight_input =
        (InitPlugin c sr : State ℝ lib).allPassDlymsRight_input ∧
      (setProgram m c (InitPlugin c sr : State ℝ lib) 0).allPassDlymsLeft_output =
        (InitPlugin c sr : State ℝ lib).allPassDlymsLeft_output ∧
      (setProgram m c (InitPlugin c sr : State ℝ lib) 0).allPassDlymsRight_output =
        (InitPlugin c sr : State ℝ lib).allPassDlymsRight_output ∧
      (setProgram m c (InitPlugin c sr : State ℝ lib) 0).modWaveform =
        (InitPlugin c sr : State ℝ lib).modWaveform) ∧
    ((∀ f ∈ ((setProgram m c (InitPlugin c sr : State ℝ (base.withSpecLPComb m delay0))
          0).combFiltersL : List (SpecLPCombFilter ℝ)),
        f.feedback =
          feedbackFromDecay m f.sign (f.delayInmsec * f.sampleRate / 1000) 1.0
            f.sampleRate) ∧
      (¬ ∀ f ∈ ((InitPlugin c sr : State ℝ (base.withSpecLPComb m delay0)).combFiltersL :
          List (SpecLPCombFilter ℝ)),
        f.feedback =
          feedbackFromDecay m f.sign (f.delayInmsec * f.sampleRate / 1000) 1.0
            f.sampleRate) ∧
      (setProgram m c (InitPlugin c sr : State ℝ (base.withSpecLPComb m delay0))
          0).combFiltersL ≠
        (InitPlugin c sr : State ℝ (base.withSpecLPComb m delay0)).combFiltersL ∧
      setProgram m c (InitPlugin c sr : State ℝ (base.withSpecLPComb m delay0)) 0 ≠
        (InitPlugin c sr : State ℝ (base.withSpecLPComb m delay0))) := by
  have hlaw := setProgram_specComb_law base m delay0 c sr
  have hnot := InitPlugin_specComb_not_law base m delay0 c sr hm hsr
  have hne : (setProgram m c (InitPlugin c sr : State ℝ (base.withSpecLPComb m delay0))
      0).combFiltersL ≠
      (InitPlugin c sr : State ℝ (base.withSpecLPComb m delay0)).combFiltersL := by
    intro e
    apply hnot
    rw [← e]
    exact hlaw
  refine ⟨setProgram_stored_eq_preset m c s program hm hc hs hp, ?_,
    hlaw, hnot, hne, fun e => hne (congrArg State.combFiltersL e)⟩
  obtain ⟨a1, a2, a3, a4, a5, a6, a7, a8, a9, a10⟩ :=
    setProgram_stored_eq_preset m c (InitPlugin c sr : State ℝ lib) 0 hm hc rfl
      ⟨le_refl 0, by norm_num [NUM_PRESETS]⟩
  obtain ⟨-, ⟨b1, b2, b3⟩, d1, d2, d3, d4, d5, d6, d7, d8, d9⟩ :=
    setProgram_members m c (InitPlugin c sr : State ℝ lib) 0
  refine ⟨?_, d1, d2, d3, d4, d5, d6, d7, d8, d9⟩
  simp only [storedParameters, a1, a2, a3, a4, a5, a6, a7, a8, a9, a10, b1, b2, b3]
  rfl

/-- Witness of C28: the library that hands the samples through with the comb units of the
specification, created with delay `0`, at 44100 Hz, with the frequency ranges
`[100, 20000]` Hz and `[40, 7000]` Hz: the state after `setProgram(0)` is not the state
after `InitPlugin`. -/
theorem setProgram_restores_parameters_not_units_witness :
    setProgram ⟨Real.exp, Real.log, fun a b => a ^ b, Real.sin, Real.cos, Real.pi⟩
        ⟨100, 20000, 40, 7000, Real.log 100, Real.log 20000, Real.log 40, Real.log 7000⟩
        (InitPlugin
          ⟨100, 20000, 40, 7000, Real.log 100, Real.log 20000, Real.log 40, Real.log 7000⟩
          44100 : State ℝ ((DspLibrary.passThrough ℝ).withSpecLPComb
            ⟨Real.exp, Real.log, fun a b => a ^ b, Real.sin, Real.cos, Real.pi⟩ 0))
        0 ≠
      (InitPlugin
        ⟨100, 20000, 40, 7000, Real.log 100, Real.log 20000, Real.log 40, Real.log 7000⟩
        44100 : State ℝ ((DspLibrary.passThrough ℝ).withSpecLPComb
          ⟨Real.exp, Real.log, fun a b => a ^ b, Real.sin, Real.cos, Real.pi⟩ 0)) :=
  (setProgram_restores_parameters_not_units (DspLibrary.passThrough ℝ)
    ⟨Real.exp, Real.log, fun a b => a ^ b, Real.sin, Real.cos, Real.pi⟩
    ⟨100, 20000, 40, 7000, Real.log 100, Real.log 20000, Real.log 40, Real.log 7000⟩
    0
    (InitPlugin
      ⟨100, 20000, 40, 7000, Real.log 100, Real.log 20000, Real.log 40, Real.log 7000⟩
      44100 : State ℝ (DspLibrary.passThrough ℝ))
    44100 1 ⟨rfl, rfl, rfl, rfl, rfl, rfl⟩
    ⟨rfl, rfl, rfl, rfl, by norm_num, by norm_num, by norm_num, by norm_num⟩ rfl
    ⟨by norm_num, by norm_num [NUM_PRESETS]⟩ (by norm_num)).2.2.2.2.2

/-! ## Frame of `setParameter` -/

/-- C29: frame of `setParameter` in the Schroeder plug-in.  For every index and value,
`setParameter(index, v)` leaves every stored physical parameter other than the one the index
addresses as it was; `wet1`, `wet2`, `dry` are left as they were unless the index is
`Param_wet` or `Param_spread`; and for an index outside `0..Param_Count-1`, `setParameter`
changes nothing at all and `getParameter` returns `0`. -/
theorem setParameter_frame {K : Type} [LinearOrderedField K] {lib : DspLibrary K}
    (m : Libm K) (c : Constants K) (s : State K lib) (index : ℤ) (v : K) :
    ((index ≠ Param_wet → (setParameter m c s index v).rev_wet = s.rev_wet) ∧
      (index ≠ Param_decay → (setParameter m c s index v).rev_decay = s.rev_decay) ∧
      (index ≠ Param_smearing →
        (setParameter m c s index v).rev_smearing = s.rev_smearing) ∧
      (index ≠ Param_damping → (setParameter m c s index v).rev_damping = s.rev_damping) ∧
      (index ≠ Param_lpfFreq → (setParameter m c s index v).rev_lpfFreq = s.rev_lpfFreq) ∧
      (index ≠ Param_hpfFreq → (setParameter m c s index v).rev_hpfFreq = s.rev_hpfFreq) ∧
      (index ≠ Param_preDelay →
        (setParameter m c s index v).rev_preDelay = s.rev_preDelay) ∧
      (index ≠ Param_ModRate → (setParameter m c s index v).rev_modRate = s.rev_modRate) ∧
      (index ≠ Param_ModDepth →
        (setParameter m c s index v).rev_modDepth = s.rev_modDepth) ∧
      (index ≠ Param_spread → (setParameter m c s index v).rev_spread = s.rev_spread)) ∧
    (index ≠ Param_wet → index ≠ Param_spread →
      (setParameter m c s index v).wet1 = s.wet1 ∧
        (setParameter m c s index v).wet2 = s.wet2 ∧
        (setParameter m c s index v).dry = s.dry) ∧
    (index < 0 ∨ Param_Count ≤ index →
      setParameter m c s index v = s ∧ getParameter m c s index = 0) := by
  have hout : index < 0 ∨ Param_Count ≤ index →
      index ∉ [Param_wet, Param_decay, Param_smearing, Param_damping, Param_lpfFreq,
        Param_hpfFreq, Param_preDelay, Param_ModRate, Param_ModDepth, Param_spread] := by
    intro h
    simp only [List.mem_cons, List.mem_singleton, List.not_mem_nil, or_false, Param_wet,
      Param_decay, Param_smearing, Param_damping, Param_lpfFreq, Param_hpfFreq,
      Param_preDelay, Param_ModRate, Param_ModDepth, Param_spread]
    simp only [Param_Count] at h
    omega
  refine ⟨?_, ?_, fun h => setParameter_getParameter_default m c s index v (hout h)⟩
  · rcases index_cases index with h | h | h | h | h | h | h | h | h | h | h
    · rw [h, setParameter_wet]
      exact ⟨fun e => absurd rfl e, fun _ => rfl, fun _ => rfl, fun _ => rfl, fun _ => rfl,
        fun _ => rfl, fun _ => rfl, fun _ => rfl, fun _ => rfl, fun _ => rfl⟩
    · rw [h, setParameter_decay]
      exact ⟨fun _ => rfl, fun e => absurd rfl e, fun _ => rfl, fun _ => rfl, fun _ => rfl,
        fun _ => rfl, fun _ => rfl, fun _ => rfl, fun _ => rfl, fun _ => rfl⟩
    · rw [h, setParameter_smearing]
      exact ⟨fun _ => rfl, fun _ => rfl, fun e => absurd rfl e, fun _ => rfl, fun _ => rfl,
        fun _ => rfl, fun _ => rfl, fun _ => rfl, fun _ => rfl, fun _ => rfl⟩
    · rw [h, setParameter_damping]
      exact ⟨fun _ => rfl, fun _ => rfl, fun _ => rfl, fun e => absurd rfl e, fun _ => rfl,
        fun _ => rfl, fun _ => rfl, fun _ => rfl, fun _ => rfl, fun _ => rfl⟩
    · rw [h, setParameter_lpfFreq]
      exact ⟨fun _ => rfl, fun _ => rfl, fun _ => rfl, fun _ => rfl, fun e => absurd rfl e,
        fun _ => rfl, fun _ => rfl, fun _ => rfl, fun _ => rfl, fun _ => rfl⟩
    · rw [h, setParameter_hpfFreq]
      exact ⟨fun _ => rfl, fun _ => rfl, fun _ => rfl, fun _ => rfl, fun _ => rfl,
        fun e => absurd rfl e, fun _ => rfl, fun _ => rfl, fun _ => rfl, fun _ => rfl⟩
    · rw [h, setParameter_preDelay]
      exact ⟨fun _ => rfl, fun _ => rfl, fun _ => rfl, fun _ => rfl, fun _ => rfl,
        fun _ => rfl, fun e => absurd rfl e, fun _ => rfl, fun _ => rfl, fun _ => rfl⟩
    · rw [h, setParameter_ModRate]
      exact ⟨fun _ => rfl, fun _ => rfl, fun _ => rfl, fun _ => rfl, fun _ => rfl,
        fun _ => rfl, fun _ => rfl, fun e => absurd rfl e, fun _ => rfl, fun _ => rfl⟩
    · rw [h, setParameter_ModDepth]
      exact ⟨fun _ => rfl, fun _ => rfl, fun _ => rfl, fun _ => rfl, fun _ => rfl,
        fun _ => rfl, fun _ => rfl, fun _ => rfl, fun e => absurd rfl e, fun _ => rfl⟩
    · rw [h, setParameter_spread]
      exact ⟨fun _ => rfl, fun _ => rfl, fun _ => rfl, fun _ => rfl, fun _ => rfl,
        fun _ => rfl, fun _ => rfl, fun _ => rfl, fun _ => rfl, fun e => absurd rfl e⟩
    · rw [(setParameter_getParameter_default m c s index v h).1]
      exact ⟨fun _ => rfl, fun _ => rfl, fun _ => rfl, fun _ => rfl, fun _ => rfl,
        fun _ => rfl, fun _ => rfl, fun _ => rfl, fun _ => rfl, fun _ => rfl⟩
  · intro hw hs
    rcases index_cases index with h | h | h | h | h | h | h | h | h | h | h
    · exact absurd h hw
    · rw [h, setParameter_decay]; exact ⟨rfl, rfl, rfl⟩
    · rw [h, setParameter_smearing]; exact ⟨rfl, rfl, rfl⟩
    · rw [h, setParameter_damping]; exact ⟨rfl, rfl, rfl⟩
    · rw [h, setParameter_lpfFreq]; exact ⟨rfl, rfl, rfl⟩
    · rw [h, setParameter_hpfFreq]; exact ⟨rfl, rfl, rfl⟩
    · rw [h, setParameter_preDelay]; exact ⟨rfl, rfl, rfl⟩
    · rw [h, setParameter_ModRate]; exact ⟨rfl, rfl, rfl⟩
    · rw [h, setParameter_ModDepth]; exact ⟨rfl, rfl, rfl⟩
    · exact absurd h hs
    · rw [(setParameter_getParameter_default m c s index v h).1]; exact ⟨rfl, rfl, rfl⟩

end MisEfx

/-! ## Parameter labels -/

/-- No prefix of `"dB"` is the string `"s"`. -/
theorem vst_strncpy_dB_ne_s (dst : String) (maxLen : ℕ) :
    vst_strncpy dst "dB" maxLen ≠ "s" := by
  rcases maxLen with _ | _ | n <;> simp [vst_strncpy]

/-- With room for two characters or more, `"ms"` is copied whole. -/
theorem vst_strncpy_ms (dst : String) (maxLen : ℕ) (h : 2 ≤ maxLen) :
    vst_strncpy dst "ms" maxLen = "ms" := by
  obtain ⟨n, rfl⟩ := Nat.exists_eq_add_of_le h
  rw [Nat.add_comm]
  simp [vst_strncpy]

namespace MisEfx

/-- C30 (what the code does): `getParameterLabel(Param_decay, label)` does not leave `"s"` in
the label.  In the Schroeder plug-in and in `plugins/Feedverb`, `case Param_decay` has no
`break`: the label is set to `"s"` and then overwritten by the statement of `case
Param_smearing`, so it ends as what `getParameterLabel(Param_smearing, label)` leaves,
`"dB"` (cut to `kVstMaxParamStrLen` characters), which is never `"s"`.  For
`Param_preDelay` the label is `"ms"`, when `kVstMaxParamStrLen` is at least `2`. -/
theorem getParameterLabel_decay_falls_through (kVstMaxParamStrLen : ℕ) (label : String) :
    (getParameterLabel kVstMaxParamStrLen Param_decay label =
        getParameterLabel kVstMaxParamStrLen Param_smearing label ∧
      getParameterLabel kVstMaxParamStrLen Param_decay label ≠ "s" ∧
      getParameterLabel 8 Param_decay label = "dB" ∧
      (2 ≤ kVstMaxParamStrLen →
        getParameterLabel kVstMaxParamStrLen Param_preDelay label = "ms")) ∧
    (Feedverb.getParameterLabel kVstMaxParamStrLen Feedverb.Param_decay label =
        Feedverb.getParameterLabel kVstMaxParamStrLen Feedverb.Param_smearing label ∧
      Feedverb.getParameterLabel kVstMaxParamStrLen Feedverb.Param_decay label ≠ "s" ∧
      Feedverb.getParameterLabel 8 Feedverb.Param_decay label = "dB" ∧
      (2 ≤ kVstMaxParamStrLen →
        Feedverb.getParameterLabel kVstMaxParamStrLen Feedverb.Param_preDelay label =
          "ms")) := by
  have d1 : ∀ n, getParameterLabel n Param_decay label =
      vst_strncpy (vst_strncpy label "s" n) "dB" n := fun n => by
    simp [getParameterLabel, Param_wet, Param_decay]
  have d2 : ∀ n, Feedverb.getParameterLabel n Feedverb.Param_decay label =
      vst_strncpy (vst_strncpy label "s" n) "dB" n := fun n => by
    simp [Feedverb.getParameterLabel, Feedverb.Param_wet, Feedverb.Param_decay]
  refine ⟨⟨?_, ?_, ?_, ?_⟩, ?_, ?_, ?_, ?_⟩
  · rw [d1]
    simp [getParameterLabel, Param_wet, Param_decay, Param_smearing, vst_strncpy]
  · rw [d1]; exact vst_strncpy_dB_ne_s _ _
  · rw [d1]; rfl
  · intro h
    simp only [getParameterLabel, Param_wet, Param_decay, Param_smearing, Param_damping,
      Param_lpfFreq, Param_hpfFreq, Param_preDelay]
    simpa using vst_strncpy_ms label _ h
  · rw [d2]
    simp [Feedverb.getParameterLabel, Feedverb.Param_wet, Feedverb.Param_decay,
      Feedverb.Param_smearing, vst_strncpy]
  · rw [d2]; exact vst_strncpy_dB_ne_s _ _
  · rw [d2]; rfl
  · intro h
    simp only [Feedverb.getParameterLabel, Feedverb.Param_wet, Feedverb.Param_decay,
      Feedverb.Param_smearing, Feedverb.Param_damping, Feedverb.Param_lpfFreq,
      Feedverb.Param_hpfFreq, Feedverb.Param_preDelay]
    simpa using vst_strncpy_ms label _ h

end MisEfx
